import Mathlib

/-!
# Verification of `helpers/prometheus.go`

Shallow embedding of the step calculator (`ComputeStep`) and of the dashboard
template renderer (`GetStaticBoard` over the `staticBoard` template), with the
properties of the specification stated and settled against them.
-/

namespace Helpers

/-! ## Durations and instants (Go package `time`) -/

/-! A `time.Duration` is a signed 64-bit count of nanoseconds and is embedded as
an `Int` in the range `minDuration .. maxDuration`.  An instant of `time.Time`
is embedded as an `Int`, its position in nanoseconds on one common time line;
instants are not bounded by the 64-bit range. -/

/-- The constant `time.Nanosecond`. -/
def Nanosecond : Int := 1

/-- The constant `time.Second`. -/
def Second : Int := 1000000000

/-- The constant `time.Minute`. -/
def Minute : Int := 60 * Second

/-- The constant `time.Hour`. -/
def Hour : Int := 60 * Minute

/-- The smallest `time.Duration`, `-1 << 63`. -/
def minDuration : Int := -9223372036854775808

/-- The largest `time.Duration`, `1<<63 - 1`. -/
def maxDuration : Int := 9223372036854775807

/-- The method `Time.Sub`: the duration `t - u`, saturated to the range of
`time.Duration` when the difference does not fit in 64 bits. -/
def Time.Sub (t u : Int) : Int :=
  if t - u < minDuration then minDuration
  else if maxDuration < t - u then maxDuration
  else t - u

/-! ## `ComputeStep` -/

/-- The method `ComputeStep` (the receiver and the context are not used by the
body): the chain of comparisons of the source, in the source's order and with
the source's redundant lower bounds. -/
def ComputeStep (start end_ : Int) : Int :=
  let diff := Time.Sub end_ start
  if diff ≤ 10 * Minute then 5 * Second
  else if diff ≤ 30 * Minute then 10 * Second
  else if diff > 30 * Minute ∧ diff ≤ Hour then 20 * Second
  else if diff > 1 * Hour ∧ diff ≤ 3 * Hour then 1 * Minute
  else if diff > 3 * Hour ∧ diff ≤ 6 * Hour then 2 * Minute
  else if diff > 6 * Hour ∧ diff ≤ 1 * 24 * Hour then 8 * Minute
  else if diff > 1 * 24 * Hour ∧ diff ≤ 2 * 24 * Hour then 16 * Minute
  else if diff > 2 * 24 * Hour ∧ diff ≤ 4 * 24 * Hour then 32 * Minute
  else if diff > 4 * 24 * Hour ∧ diff ≤ 7 * 24 * Hour then 56 * Minute
  else if diff > 7 * 24 * Hour ∧ diff ≤ 15 * 24 * Hour then 2 * Hour
  else if diff > 15 * 24 * Hour ∧ diff ≤ 1 * 30 * 24 * Hour then 4 * Hour
  else if diff > 1 * 30 * 24 * Hour ∧ diff ≤ 3 * 30 * 24 * Hour then 12 * Hour
  else if diff > 3 * 30 * 24 * Hour ∧ diff ≤ 6 * 30 * 24 * Hour then 1 * 24 * Hour
  else if diff > 6 * 30 * 24 * Hour ∧ diff ≤ 1 * 12 * 30 * 24 * Hour then 2 * 24 * Hour
  else if diff > 1 * 12 * 30 * 24 * Hour ∧ diff ≤ 2 * 12 * 30 * 24 * Hour then 4 * 24 * Hour
  else if diff > 2 * 12 * 30 * 24 * Hour ∧ diff ≤ 5 * 12 * 30 * 24 * Hour then 10 * 24 * Hour
  else 30 * 24 * Hour

/-! ## The table of the specification -/

/-- One day, the unit of the table's longer rows. -/
def Day : Int := 24 * Hour

/-- The table of section 4.2 of the specification, written from its words:
each row is an upper bound on the window length and the step of that row. -/
def specStepTable : List (Int × Int) :=
  [ (10 * Minute, 5 * Second), (30 * Minute, 10 * Second), (1 * Hour, 20 * Second),
    (3 * Hour, 1 * Minute), (6 * Hour, 2 * Minute), (1 * Day, 8 * Minute),
    (2 * Day, 16 * Minute), (4 * Day, 32 * Minute), (7 * Day, 56 * Minute),
    (15 * Day, 2 * Hour), (30 * Day, 4 * Hour), (90 * Day, 12 * Hour),
    (180 * Day, 1 * Day), (360 * Day, 2 * Day), (720 * Day, 4 * Day),
    (1800 * Day, 10 * Day) ]

/-- The step of the last, unbounded row of the table. -/
def specLastStep : Int := 30 * Day

/-- The lookup the specification describes, over any table: the step of the
first row whose bound is at least `diff`, and the last step when no row has
such a bound. -/
def lookupStep (diff : Int) : List (Int × Int) → Int
  | [] => specLastStep
  | row :: rows => if diff ≤ row.1 then row.2 else lookupStep diff rows

/-- The step the specification's table gives to a window of length `diff`. -/
def specStep (diff : Int) : Int :=
  lookupStep diff specStepTable

/-- The seventeen step values of the table, in increasing order. -/
def specSteps : List Int :=
  specStepTable.map Prod.snd ++ [specLastStep]

/-- The number of samples of a range query over a window: the window length
divided by the step, in integer arithmetic on nanoseconds. -/
def sampleCount (start end_ : Int) : Int :=
  Int.tdiv (Time.Sub end_ start) (ComputeStep start end_)

/-! ## The template engine (Go packages `text/template` and `html/template`)

`GetStaticBoard` parses `staticBoard` with the delimiters `[[` and `]]` and
executes it on a map with the keys `instances` and `indexCheck`.  The fragment
of the template language that `staticBoard` uses is embedded: text, the
declaration of a variable from a field of the data, the output of a variable,
`if ne` on two operands, and `range` with an index and an element variable. -/

/-- An operand of an action: a field of the data (`.instances`) or a variable
(`$instance`). -/
inductive Arg
  | field (name : String)
  | var (name : String)
  deriving DecidableEq, Repr

/-- A value of the data handed to `Execute`: an `int`, a `string`, or a
`[]string`. -/
inductive Value
  | int (n : Int)
  | str (s : String)
  | strs (l : List String)
  deriving DecidableEq, Repr

/-- A node of the parse tree of a template.
* `text t`: the text `t` between two actions;
* `assign v a`: the action `[[ $v := a ]]`;
* `print a`: the action `[[ a ]]`;
* `ifNe a b body`: `[[if ne a b ]] body [[ end ]]`;
* `range i e a body`: `[[ range $i, $e := a ]] body [[ end ]]`. -/
inductive Node
  | text (t : String)
  | assign (v : String) (a : Arg)
  | print (a : Arg)
  | ifNe (a b : Arg) (body : List Node)
  | range (i e : String) (a : Arg) (body : List Node)

/-- The state of an execution: the data (`dot`) and the variables in scope, the
most recent first. -/
structure Env where
  dot : List (String × Value)
  vars : List (String × Value)

/-- The value bound to a name, the most recent binding first. -/
def lookup (k : String) : List (String × Value) → Option Value
  | [] => none
  | (k', v) :: rest => if k' = k then some v else lookup k rest

/-- The value of an operand; `none` when the field or the variable is not
there, which ends the execution with an error. -/
def evalArg (env : Env) : Arg → Option Value
  | .field f => lookup f env.dot
  | .var v => lookup v env.vars

/-- The function `ne` of the template language on two basic values of one
kind; values of two kinds are an error of the execution. -/
def ne : Value → Value → Option Bool
  | .int a, .int b => some (a != b)
  | .str a, .str b => some (a != b)
  | _, _ => none

/-- The table `htmlReplacementTable` of `html/template`: the characters the
HTML escaper rewrites, and what it writes for each. -/
def htmlReplacementTable (c : Char) : Option String :=
  if c = '\x00' then some "\uFFFD"
  else if c = '"' then some "&#34;"
  else if c = '&' then some "&amp;"
  else if c = '\'' then some "&#39;"
  else if c = '+' then some "&#43;"
  else if c = '<' then some "&lt;"
  else if c = '>' then some "&gt;"
  else none

/-- The function `htmlReplacer` of `html/template` with that table: every
character of the table is replaced, every other one is kept. -/
def htmlReplacer : List Char → List Char
  | [] => []
  | c :: cs =>
    match htmlReplacementTable c with
    | some r => r.data ++ htmlReplacer cs
    | none => c :: htmlReplacer cs

/-- The escaper `html/template` appends to the pipeline of an action that
stands in HTML text: `staticBoard` has no `<`, so every action of it stands in
HTML text and every text node is written unchanged.  The value is first written
as `fmt.Sprint` writes it: a string as it is, an integer in decimal, a slice of
strings between brackets with blanks between the strings. -/
def htmlEscaper : Value → List Char
  | .str s => htmlReplacer s.data
  | .int n => htmlReplacer (toString n).data
  | .strs l => htmlReplacer ("[" ++ " ".intercalate l ++ "]").data

/-- The loop of a `range` action over a slice of strings: the body is executed
once for each element, with its index counted from `k`, and the outputs are
written one after the other. -/
def rangeLoop (body : Nat → String → Option (List Char)) :
    Nat → List String → Option (List Char)
  | _, [] => some []
  | k, s :: rest =>
    match body k s with
    | none => none
    | some o =>
      match rangeLoop body (k + 1) rest with
      | none => none
      | some o' => some (o ++ o')

mutual
/-- The execution of one node: the text written and the variables in scope
after it, or `none` for an error of the execution. -/
def execNode : Node → Env → Option (List Char × Env)
  | .text t, env => some (t.data, env)
  | .assign v a, env =>
    match evalArg env a with
    | none => none
    | some x => some ([], { env with vars := (v, x) :: env.vars })
  | .print a, env =>
    match evalArg env a with
    | none => none
    | some x => some (htmlEscaper x, env)
  | .ifNe a b body, env =>
    match evalArg env a, evalArg env b with
    | some x, some y =>
      match ne x y with
      | none => none
      | some false => some ([], env)
      | some true =>
        match execList body env with
        | none => none
        | some (o, _) => some (o, env)
    | _, _ => none
  | .range i e a body, env =>
    match evalArg env a with
    | some (.strs l) =>
      match rangeLoop (fun k s =>
          match execList body { env with vars := (e, .str s) :: (i, .int k) :: env.vars } with
          | none => none
          | some (o, _) => some o) 0 l with
      | none => none
      | some o => some (o, env)
    | _ => none
/-- The execution of a list of nodes, one after the other. -/
def execList : List Node → Env → Option (List Char × Env)
  | [], env => some ([], env)
  | n :: ns, env =>
    match execNode n env with
    | none => none
    | some (o, env') =>
      match execList ns env' with
      | none => none
      | some (o', env'') => some (o ++ o', env'')
end

/-! ## The template `staticBoard` -/

/-- The text of consecutive source lines, one literal for each line: a literal
after the first starts with the newline that ends the line before it. -/
def sourceText (ls : List String) : String :=
  String.mk (ls.foldr (fun l r => l.data ++ r) [])

/-- The text of `staticBoard` between the declaration of `$indexCheck` and the
`range` action (source lines 190 to 212). -/
def staticBoardHead : String :=
  sourceText [
    "\n\x7b",
    "\n\"annotations\": \x7b",
    "\n  \"list\": [",
    "\n\t\x7b",
    "\n\t  \"builtIn\": 1,",
    "\n\t  \"datasource\": \"-- Grafana --\",",
    "\n\t  \"enable\": true,",
    "\n\t  \"hide\": true,",
    "\n\t  \"iconColor\": \"rgba(0, 211, 255, 1)\",",
    "\n\t  \"name\": \"Annotations & Alerts\",",
    "\n\t  \"type\": \"dashboard\"",
    "\n\t\x7d",
    "\n  ]",
    "\n\x7d,",
    "\n\"editable\": false,",
    "\n\"gnetId\": null,",
    "\n\"graphTooltip\": 0,",
    "\n\"id\": 7,",
    "\n\"iteration\": 1568396170452,",
    "\n\"links\": [],",
    "\n\"panels\": [",
    "\n " ]

/-- The body of the `range` action of `staticBoard` up to the `if` action
(source lines 212 to 1337): the twelve panels of one instance, as the text
nodes and the `[[ $instance ]]` actions between them, in the order of the
source. -/
def panelBlock : List Node := [
    Node.text (sourceText [
      "\n  \x7b",
      "\n\t\"aliasColors\": \x7b\x7d,",
      "\n\t\"bars\": false,",
      "\n\t\"dashLength\": 10,",
      "\n\t\"dashes\": false,",
      "\n\t\"datasource\": \"prometheus\",",
      "\n\t\"fill\": 1,",
      "\n\t\"gridPos\": \x7b",
      "\n\t  \"h\": 7,",
      "\n\t  \"w\": 12,",
      "\n\t  \"x\": 0,",
      "\n\t  \"y\": 0",
      "\n\t\x7d,",
      "\n\t\"id\": 2,",
      "\n\t\"legend\": \x7b",
      "\n\t  \"alignAsTable\": false,",
      "\n\t  \"avg\": false,",
      "\n\t  \"current\": false,",
      "\n\t  \"max\": false,",
      "\n\t  \"min\": false,",
      "\n\t  \"rightSide\": false,",
      "\n\t  \"show\": true,",
      "\n\t  \"total\": false,",
      "\n\t  \"values\": false",
      "\n\t\x7d,",
      "\n\t\"lines\": true,",
      "\n\t\"linewidth\": 1,",
      "\n\t\"links\": [],",
      "\n\t\"nullPointMode\": \"null\",",
      "\n\t\"paceLength\": 10,",
      "\n\t\"percentage\": false,",
      "\n\t\"pointradius\": 5,",
      "\n\t\"points\": false,",
      "\n\t\"renderer\": \"flot\",",
      "\n\t\"repeat\": null,",
      "\n\t\"seriesOverrides\": [],",
      "\n\t\"spaceLength\": 10,",
      "\n\t\"stack\": false,",
      "\n\t\"steppedLine\": false,",
      "\n\t\"targets\": [",
      "\n\t  \x7b",
      "\n\t\t\"expr\": \"max(node_load1\x7bcluster=\\\"\\\", job=\\\"node-exporter\\\", instance=\\\"" ]),
    Node.print (Arg.var "instance"),
    Node.text (sourceText [
      "\\\"\x7d)\",",
      "\n\t\t\"format\": \"time_series\",",
      "\n\t\t\"intervalFactor\": 2,",
      "\n\t\t\"legendFormat\": \"load 1m\",",
      "\n\t\t\"refId\": \"A\"",
      "\n\t  \x7d,",
      "\n\t  \x7b",
      "\n\t\t\"expr\": \"max(node_load5\x7bcluster=\\\"\\\", job=\\\"node-exporter\\\", instance=\\\"" ]),
    Node.print (Arg.var "instance"),
    Node.text (sourceText [
      "\\\"\x7d)\",",
      "\n\t\t\"format\": \"time_series\",",
      "\n\t\t\"intervalFactor\": 2,",
      "\n\t\t\"legendFormat\": \"load 5m\",",
      "\n\t\t\"refId\": \"B\"",
      "\n\t  \x7d,",
      "\n\t  \x7b",
      "\n\t\t\"expr\": \"max(node_load15\x7bcluster=\\\"\\\", job=\\\"node-exporter\\\", instance=\\\"" ]),
    Node.print (Arg.var "instance"),
    Node.text (sourceText [
      "\\\"\x7d)\",",
      "\n\t\t\"format\": \"time_series\",",
      "\n\t\t\"intervalFactor\": 2,",
      "\n\t\t\"legendFormat\": \"load 15m\",",
      "\n\t\t\"refId\": \"C\"",
      "\n\t  \x7d,",
      "\n\t  \x7b",
      "\n\t\t\"expr\": \"count(node_cpu_seconds_total\x7bcluster=\\\"\\\", job=\\\"node-exporter\\\", instance=\\\"" ]),
    Node.print (Arg.var "instance"),
    Node.text (sourceText [
      "\\\", mode=\\\"user\\\"\x7d)\",",
      "\n\t\t\"format\": \"time_series\",",
      "\n\t\t\"intervalFactor\": 2,",
      "\n\t\t\"legendFormat\": \"logical cores\",",
      "\n\t\t\"refId\": \"D\"",
      "\n\t  \x7d",
      "\n\t],",
      "\n\t\"thresholds\": [],",
      "\n\t\"timeFrom\": null,",
      "\n\t\"timeRegions\": [],",
      "\n\t\"timeShift\": null,",
      "\n\t\"title\": \"System load - " ]),
    Node.print (Arg.var "instance"),
    Node.text (sourceText [
      "\",",
      "\n\t\"tooltip\": \x7b",
      "\n\t  \"shared\": false,",
      "\n\t  \"sort\": 0,",
      "\n\t  \"value_type\": \"individual\"",
      "\n\t\x7d,",
      "\n\t\"type\": \"graph\",",
      "\n\t\"xaxis\": \x7b",
      "\n\t  \"buckets\": null,",
      "\n\t  \"mode\": \"time\",",
      "\n\t  \"name\": null,",
      "\n\t  \"show\": true,",
      "\n\t  \"values\": []",
      "\n\t\x7d,",
      "\n\t\"yaxes\": [",
      "\n\t  \x7b",
      "\n\t\t\"format\": \"short\",",
      "\n\t\t\"label\": null,",
      "\n\t\t\"logBase\": 1,",
      "\n\t\t\"max\": null,",
      "\n\t\t\"min\": null,",
      "\n\t\t\"show\": true",
      "\n\t  \x7d,",
      "\n\t  \x7b",
      "\n\t\t\"format\": \"short\",",
      "\n\t\t\"label\": null,",
      "\n\t\t\"logBase\": 1,",
      "\n\t\t\"max\": null,",
      "\n\t\t\"min\": null,",
      "\n\t\t\"show\": true",
      "\n\t  \x7d",
      "\n\t],",
      "\n\t\"yaxis\": \x7b",
      "\n\t  \"align\": false,",
      "\n\t  \"alignLevel\": null",
      "\n\t\x7d",
      "\n  \x7d,",
      "\n  \x7b",
      "\n\t\"aliasColors\": \x7b\x7d,",
      "\n\t\"bars\": false,",
      "\n\t\"dashLength\": 10,",
      "\n\t\"dashes\": false,",
      "\n\t\"datasource\": \"prometheus\",",
      "\n\t\"fill\": 1,",
      "\n\t\"gridPos\": \x7b",
      "\n\t  \"h\": 7,",
      "\n\t  \"w\": 12,",
      "\n\t  \"x\": 12,",
      "\n\t  \"y\": 0",
      "\n\t\x7d,",
      "\n\t\"id\": 3,",
      "\n\t\"legend\": \x7b",
      "\n\t  \"alignAsTable\": false,",
      "\n\t  \"avg\": false,",
      "\n\t  \"current\": false,",
      "\n\t  \"max\": false,",
      "\n\t  \"min\": false,",
      "\n\t  \"rightSide\": false,",
      "\n\t  \"show\": true,",
      "\n\t  \"total\": false,",
      "\n\t  \"values\": false",
      "\n\t\x7d,",
      "\n\t\"lines\": true,",
      "\n\t\"linewidth\": 1,",
      "\n\t\"links\": [],",
      "\n\t\"nullPointMode\": \"null\",",
      "\n\t\"paceLength\": 10,",
      "\n\t\"percentage\": false,",
      "\n\t\"pointradius\": 5,",
      "\n\t\"points\": false,",
      "\n\t\"renderer\": \"flot\",",
      "\n\t\"repeat\": null,",
      "\n\t\"seriesOverrides\": [],",
      "\n\t\"spaceLength\": 10,",
      "\n\t\"stack\": false,",
      "\n\t\"steppedLine\": false,",
      "\n\t\"targets\": [",
      "\n\t  \x7b",
      "\n\t\t\"expr\": \"sum by (cpu) (irate(node_cpu_seconds_total\x7bcluster=\\\"\\\", job=\\\"node-exporter\\\", mode!=\\\"idle\\\", instance=\\\"" ]),
    Node.print (Arg.var "instance"),
    Node.text (sourceText [
      "\\\"\x7d[5m]))\",",
      "\n\t\t\"format\": \"time_series\",",
      "\n\t\t\"intervalFactor\": 2,",
      "\n\t\t\"legendFormat\": \"\x7b\x7bcpu\x7d\x7d\",",
      "\n\t\t\"refId\": \"A\"",
      "\n\t  \x7d",
      "\n\t],",
      "\n\t\"thresholds\": [],",
      "\n\t\"timeFrom\": null,",
      "\n\t\"timeRegions\": [],",
      "\n\t\"timeShift\": null,",
      "\n\t\"title\": \"Usage Per Core - " ]),
    Node.print (Arg.var "instance"),
    Node.text (sourceText [
      "\",",
      "\n\t\"tooltip\": \x7b",
      "\n\t  \"shared\": false,",
      "\n\t  \"sort\": 0,",
      "\n\t  \"value_type\": \"individual\"",
      "\n\t\x7d,",
      "\n\t\"type\": \"graph\",",
      "\n\t\"xaxis\": \x7b",
      "\n\t  \"buckets\": null,",
      "\n\t  \"mode\": \"time\",",
      "\n\t  \"name\": null,",
      "\n\t  \"show\": true,",
      "\n\t  \"values\": []",
      "\n\t\x7d,",
      "\n\t\"yaxes\": [",
      "\n\t  \x7b",
      "\n\t\t\"format\": \"percentunit\",",
      "\n\t\t\"label\": null,",
      "\n\t\t\"logBase\": 1,",
      "\n\t\t\"max\": null,",
      "\n\t\t\"min\": null,",
      "\n\t\t\"show\": true",
      "\n\t  \x7d,",
      "\n\t  \x7b",
      "\n\t\t\"format\": \"percentunit\",",
      "\n\t\t\"label\": null,",
      "\n\t\t\"logBase\": 1,",
      "\n\t\t\"max\": null,",
      "\n\t\t\"min\": null,",
      "\n\t\t\"show\": true",
      "\n\t  \x7d",
      "\n\t],",
      "\n\t\"yaxis\": \x7b",
      "\n\t  \"align\": false,",
      "\n\t  \"alignLevel\": null",
      "\n\t\x7d",
      "\n  \x7d,",
      "\n  \x7b",
      "\n\t\"aliasColors\": \x7b\x7d,",
      "\n\t\"bars\": false,",
      "\n\t\"dashLength\": 10,",
      "\n\t\"dashes\": false,",
      "\n\t\"datasource\": \"prometheus\",",
      "\n\t\"fill\": 1,",
      "\n\t\"gridPos\": \x7b",
      "\n\t  \"h\": 7,",
      "\n\t  \"w\": 18,",
      "\n\t  \"x\": 0,",
      "\n\t  \"y\": 7",
      "\n\t\x7d,",
      "\n\t\"id\": 4,",
      "\n\t\"legend\": \x7b",
      "\n\t  \"alignAsTable\": true,",
      "\n\t  \"avg\": true,",
      "\n\t  \"current\": true,",
      "\n\t  \"max\": false,",
      "\n\t  \"min\": false,",
      "\n\t  \"rightSide\": true,",
      "\n\t  \"show\": true,",
      "\n\t  \"total\": false,",
      "\n\t  \"values\": true",
      "\n\t\x7d,",
      "\n\t\"lines\": true,",
      "\n\t\"linewidth\": 1,",
      "\n\t\"links\": [],",
      "\n\t\"nullPointMode\": \"null\",",
      "\n\t\"paceLength\": 10,",
      "\n\t\"percentage\": false,",
      "\n\t\"pointradius\": 5,",
      "\n\t\"points\": false,",
      "\n\t\"renderer\": \"flot\",",
      "\n\t\"repeat\": null,",
      "\n\t\"seriesOverrides\": [],",
      "\n\t\"spaceLength\": 10,",
      "\n\t\"stack\": false,",
      "\n\t\"steppedLine\": false,",
      "\n\t\"targets\": [",
      "\n\t  \x7b",
      "\n\t\t\"expr\": \"max (sum by (cpu) (irate(node_cpu_seconds_total\x7bcluster=\\\"\\\", job=\\\"node-exporter\\\", mode!=\\\"idle\\\", instance=\\\"" ]),
    Node.print (Arg.var "instance"),
    Node.text (sourceText [
      "\\\"\x7d[2m])) ) * 100\",",
      "\n\t\t\"format\": \"time_series\",",
      "\n\t\t\"intervalFactor\": 10,",
      "\n\t\t\"legendFormat\": \"\x7b\x7b cpu \x7d\x7d\",",
      "\n\t\t\"refId\": \"A\"",
      "\n\t  \x7d",
      "\n\t],",
      "\n\t\"thresholds\": [],",
      "\n\t\"timeFrom\": null,",
      "\n\t\"timeRegions\": [],",
      "\n\t\"timeShift\": null,",
      "\n\t\"title\": \"CPU Utilization - " ]),
    Node.print (Arg.var "instance"),
    Node.text (sourceText [
      "\",",
      "\n\t\"tooltip\": \x7b",
      "\n\t  \"shared\": false,",
      "\n\t  \"sort\": 0,",
      "\n\t  \"value_type\": \"individual\"",
      "\n\t\x7d,",
      "\n\t\"type\": \"graph\",",
      "\n\t\"xaxis\": \x7b",
      "\n\t  \"buckets\": null,",
      "\n\t  \"mode\": \"time\",",
      "\n\t  \"name\": null,",
      "\n\t  \"show\": true,",
      "\n\t  \"values\": []",
      "\n\t\x7d,",
      "\n\t\"yaxes\": [",
      "\n\t  \x7b",
      "\n\t\t\"format\": \"percent\",",
      "\n\t\t\"label\": null,",
      "\n\t\t\"logBase\": 1,",
      "\n\t\t\"max\": 100,",
      "\n\t\t\"min\": 0,",
      "\n\t\t\"show\": true",
      "\n\t  \x7d,",
      "\n\t  \x7b",
      "\n\t\t\"format\": \"percent\",",
      "\n\t\t\"label\": null,",
      "\n\t\t\"logBase\": 1,",
      "\n\t\t\"max\": 100,",
      "\n\t\t\"min\": 0,",
      "\n\t\t\"show\": true",
      "\n\t  \x7d",
      "\n\t],",
      "\n\t\"yaxis\": \x7b",
      "\n\t  \"align\": false,",
      "\n\t  \"alignLevel\": null",
      "\n\t\x7d",
      "\n  \x7d,",
      "\n  \x7b",
      "\n\t\"cacheTimeout\": null,",
      "\n\t\"colorBackground\": false,",
      "\n\t\"colorValue\": false,",
      "\n\t\"colors\": [",
      "\n\t  \"rgba(50, 172, 45, 0.97)\",",
      "\n\t  \"rgba(237, 129, 40, 0.89)\",",
      "\n\t  \"rgba(245, 54, 54, 0.9)\"",
      "\n\t],",
      "\n\t\"datasource\": \"prometheus\",",
      "\n\t\"format\": \"percent\",",
      "\n\t\"gauge\": \x7b",
      "\n\t  \"maxValue\": 100,",
      "\n\t  \"minValue\": 0,",
      "\n\t  \"show\": true,",
      "\n\t  \"thresholdLabels\": false,",
      "\n\t  \"thresholdMarkers\": true",
      "\n\t\x7d,",
      "\n\t\"gridPos\": \x7b",
      "\n\t  \"h\": 7,",
      "\n\t  \"w\": 6,",
      "\n\t  \"x\": 18,",
      "\n\t  \"y\": 7",
      "\n\t\x7d,",
      "\n\t\"id\": 5,",
      "\n\t\"interval\": null,",
      "\n\t\"links\": [],",
      "\n\t\"mappingType\": 1,",
      "\n\t\"mappingTypes\": [",
      "\n\t  \x7b",
      "\n\t\t\"name\": \"value to text\",",
      "\n\t\t\"value\": 1",
      "\n\t  \x7d,",
      "\n\t  \x7b",
      "\n\t\t\"name\": \"range to text\",",
      "\n\t\t\"value\": 2",
      "\n\t  \x7d",
      "\n\t],",
      "\n\t\"maxDataPoints\": 100,",
      "\n\t\"nullPointMode\": \"connected\",",
      "\n\t\"nullText\": null,",
      "\n\t\"postfix\": \"\",",
      "\n\t\"postfixFontSize\": \"50%\",",
      "\n\t\"prefix\": \"\",",
      "\n\t\"prefixFontSize\": \"50%\",",
      "\n\t\"rangeMaps\": [",
      "\n\t  \x7b",
      "\n\t\t\"from\": \"null\",",
      "\n\t\t\"text\": \"N/A\",",
      "\n\t\t\"to\": \"null\"",
      "\n\t  \x7d",
      "\n\t],",
      "\n\t\"sparkline\": \x7b",
      "\n\t  \"fillColor\": \"rgba(31, 118, 189, 0.18)\",",
      "\n\t  \"full\": false,",
      "\n\t  \"lineColor\": \"rgb(31, 120, 193)\",",
      "\n\t  \"show\": false",
      "\n\t\x7d,",
      "\n\t\"tableColumn\": \"\",",
      "\n\t\"targets\": [",
      "\n\t  \x7b",
      "\n\t\t\"expr\": \"avg(sum by (cpu) (irate(node_cpu_seconds_total\x7bcluster=\\\"\\\", job=\\\"node-exporter\\\", mode!=\\\"idle\\\", instance=\\\"" ]),
    Node.print (Arg.var "instance"),
    Node.text (sourceText [
      "\\\"\x7d[2m]))) * 100\",",
      "\n\t\t\"format\": \"time_series\",",
      "\n\t\t\"intervalFactor\": 2,",
      "\n\t\t\"legendFormat\": \"\",",
      "\n\t\t\"refId\": \"A\"",
      "\n\t  \x7d",
      "\n\t],",
      "\n\t\"thresholds\": \"80, 90\",",
      "\n\t\"title\": \"CPU Usage - " ]),
    Node.print (Arg.var "instance"),
    Node.text (sourceText [
      "\",",
      "\n\t\"tooltip\": \x7b",
      "\n\t  \"shared\": false",
      "\n\t\x7d,",
      "\n\t\"type\": \"singlestat\",",
      "\n\t\"valueFontSize\": \"80%\",",
      "\n\t\"valueMaps\": [",
      "\n\t  \x7b",
      "\n\t\t\"op\": \"=\",",
      "\n\t\t\"text\": \"N/A\",",
      "\n\t\t\"value\": \"null\"",
      "\n\t  \x7d",
      "\n\t],",
      "\n\t\"valueName\": \"current\"",
      "\n  \x7d,",
      "\n  \x7b",
      "\n\t\"aliasColors\": \x7b\x7d,",
      "\n\t\"bars\": false,",
      "\n\t\"dashLength\": 10,",
      "\n\t\"dashes\": false,",
      "\n\t\"datasource\": \"prometheus\",",
      "\n\t\"fill\": 1,",
      "\n\t\"gridPos\": \x7b",
      "\n\t  \"h\": 7,",
      "\n\t  \"w\": 18,",
      "\n\t  \"x\": 0,",
      "\n\t  \"y\": 14",
      "\n\t\x7d,",
      "\n\t\"id\": 6,",
      "\n\t\"legend\": \x7b",
      "\n\t  \"alignAsTable\": false,",
      "\n\t  \"avg\": false,",
      "\n\t  \"current\": false,",
      "\n\t  \"max\": false,",
      "\n\t  \"min\": false,",
      "\n\t  \"rightSide\": false,",
      "\n\t  \"show\": true,",
      "\n\t  \"total\": false,",
      "\n\t  \"values\": false",
      "\n\t\x7d,",
      "\n\t\"lines\": true,",
      "\n\t\"linewidth\": 1,",
      "\n\t\"links\": [],",
      "\n\t\"nullPointMode\": \"null\",",
      "\n\t\"paceLength\": 10,",
      "\n\t\"percentage\": false,",
      "\n\t\"pointradius\": 5,",
      "\n\t\"points\": false,",
      "\n\t\"renderer\": \"flot\",",
      "\n\t\"repeat\": null,",
      "\n\t\"seriesOverrides\": [],",
      "\n\t\"spaceLength\": 10,",
      "\n\t\"stack\": false,",
      "\n\t\"steppedLine\": false,",
      "\n\t\"targets\": [",
      "\n\t  \x7b",
      "\n\t\t\"expr\": \"max(node_memory_MemTotal_bytes\x7bcluster=\\\"\\\", job=\\\"node-exporter\\\", instance=\\\"" ]),
    Node.print (Arg.var "instance"),
    Node.text (sourceText [
      "\\\"\x7d  - node_memory_MemFree_bytes\x7bcluster=\\\"\\\", job=\\\"node-exporter\\\", instance=\\\"" ]),
    Node.print (Arg.var "instance"),
    Node.text (sourceText [
      "\\\"\x7d  - node_memory_Buffers_bytes\x7bcluster=\\\"\\\", job=\\\"node-exporter\\\", instance=\\\"" ]),
    Node.print (Arg.var "instance"),
    Node.text (sourceText [
      "\\\"\x7d  - node_memory_Cached_bytes\x7bcluster=\\\"\\\", job=\\\"node-exporter\\\", instance=\\\"" ]),
    Node.print (Arg.var "instance"),
    Node.text (sourceText [
      "\\\"\x7d)\",",
      "\n\t\t\"format\": \"time_series\",",
      "\n\t\t\"intervalFactor\": 2,",
      "\n\t\t\"legendFormat\": \"memory used\",",
      "\n\t\t\"refId\": \"A\"",
      "\n\t  \x7d,",
      "\n\t  \x7b",
      "\n\t\t\"expr\": \"max(node_memory_Buffers_bytes\x7bcluster=\\\"\\\", job=\\\"node-exporter\\\", instance=\\\"" ]),
    Node.print (Arg.var "instance"),
    Node.text (sourceText [
      "\\\"\x7d)\",",
      "\n\t\t\"format\": \"time_series\",",
      "\n\t\t\"intervalFactor\": 2,",
      "\n\t\t\"legendFormat\": \"memory buffers\",",
      "\n\t\t\"refId\": \"B\"",
      "\n\t  \x7d,",
      "\n\t  \x7b",
      "\n\t\t\"expr\": \"max(node_memory_Cached_bytes\x7bcluster=\\\"\\\", job=\\\"node-exporter\\\", instance=\\\"" ]),
    Node.print (Arg.var "instance"),
    Node.text (sourceText [
      "\\\"\x7d)\",",
      "\n\t\t\"format\": \"time_series\",",
      "\n\t\t\"intervalFactor\": 2,",
      "\n\t\t\"legendFormat\": \"memory cached\",",
      "\n\t\t\"refId\": \"C\"",
      "\n\t  \x7d,",
      "\n\t  \x7b",
      "\n\t\t\"expr\": \"max(node_memory_MemFree_bytes\x7bcluster=\\\"\\\", job=\\\"node-exporter\\\", instance=\\\"" ]),
    Node.print (Arg.var "instance"),
    Node.text (sourceText [
      "\\\"\x7d)\",",
      "\n\t\t\"format\": \"time_series\",",
      "\n\t\t\"intervalFactor\": 2,",
      "\n\t\t\"legendFormat\": \"memory free\",",
      "\n\t\t\"refId\": \"D\"",
      "\n\t  \x7d",
      "\n\t],",
      "\n\t\"thresholds\": [],",
      "\n\t\"timeFrom\": null,",
      "\n\t\"timeRegions\": [],",
      "\n\t\"timeShift\": null,",
      "\n\t\"title\": \"Memory Usage - " ]),
    Node.print (Arg.var "instance"),
    Node.text (sourceText [
      "\",",
      "\n\t\"tooltip\": \x7b",
      "\n\t  \"shared\": false,",
      "\n\t  \"sort\": 0,",
      "\n\t  \"value_type\": \"individual\"",
      "\n\t\x7d,",
      "\n\t\"type\": \"graph\",",
      "\n\t\"xaxis\": \x7b",
      "\n\t  \"buckets\": null,",
      "\n\t  \"mode\": \"time\",",
      "\n\t  \"name\": null,",
      "\n\t  \"show\": true,",
      "\n\t  \"values\": []",
      "\n\t\x7d,",
      "\n\t\"yaxes\": [",
      "\n\t  \x7b",
      "\n\t\t\"format\": \"bytes\",",
      "\n\t\t\"label\": null,",
      "\n\t\t\"logBase\": 1,",
      "\n\t\t\"max\": null,",
      "\n\t\t\"min\": null,",
      "\n\t\t\"show\": true",
      "\n\t  \x7d,",
      "\n\t  \x7b",
      "\n\t\t\"format\": \"bytes\",",
      "\n\t\t\"label\": null,",
      "\n\t\t\"logBase\": 1,",
      "\n\t\t\"max\": null,",
      "\n\t\t\"min\": null,",
      "\n\t\t\"show\": true",
      "\n\t  \x7d",
      "\n\t],",
      "\n\t\"yaxis\": \x7b",
      "\n\t  \"align\": false,",
      "\n\t  \"alignLevel\": null",
      "\n\t\x7d",
      "\n  \x7d,",
      "\n  \x7b",
      "\n\t\"cacheTimeout\": null,",
      "\n\t\"colorBackground\": false,",
      "\n\t\"colorValue\": false,",
      "\n\t\"colors\": [",
      "\n\t  \"rgba(50, 172, 45, 0.97)\",",
      "\n\t  \"rgba(237, 129, 40, 0.89)\",",
      "\n\t  \"rgba(245, 54, 54, 0.9)\"",
      "\n\t],",
      "\n\t\"datasource\": \"prometheus\",",
      "\n\t\"format\": \"percent\",",
      "\n\t\"gauge\": \x7b",
      "\n\t  \"maxValue\": 100,",
      "\n\t  \"minValue\": 0,",
      "\n\t  \"show\": true,",
      "\n\t  \"thresholdLabels\": false,",
      "\n\t  \"thresholdMarkers\": true",
      "\n\t\x7d,",
      "\n\t\"gridPos\": \x7b",
      "\n\t  \"h\": 7,",
      "\n\t  \"w\": 6,",
      "\n\t  \"x\": 18,",
      "\n\t  \"y\": 14",
      "\n\t\x7d,",
      "\n\t\"id\": 7,",
      "\n\t\"interval\": null,",
      "\n\t\"links\": [],",
      "\n\t\"mappingType\": 1,",
      "\n\t\"mappingTypes\": [",
      "\n\t  \x7b",
      "\n\t\t\"name\": \"value to text\",",
      "\n\t\t\"value\": 1",
      "\n\t  \x7d,",
      "\n\t  \x7b",
      "\n\t\t\"name\": \"range to text\",",
      "\n\t\t\"value\": 2",
      "\n\t  \x7d",
      "\n\t],",
      "\n\t\"maxDataPoints\": 100,",
      "\n\t\"nullPointMode\": \"connected\",",
      "\n\t\"nullText\": null,",
      "\n\t\"postfix\": \"\",",
      "\n\t\"postfixFontSize\": \"50%\",",
      "\n\t\"prefix\": \"\",",
      "\n\t\"prefixFontSize\": \"50%\",",
      "\n\t\"rangeMaps\": [",
      "\n\t  \x7b",
      "\n\t\t\"from\": \"null\",",
      "\n\t\t\"text\": \"N/A\",",
      "\n\t\t\"to\": \"null\"",
      "\n\t  \x7d",
      "\n\t],",
      "\n\t\"sparkline\": \x7b",
      "\n\t  \"fillColor\": \"rgba(31, 118, 189, 0.18)\",",
      "\n\t  \"full\": false,",
      "\n\t  \"lineColor\": \"rgb(31, 120, 193)\",",
      "\n\t  \"show\": false",
      "\n\t\x7d,",
      "\n\t\"tableColumn\": \"\",",
      "\n\t\"targets\": [",
      "\n\t  \x7b",
      "\n\t\t\"expr\": \"max(  (    (      node_memory_MemTotal_bytes\x7bcluster=\\\"\\\", job=\\\"node-exporter\\\", instance=\\\"" ]),
    Node.print (Arg.var "instance"),
    Node.text (sourceText [
      "\\\"\x7d    - node_memory_MemFree_bytes\x7bcluster=\\\"\\\", job=\\\"node-exporter\\\", instance=\\\"" ]),
    Node.print (Arg.var "instance"),
    Node.text (sourceText [
      "\\\"\x7d    - node_memory_Buffers_bytes\x7bcluster=\\\"\\\", job=\\\"node-exporter\\\", instance=\\\"" ]),
    Node.print (Arg.var "instance"),
    Node.text (sourceText [
      "\\\"\x7d    - node_memory_Cached_bytes\x7bcluster=\\\"\\\", job=\\\"node-exporter\\\", instance=\\\"" ]),
    Node.print (Arg.var "instance"),
    Node.text (sourceText [
      "\\\"\x7d    )    / node_memory_MemTotal_bytes\x7bcluster=\\\"\\\", job=\\\"node-exporter\\\", instance=\\\"" ]),
    Node.print (Arg.var "instance"),
    Node.text (sourceText [
      "\\\"\x7d  ) * 100)\",",
      "\n\t\t\"format\": \"time_series\",",
      "\n\t\t\"intervalFactor\": 2,",
      "\n\t\t\"legendFormat\": \"\",",
      "\n\t\t\"refId\": \"A\"",
      "\n\t  \x7d",
      "\n\t],",
      "\n\t\"thresholds\": \"80, 90\",",
      "\n\t\"title\": \"Memory Usage - " ]),
    Node.print (Arg.var "instance"),
    Node.text (sourceText [
      "\",",
      "\n\t\"tooltip\": \x7b",
      "\n\t  \"shared\": false",
      "\n\t\x7d,",
      "\n\t\"type\": \"singlestat\",",
      "\n\t\"valueFontSize\": \"80%\",",
      "\n\t\"valueMaps\": [",
      "\n\t  \x7b",
      "\n\t\t\"op\": \"=\",",
      "\n\t\t\"text\": \"N/A\",",
      "\n\t\t\"value\": \"null\"",
      "\n\t  \x7d",
      "\n\t],",
      "\n\t\"valueName\": \"current\"",
      "\n  \x7d,",
      "\n  \x7b",
      "\n\t\"aliasColors\": \x7b\x7d,",
      "\n\t\"bars\": false,",
      "\n\t\"dashLength\": 10,",
      "\n\t\"dashes\": false,",
      "\n\t\"datasource\": \"prometheus\",",
      "\n\t\"fill\": 1,",
      "\n\t\"gridPos\": \x7b",
      "\n\t  \"h\": 7,",
      "\n\t  \"w\": 12,",
      "\n\t  \"x\": 0,",
      "\n\t  \"y\": 21",
      "\n\t\x7d,",
      "\n\t\"id\": 8,",
      "\n\t\"legend\": \x7b",
      "\n\t  \"alignAsTable\": false,",
      "\n\t  \"avg\": false,",
      "\n\t  \"current\": false,",
      "\n\t  \"max\": false,",
      "\n\t  \"min\": false,",
      "\n\t  \"rightSide\": false,",
      "\n\t  \"show\": true,",
      "\n\t  \"total\": false,",
      "\n\t  \"values\": false",
      "\n\t\x7d,",
      "\n\t\"lines\": true,",
      "\n\t\"linewidth\": 1,",
      "\n\t\"links\": [],",
      "\n\t\"nullPointMode\": \"null\",",
      "\n\t\"paceLength\": 10,",
      "\n\t\"percentage\": false,",
      "\n\t\"pointradius\": 5,",
      "\n\t\"points\": false,",
      "\n\t\"renderer\": \"flot\",",
      "\n\t\"repeat\": null,",
      "\n\t\"seriesOverrides\": [",
      "\n\t  \x7b",
      "\n\t\t\"alias\": \"read\",",
      "\n\t\t\"yaxis\": 1",
      "\n\t  \x7d,",
      "\n\t  \x7b",
      "\n\t\t\"alias\": \"io time\",",
      "\n\t\t\"yaxis\": 2",
      "\n\t  \x7d",
      "\n\t],",
      "\n\t\"spaceLength\": 10,",
      "\n\t\"stack\": false,",
      "\n\t\"steppedLine\": false,",
      "\n\t\"targets\": [",
      "\n\t  \x7b",
      "\n\t\t\"expr\": \"max(rate(node_disk_read_bytes_total\x7bcluster=\\\"\\\", job=\\\"node-exporter\\\", instance=\\\"" ]),
    Node.print (Arg.var "instance"),
    Node.text (sourceText [
      "\\\"\x7d[2m]))\",",
      "\n\t\t\"format\": \"time_series\",",
      "\n\t\t\"intervalFactor\": 2,",
      "\n\t\t\"legendFormat\": \"read\",",
      "\n\t\t\"refId\": \"A\"",
      "\n\t  \x7d,",
      "\n\t  \x7b",
      "\n\t\t\"expr\": \"max(rate(node_disk_written_bytes_total\x7bcluster=\\\"\\\", job=\\\"node-exporter\\\", instance=\\\"" ]),
    Node.print (Arg.var "instance"),
    Node.text (sourceText [
      "\\\"\x7d[2m]))\",",
      "\n\t\t\"format\": \"time_series\",",
      "\n\t\t\"intervalFactor\": 2,",
      "\n\t\t\"legendFormat\": \"written\",",
      "\n\t\t\"refId\": \"B\"",
      "\n\t  \x7d,",
      "\n\t  \x7b",
      "\n\t\t\"expr\": \"max(rate(node_disk_io_time_seconds_total\x7bcluster=\\\"\\\", job=\\\"node-exporter\\\",  instance=\\\"" ]),
    Node.print (Arg.var "instance"),
    Node.text (sourceText [
      "\\\"\x7d[2m]))\",",
      "\n\t\t\"format\": \"time_series\",",
      "\n\t\t\"intervalFactor\": 2,",
      "\n\t\t\"legendFormat\": \"io time\",",
      "\n\t\t\"refId\": \"C\"",
      "\n\t  \x7d",
      "\n\t],",
      "\n\t\"thresholds\": [],",
      "\n\t\"timeFrom\": null,",
      "\n\t\"timeRegions\": [],",
      "\n\t\"timeShift\": null,",
      "\n\t\"title\": \"Disk I/O - " ]),
    Node.print (Arg.var "instance"),
    Node.text (sourceText [
      "\",",
      "\n\t\"tooltip\": \x7b",
      "\n\t  \"shared\": false,",
      "\n\t  \"sort\": 0,",
      "\n\t  \"value_type\": \"individual\"",
      "\n\t\x7d,",
      "\n\t\"type\": \"graph\",",
      "\n\t\"xaxis\": \x7b",
      "\n\t  \"buckets\": null,",
      "\n\t  \"mode\": \"time\",",
      "\n\t  \"name\": null,",
      "\n\t  \"show\": true,",
      "\n\t  \"values\": []",
      "\n\t\x7d,",
      "\n\t\"yaxes\": [",
      "\n\t  \x7b",
      "\n\t\t\"format\": \"bytes\",",
      "\n\t\t\"label\": null,",
      "\n\t\t\"logBase\": 1,",
      "\n\t\t\"max\": null,",
      "\n\t\t\"min\": null,",
      "\n\t\t\"show\": true",
      "\n\t  \x7d,",
      "\n\t  \x7b",
      "\n\t\t\"format\": \"ms\",",
      "\n\t\t\"label\": null,",
      "\n\t\t\"logBase\": 1,",
      "\n\t\t\"max\": null,",
      "\n\t\t\"min\": null,",
      "\n\t\t\"show\": true",
      "\n\t  \x7d",
      "\n\t],",
      "\n\t\"yaxis\": \x7b",
      "\n\t  \"align\": false,",
      "\n\t  \"alignLevel\": null",
      "\n\t\x7d",
      "\n  \x7d,",
      "\n  \x7b",
      "\n\t\"aliasColors\": \x7b\x7d,",
      "\n\t\"bars\": false,",
      "\n\t\"dashLength\": 10,",
      "\n\t\"dashes\": false,",
      "\n\t\"datasource\": \"prometheus\",",
      "\n\t\"fill\": 1,",
      "\n\t\"gridPos\": \x7b",
      "\n\t  \"h\": 7,",
      "\n\t  \"w\": 12,",
      "\n\t  \"x\": 12,",
      "\n\t  \"y\": 21",
      "\n\t\x7d,",
      "\n\t\"id\": 9,",
      "\n\t\"legend\": \x7b",
      "\n\t  \"alignAsTable\": false,",
      "\n\t  \"avg\": false,",
      "\n\t  \"current\": false,",
      "\n\t  \"max\": false,",
      "\n\t  \"min\": false,",
      "\n\t  \"rightSide\": false,",
      "\n\t  \"show\": true,",
      "\n\t  \"total\": false,",
      "\n\t  \"values\": false",
      "\n\t\x7d,",
      "\n\t\"lines\": true,",
      "\n\t\"linewidth\": 1,",
      "\n\t\"links\": [],",
      "\n\t\"nullPointMode\": \"null\",",
      "\n\t\"paceLength\": 10,",
      "\n\t\"percentage\": false,",
      "\n\t\"pointradius\": 5,",
      "\n\t\"points\": false,",
      "\n\t\"renderer\": \"flot\",",
      "\n\t\"repeat\": null,",
      "\n\t\"seriesOverrides\": [],",
      "\n\t\"spaceLength\": 10,",
      "\n\t\"stack\": false,",
      "\n\t\"steppedLine\": false,",
      "\n\t\"targets\": [",
      "\n\t  \x7b",
      "\n\t\t\"expr\": \"node:node_filesystem_usage:\x7bcluster=\\\"\\\"\x7d\",",
      "\n\t\t\"format\": \"time_series\",",
      "\n\t\t\"intervalFactor\": 2,",
      "\n\t\t\"legendFormat\": \"\x7b\x7bdevice\x7d\x7d\",",
      "\n\t\t\"refId\": \"A\"",
      "\n\t  \x7d",
      "\n\t],",
      "\n\t\"thresholds\": [],",
      "\n\t\"timeFrom\": null,",
      "\n\t\"timeRegions\": [],",
      "\n\t\"timeShift\": null,",
      "\n\t\"title\": \"Disk Space Usage - " ]),
    Node.print (Arg.var "instance"),
    Node.text (sourceText [
      "\",",
      "\n\t\"tooltip\": \x7b",
      "\n\t  \"shared\": false,",
      "\n\t  \"sort\": 0,",
      "\n\t  \"value_type\": \"individual\"",
      "\n\t\x7d,",
      "\n\t\"type\": \"graph\",",
      "\n\t\"xaxis\": \x7b",
      "\n\t  \"buckets\": null,",
      "\n\t  \"mode\": \"time\",",
      "\n\t  \"name\": null,",
      "\n\t  \"show\": true,",
      "\n\t  \"values\": []",
      "\n\t\x7d,",
      "\n\t\"yaxes\": [",
      "\n\t  \x7b",
      "\n\t\t\"format\": \"percentunit\",",
      "\n\t\t\"label\": null,",
      "\n\t\t\"logBase\": 1,",
      "\n\t\t\"max\": null,",
      "\n\t\t\"min\": null,",
      "\n\t\t\"show\": true",
      "\n\t  \x7d,",
      "\n\t  \x7b",
      "\n\t\t\"format\": \"percentunit\",",
      "\n\t\t\"label\": null,",
      "\n\t\t\"logBase\": 1,",
      "\n\t\t\"max\": null,",
      "\n\t\t\"min\": null,",
      "\n\t\t\"show\": true",
      "\n\t  \x7d",
      "\n\t],",
      "\n\t\"yaxis\": \x7b",
      "\n\t  \"align\": false,",
      "\n\t  \"alignLevel\": null",
      "\n\t\x7d",
      "\n  \x7d,",
      "\n  \x7b",
      "\n\t\"aliasColors\": \x7b\x7d,",
      "\n\t\"bars\": false,",
      "\n\t\"dashLength\": 10,",
      "\n\t\"dashes\": false,",
      "\n\t\"datasource\": \"prometheus\",",
      "\n\t\"fill\": 1,",
      "\n\t\"gridPos\": \x7b",
      "\n\t  \"h\": 7,",
      "\n\t  \"w\": 12,",
      "\n\t  \"x\": 0,",
      "\n\t  \"y\": 28",
      "\n\t\x7d,",
      "\n\t\"id\": 10,",
      "\n\t\"legend\": \x7b",
      "\n\t  \"alignAsTable\": false,",
      "\n\t  \"avg\": false,",
      "\n\t  \"current\": false,",
      "\n\t  \"max\": false,",
      "\n\t  \"min\": false,",
      "\n\t  \"rightSide\": false,",
      "\n\t  \"show\": true,",
      "\n\t  \"total\": false,",
      "\n\t  \"values\": false",
      "\n\t\x7d,",
      "\n\t\"lines\": true,",
      "\n\t\"linewidth\": 1,",
      "\n\t\"links\": [],",
      "\n\t\"nullPointMode\": \"null\",",
      "\n\t\"paceLength\": 10,",
      "\n\t\"percentage\": false,",
      "\n\t\"pointradius\": 5,",
      "\n\t\"points\": false,",
      "\n\t\"renderer\": \"flot\",",
      "\n\t\"repeat\": null,",
      "\n\t\"seriesOverrides\": [],",
      "\n\t\"spaceLength\": 10,",
      "\n\t\"stack\": false,",
      "\n\t\"steppedLine\": false,",
      "\n\t\"targets\": [",
      "\n\t  \x7b",
      "\n\t\t\"expr\": \"max(rate(node_network_receive_bytes_total\x7bcluster=\\\"\\\", job=\\\"node-exporter\\\", instance=\\\"" ]),
    Node.print (Arg.var "instance"),
    Node.text (sourceText [
      "\\\", device!~\\\"lo\\\"\x7d[5m]))\",",
      "\n\t\t\"format\": \"time_series\",",
      "\n\t\t\"intervalFactor\": 2,",
      "\n\t\t\"legendFormat\": \"\x7b\x7bdevice\x7d\x7d\",",
      "\n\t\t\"refId\": \"A\"",
      "\n\t  \x7d",
      "\n\t],",
      "\n\t\"thresholds\": [],",
      "\n\t\"timeFrom\": null,",
      "\n\t\"timeRegions\": [],",
      "\n\t\"timeShift\": null,",
      "\n\t\"title\": \"Network Received - " ]),
    Node.print (Arg.var "instance"),
    Node.text (sourceText [
      "\",",
      "\n\t\"tooltip\": \x7b",
      "\n\t  \"shared\": false,",
      "\n\t  \"sort\": 0,",
      "\n\t  \"value_type\": \"individual\"",
      "\n\t\x7d,",
      "\n\t\"type\": \"graph\",",
      "\n\t\"xaxis\": \x7b",
      "\n\t  \"buckets\": null,",
      "\n\t  \"mode\": \"time\",",
      "\n\t  \"name\": null,",
      "\n\t  \"show\": true,",
      "\n\t  \"values\": []",
      "\n\t\x7d,",
      "\n\t\"yaxes\": [",
      "\n\t  \x7b",
      "\n\t\t\"format\": \"bytes\",",
      "\n\t\t\"label\": null,",
      "\n\t\t\"logBase\": 1,",
      "\n\t\t\"max\": null,",
      "\n\t\t\"min\": null,",
      "\n\t\t\"show\": true",
      "\n\t  \x7d,",
      "\n\t  \x7b",
      "\n\t\t\"format\": \"bytes\",",
      "\n\t\t\"label\": null,",
      "\n\t\t\"logBase\": 1,",
      "\n\t\t\"max\": null,",
      "\n\t\t\"min\": null,",
      "\n\t\t\"show\": true",
      "\n\t  \x7d",
      "\n\t],",
      "\n\t\"yaxis\": \x7b",
      "\n\t  \"align\": false,",
      "\n\t  \"alignLevel\": null",
      "\n\t\x7d",
      "\n  \x7d,",
      "\n  \x7b",
      "\n\t\"aliasColors\": \x7b\x7d,",
      "\n\t\"bars\": false,",
      "\n\t\"dashLength\": 10,",
      "\n\t\"dashes\": false,",
      "\n\t\"datasource\": \"prometheus\",",
      "\n\t\"fill\": 1,",
      "\n\t\"gridPos\": \x7b",
      "\n\t  \"h\": 7,",
      "\n\t  \"w\": 12,",
      "\n\t  \"x\": 12,",
      "\n\t  \"y\": 28",
      "\n\t\x7d,",
      "\n\t\"id\": 11,",
      "\n\t\"legend\": \x7b",
      "\n\t  \"alignAsTable\": false,",
      "\n\t  \"avg\": false,",
      "\n\t  \"current\": false,",
      "\n\t  \"max\": false,",
      "\n\t  \"min\": false,",
      "\n\t  \"rightSide\": false,",
      "\n\t  \"show\": true,",
      "\n\t  \"total\": false,",
      "\n\t  \"values\": false",
      "\n\t\x7d,",
      "\n\t\"lines\": true,",
      "\n\t\"linewidth\": 1,",
      "\n\t\"links\": [],",
      "\n\t\"nullPointMode\": \"null\",",
      "\n\t\"paceLength\": 10,",
      "\n\t\"percentage\": false,",
      "\n\t\"pointradius\": 5,",
      "\n\t\"points\": false,",
      "\n\t\"renderer\": \"flot\",",
      "\n\t\"repeat\": null,",
      "\n\t\"seriesOverrides\": [],",
      "\n\t\"spaceLength\": 10,",
      "\n\t\"stack\": false,",
      "\n\t\"steppedLine\": false,",
      "\n\t\"targets\": [",
      "\n\t  \x7b",
      "\n\t\t\"expr\": \"max(rate(node_network_transmit_bytes_total\x7bcluster=\\\"\\\", job=\\\"node-exporter\\\", instance=\\\"" ]),
    Node.print (Arg.var "instance"),
    Node.text (sourceText [
      "\\\", device!~\\\"lo\\\"\x7d[5m]))\",",
      "\n\t\t\"format\": \"time_series\",",
      "\n\t\t\"intervalFactor\": 2,",
      "\n\t\t\"legendFormat\": \"\x7b\x7bdevice\x7d\x7d\",",
      "\n\t\t\"refId\": \"A\"",
      "\n\t  \x7d",
      "\n\t],",
      "\n\t\"thresholds\": [],",
      "\n\t\"timeFrom\": null,",
      "\n\t\"timeRegions\": [],",
      "\n\t\"timeShift\": null,",
      "\n\t\"title\": \"Network Transmitted - " ]),
    Node.print (Arg.var "instance"),
    Node.text (sourceText [
      "\",",
      "\n\t\"tooltip\": \x7b",
      "\n\t  \"shared\": false,",
      "\n\t  \"sort\": 0,",
      "\n\t  \"value_type\": \"individual\"",
      "\n\t\x7d,",
      "\n\t\"type\": \"graph\",",
      "\n\t\"xaxis\": \x7b",
      "\n\t  \"buckets\": null,",
      "\n\t  \"mode\": \"time\",",
      "\n\t  \"name\": null,",
      "\n\t  \"show\": true,",
      "\n\t  \"values\": []",
      "\n\t\x7d,",
      "\n\t\"yaxes\": [",
      "\n\t  \x7b",
      "\n\t\t\"format\": \"bytes\",",
      "\n\t\t\"label\": null,",
      "\n\t\t\"logBase\": 1,",
      "\n\t\t\"max\": null,",
      "\n\t\t\"min\": null,",
      "\n\t\t\"show\": true",
      "\n\t  \x7d,",
      "\n\t  \x7b",
      "\n\t\t\"format\": \"bytes\",",
      "\n\t\t\"label\": null,",
      "\n\t\t\"logBase\": 1,",
      "\n\t\t\"max\": null,",
      "\n\t\t\"min\": null,",
      "\n\t\t\"show\": true",
      "\n\t  \x7d",
      "\n\t],",
      "\n\t\"yaxis\": \x7b",
      "\n\t  \"align\": false,",
      "\n\t  \"alignLevel\": null",
      "\n\t\x7d",
      "\n  \x7d,",
      "\n  \x7b",
      "\n\t\"aliasColors\": \x7b\x7d,",
      "\n\t\"bars\": false,",
      "\n\t\"dashLength\": 10,",
      "\n\t\"dashes\": false,",
      "\n\t\"datasource\": \"prometheus\",",
      "\n\t\"fill\": 1,",
      "\n\t\"gridPos\": \x7b",
      "\n\t  \"h\": 7,",
      "\n\t  \"w\": 18,",
      "\n\t  \"x\": 0,",
      "\n\t  \"y\": 35",
      "\n\t\x7d,",
      "\n\t\"id\": 12,",
      "\n\t\"legend\": \x7b",
      "\n\t  \"alignAsTable\": false,",
      "\n\t  \"avg\": false,",
      "\n\t  \"current\": false,",
      "\n\t  \"max\": false,",
      "\n\t  \"min\": false,",
      "\n\t  \"rightSide\": false,",
      "\n\t  \"show\": true,",
      "\n\t  \"total\": false,",
      "\n\t  \"values\": false",
      "\n\t\x7d,",
      "\n\t\"lines\": true,",
      "\n\t\"linewidth\": 1,",
      "\n\t\"links\": [],",
      "\n\t\"nullPointMode\": \"null\",",
      "\n\t\"paceLength\": 10,",
      "\n\t\"percentage\": false,",
      "\n\t\"pointradius\": 5,",
      "\n\t\"points\": false,",
      "\n\t\"renderer\": \"flot\",",
      "\n\t\"repeat\": null,",
      "\n\t\"seriesOverrides\": [],",
      "\n\t\"spaceLength\": 10,",
      "\n\t\"stack\": false,",
      "\n\t\"steppedLine\": false,",
      "\n\t\"targets\": [",
      "\n\t  \x7b",
      "\n\t\t\"expr\": \"max(  node_filesystem_files\x7bcluster=\\\"\\\", job=\\\"node-exporter\\\", instance=\\\"" ]),
    Node.print (Arg.var "instance"),
    Node.text (sourceText [
      "\\\"\x7d  - node_filesystem_files_free\x7bcluster=\\\"\\\", job=\\\"node-exporter\\\", instance=\\\"" ]),
    Node.print (Arg.var "instance"),
    Node.text (sourceText [
      "\\\"\x7d)\",",
      "\n\t\t\"format\": \"time_series\",",
      "\n\t\t\"intervalFactor\": 2,",
      "\n\t\t\"legendFormat\": \"inodes used\",",
      "\n\t\t\"refId\": \"A\"",
      "\n\t  \x7d,",
      "\n\t  \x7b",
      "\n\t\t\"expr\": \"max(node_filesystem_files_free\x7bcluster=\\\"\\\", job=\\\"node-exporter\\\", instance=\\\"" ]),
    Node.print (Arg.var "instance"),
    Node.text (sourceText [
      "\\\"\x7d)\",",
      "\n\t\t\"format\": \"time_series\",",
      "\n\t\t\"intervalFactor\": 2,",
      "\n\t\t\"legendFormat\": \"inodes free\",",
      "\n\t\t\"refId\": \"B\"",
      "\n\t  \x7d",
      "\n\t],",
      "\n\t\"thresholds\": [],",
      "\n\t\"timeFrom\": null,",
      "\n\t\"timeRegions\": [],",
      "\n\t\"timeShift\": null,",
      "\n\t\"title\": \"Inodes Usage - " ]),
    Node.print (Arg.var "instance"),
    Node.text (sourceText [
      "\",",
      "\n\t\"tooltip\": \x7b",
      "\n\t  \"shared\": false,",
      "\n\t  \"sort\": 0,",
      "\n\t  \"value_type\": \"individual\"",
      "\n\t\x7d,",
      "\n\t\"type\": \"graph\",",
      "\n\t\"xaxis\": \x7b",
      "\n\t  \"buckets\": null,",
      "\n\t  \"mode\": \"time\",",
      "\n\t  \"name\": null,",
      "\n\t  \"show\": true,",
      "\n\t  \"values\": []",
      "\n\t\x7d,",
      "\n\t\"yaxes\": [",
      "\n\t  \x7b",
      "\n\t\t\"format\": \"short\",",
      "\n\t\t\"label\": null,",
      "\n\t\t\"logBase\": 1,",
      "\n\t\t\"max\": null,",
      "\n\t\t\"min\": null,",
      "\n\t\t\"show\": true",
      "\n\t  \x7d,",
      "\n\t  \x7b",
      "\n\t\t\"format\": \"short\",",
      "\n\t\t\"label\": null,",
      "\n\t\t\"logBase\": 1,",
      "\n\t\t\"max\": null,",
      "\n\t\t\"min\": null,",
      "\n\t\t\"show\": true",
      "\n\t  \x7d",
      "\n\t],",
      "\n\t\"yaxis\": \x7b",
      "\n\t  \"align\": false,",
      "\n\t  \"alignLevel\": null",
      "\n\t\x7d",
      "\n  \x7d,",
      "\n  \x7b",
      "\n\t\"cacheTimeout\": null,",
      "\n\t\"colorBackground\": false,",
      "\n\t\"colorValue\": false,",
      "\n\t\"colors\": [",
      "\n\t  \"rgba(50, 172, 45, 0.97)\",",
      "\n\t  \"rgba(237, 129, 40, 0.89)\",",
      "\n\t  \"rgba(245, 54, 54, 0.9)\"",
      "\n\t],",
      "\n\t\"datasource\": \"prometheus\",",
      "\n\t\"format\": \"percent\",",
      "\n\t\"gauge\": \x7b",
      "\n\t  \"maxValue\": 100,",
      "\n\t  \"minValue\": 0,",
      "\n\t  \"show\": true,",
      "\n\t  \"thresholdLabels\": false,",
      "\n\t  \"thresholdMarkers\": true",
      "\n\t\x7d,",
      "\n\t\"gridPos\": \x7b",
      "\n\t  \"h\": 7,",
      "\n\t  \"w\": 6,",
      "\n\t  \"x\": 18,",
      "\n\t  \"y\": 35",
      "\n\t\x7d,",
      "\n\t\"id\": 13,",
      "\n\t\"interval\": null,",
      "\n\t\"links\": [],",
      "\n\t\"mappingType\": 1,",
      "\n\t\"mappingTypes\": [",
      "\n\t  \x7b",
      "\n\t\t\"name\": \"value to text\",",
      "\n\t\t\"value\": 1",
      "\n\t  \x7d,",
      "\n\t  \x7b",
      "\n\t\t\"name\": \"range to text\",",
      "\n\t\t\"value\": 2",
      "\n\t  \x7d",
      "\n\t],",
      "\n\t\"maxDataPoints\": 100,",
      "\n\t\"nullPointMode\": \"connected\",",
      "\n\t\"nullText\": null,",
      "\n\t\"postfix\": \"\",",
      "\n\t\"postfixFontSize\": \"50%\",",
      "\n\t\"prefix\": \"\",",
      "\n\t\"prefixFontSize\": \"50%\",",
      "\n\t\"rangeMaps\": [",
      "\n\t  \x7b",
      "\n\t\t\"from\": \"null\",",
      "\n\t\t\"text\": \"N/A\",",
      "\n\t\t\"to\": \"null\"",
      "\n\t  \x7d",
      "\n\t],",
      "\n\t\"sparkline\": \x7b",
      "\n\t  \"fillColor\": \"rgba(31, 118, 189, 0.18)\",",
      "\n\t  \"full\": false,",
      "\n\t  \"lineColor\": \"rgb(31, 120, 193)\",",
      "\n\t  \"show\": false",
      "\n\t\x7d,",
      "\n\t\"tableColumn\": \"\",",
      "\n\t\"targets\": [",
      "\n\t  \x7b",
      "\n\t\t\"expr\": \"max(  (    (      node_filesystem_files\x7bcluster=\\\"\\\", job=\\\"node-exporter\\\", instance=\\\"" ]),
    Node.print (Arg.var "instance"),
    Node.text (sourceText [
      "\\\"\x7d    - node_filesystem_files_free\x7bcluster=\\\"\\\", job=\\\"node-exporter\\\", instance=\\\"" ]),
    Node.print (Arg.var "instance"),
    Node.text (sourceText [
      "\\\"\x7d    )    / node_filesystem_files\x7bcluster=\\\"\\\", job=\\\"node-exporter\\\", instance=\\\"" ]),
    Node.print (Arg.var "instance"),
    Node.text (sourceText [
      "\\\"\x7d  ) * 100)\",",
      "\n\t\t\"format\": \"time_series\",",
      "\n\t\t\"intervalFactor\": 2,",
      "\n\t\t\"legendFormat\": \"\",",
      "\n\t\t\"refId\": \"A\"",
      "\n\t  \x7d",
      "\n\t],",
      "\n\t\"thresholds\": \"80, 90\",",
      "\n\t\"title\": \"Inodes Usage - " ]),
    Node.print (Arg.var "instance"),
    Node.text (sourceText [
      "\",",
      "\n\t\"tooltip\": \x7b",
      "\n\t  \"shared\": false",
      "\n\t\x7d,",
      "\n\t\"type\": \"singlestat\",",
      "\n\t\"valueFontSize\": \"80%\",",
      "\n\t\"valueMaps\": [",
      "\n\t  \x7b",
      "\n\t\t\"op\": \"=\",",
      "\n\t\t\"text\": \"N/A\",",
      "\n\t\t\"value\": \"null\"",
      "\n\t  \x7d",
      "\n\t],",
      "\n\t\"valueName\": \"current\"",
      "\n  \x7d" ]) ]

/-- The text of `staticBoard` after the `end` of the `range` action (source
lines 1339 to 1454). -/
def staticBoardTail : String :=
  sourceText [
    "\n],",
    "\n\"refresh\": \"\",",
    "\n\"schemaVersion\": 18,",
    "\n\"style\": \"dark\",",
    "\n\"tags\": [",
    "\n  \"kubernetes-mixin\"",
    "\n],",
    "\n\"templating\": \x7b",
    "\n  \"list\": [",
    "\n\t\x7b",
    "\n\t  \"current\": \x7b",
    "\n\t\t\"selected\": true,",
    "\n\t\t\"text\": \"prometheus\",",
    "\n\t\t\"value\": \"prometheus\"",
    "\n\t  \x7d,",
    "\n\t  \"hide\": 0,",
    "\n\t  \"label\": null,",
    "\n\t  \"name\": \"datasource\",",
    "\n\t  \"options\": [],",
    "\n\t  \"query\": \"prometheus\",",
    "\n\t  \"refresh\": 1,",
    "\n\t  \"regex\": \"\",",
    "\n\t  \"skipUrlSync\": false,",
    "\n\t  \"type\": \"datasource\"",
    "\n\t\x7d,",
    "\n\t\x7b",
    "\n\t  \"allValue\": null,",
    "\n\t  \"current\": \x7b",
    "\n\t\t\"isNone\": true,",
    "\n\t\t\"selected\": true,",
    "\n\t\t\"text\": \"None\",",
    "\n\t\t\"value\": \"\"",
    "\n\t  \x7d,",
    "\n\t  \"datasource\": \"prometheus\",",
    "\n\t  \"definition\": \"\",",
    "\n\t  \"hide\": 2,",
    "\n\t  \"includeAll\": false,",
    "\n\t  \"label\": \"cluster\",",
    "\n\t  \"multi\": false,",
    "\n\t  \"name\": \"cluster\",",
    "\n\t  \"options\": [],",
    "\n\t  \"query\": \"label_values(kube_pod_info, cluster)\",",
    "\n\t  \"refresh\": 2,",
    "\n\t  \"regex\": \"\",",
    "\n\t  \"skipUrlSync\": false,",
    "\n\t  \"sort\": 0,",
    "\n\t  \"tagValuesQuery\": \"\",",
    "\n\t  \"tags\": [],",
    "\n\t  \"tagsQuery\": \"\",",
    "\n\t  \"type\": \"query\",",
    "\n\t  \"useTags\": false",
    "\n\t\x7d,",
    "\n\t\x7b",
    "\n\t  \"allValue\": null,",
    "\n\t  \"current\": \x7b",
    "\n\t\t\"selected\": false,",
    "\n\t\t\"tags\": [],",
    "\n\t\t\"text\": \"10.199.75.57:9100\",",
    "\n\t\t\"value\": \"10.199.75.57:9100\"",
    "\n\t  \x7d,",
    "\n\t  \"datasource\": \"prometheus\",",
    "\n\t  \"definition\": \"\",",
    "\n\t  \"hide\": 0,",
    "\n\t  \"includeAll\": false,",
    "\n\t  \"label\": null,",
    "\n\t  \"multi\": false,",
    "\n\t  \"name\": \"instance\",",
    "\n\t  \"options\": [],",
    "\n\t  \"query\": \"label_values(node_boot_time_seconds\x7bcluster=\\\"\\\", job=\\\"node-exporter\\\"\x7d, instance)\",",
    "\n\t  \"refresh\": 2,",
    "\n\t  \"regex\": \"\",",
    "\n\t  \"skipUrlSync\": false,",
    "\n\t  \"sort\": 0,",
    "\n\t  \"tagValuesQuery\": \"\",",
    "\n\t  \"tags\": [],",
    "\n\t  \"tagsQuery\": \"\",",
    "\n\t  \"type\": \"query\",",
    "\n\t  \"useTags\": false",
    "\n\t\x7d",
    "\n  ]",
    "\n\x7d,",
    "\n\"time\": \x7b",
    "\n  \"from\": \"now-1h\",",
    "\n  \"to\": \"now\"",
    "\n\x7d,",
    "\n\"timepicker\": \x7b",
    "\n  \"refresh_intervals\": [",
    "\n\t\"5s\",",
    "\n\t\"10s\",",
    "\n\t\"30s\",",
    "\n\t\"1m\",",
    "\n\t\"5m\",",
    "\n\t\"15m\",",
    "\n\t\"30m\",",
    "\n\t\"1h\",",
    "\n\t\"2h\",",
    "\n\t\"1d\"",
    "\n  ],",
    "\n  \"time_options\": [",
    "\n\t\"5m\",",
    "\n\t\"15m\",",
    "\n\t\"1h\",",
    "\n\t\"6h\",",
    "\n\t\"12h\",",
    "\n\t\"24h\",",
    "\n\t\"2d\",",
    "\n\t\"7d\",",
    "\n\t\"30d\"",
    "\n  ]",
    "\n\x7d,",
    "\n\"timezone\": \"\",",
    "\n\"title\": \"Kubernetes / Nodes\",",
    "\n\"uid\": \"fa49a4706d07a042595b664c87fb33ea\",",
    "\n\"version\": 1",
    "\n\x7d" ]
/-- The constant `staticBoard`, as the parse tree of its text under the
delimiters `[[` and `]]` (source lines 189 to 1454). -/
def staticBoard : List Node :=
  [ .text "\n",
    .assign "indexCheck" (.field "indexCheck"),
    .text staticBoardHead,
    .range "ind" "instance" (.field "instances")
      (panelBlock ++
        [ .ifNe (.var "indexCheck") (.var "ind") [.text ",\n  "],
          .text "\n  " ]),
    .text staticBoardTail ]

/-- The document `GetStaticBoard` renders for the instances discovery returned:
the execution of `staticBoard` on the map with `instances` and with
`indexCheck = len(instances) - 1`, which is the buffer handed to
`ImportGrafanaBoard`; `none` is an error of the execution. -/
def renderStaticBoard (instances : List String) : Option (List Char) :=
  match execList staticBoard
      { dot := [("instances", .strs instances), ("indexCheck", .int (instances.length - 1))],
        vars := [] } with
  | none => none
  | some (o, _) => some o

/-! ## The JSON scanner (Go package `encoding/json`)

`ImportGrafanaBoard` decodes the rendered document with `json.Unmarshal`, which
first runs the scanner of `encoding/json` over the whole input (`checkValid`)
and fails on the first character the grammar of JSON does not allow.  The
scanner is embedded state for state; a document is syntactically valid JSON
exactly when `checkValid` accepts it. -/

/-- What the scanner is inside of: an object, before a key or before a value,
or an array. -/
inductive ParseState
  | objectKey
  | objectValue
  | arrayValue
  deriving DecidableEq, Repr

/-- The step function the scanner is in (`stateBeginValue`, `stateInString`
and so on, with the names of `scanner.go` without the prefix `state`). -/
inductive Step
  | beginValueOrEmpty | beginValue | beginStringOrEmpty | beginString
  | endValue | endTop
  | inString | inStringEsc | inStringEscU | inStringEscU1 | inStringEscU12 | inStringEscU123
  | neg | num1 | num0 | dot | dot0 | exp | expSign | exp0
  | litT | litTr | litTru | litF | litFa | litFal | litFals | litN | litNu | litNul
  deriving DecidableEq, Repr

/-- The scanner: its step function and its stack of parse states, the innermost
first. -/
structure Scanner where
  step : Step
  parseState : List ParseState
  deriving DecidableEq, Repr

/-- The limit `maxNestingDepth` of the scanner. -/
def maxNestingDepth : Nat := 10000

/-- The function `isSpace` of the scanner. -/
def isSpace (c : Char) : Bool :=
  c == ' ' || c == '\t' || c == '\r' || c == '\n'

/-- A decimal digit. -/
def isDigit (c : Char) : Bool :=
  '0' ≤ c && c ≤ '9'

/-- A hexadecimal digit, as `stateInStringEscU` accepts it. -/
def isHex (c : Char) : Bool :=
  ('0' ≤ c && c ≤ '9') || ('a' ≤ c && c ≤ 'f') || ('A' ≤ c && c ≤ 'F')

/-- The method `pushParseState`: a new innermost parse state, refused beyond
the nesting limit. -/
def pushParseState (ps : List ParseState) (p : ParseState) (next : Step) : Option Scanner :=
  if ps.length + 1 ≤ maxNestingDepth then some ⟨next, p :: ps⟩ else none

/-- The function `stateEndTop`: after the top-level value only white space. -/
def stateEndTop (ps : List ParseState) (c : Char) : Option Scanner :=
  if isSpace c then some ⟨.endTop, ps⟩ else none

/-- The function `stateEndValue`: after a value, the separator or the closing
bracket the innermost parse state asks for. -/
def stateEndValue (ps : List ParseState) (c : Char) : Option Scanner :=
  match ps with
  | [] => stateEndTop [] c
  | p :: rest =>
    if isSpace c then some ⟨.endValue, p :: rest⟩
    else
      match p with
      | .objectKey =>
        if c = ':' then some ⟨.beginValue, .objectValue :: rest⟩ else none
      | .objectValue =>
        if c = ',' then some ⟨.beginString, .objectKey :: rest⟩
        else if c = '}' then some ⟨if rest.isEmpty then .endTop else .endValue, rest⟩
        else none
      | .arrayValue =>
        if c = ',' then some ⟨.beginValue, .arrayValue :: rest⟩
        else if c = ']' then some ⟨if rest.isEmpty then .endTop else .endValue, rest⟩
        else none

/-- The function `stateBeginValue`: the first character of a value. -/
def stateBeginValue (ps : List ParseState) (c : Char) : Option Scanner :=
  if isSpace c then some ⟨.beginValue, ps⟩
  else if c = '{' then pushParseState ps .objectKey .beginStringOrEmpty
  else if c = '[' then pushParseState ps .arrayValue .beginValueOrEmpty
  else if c = '"' then some ⟨.inString, ps⟩
  else if c = '-' then some ⟨.neg, ps⟩
  else if c = '0' then some ⟨.num0, ps⟩
  else if c = 't' then some ⟨.litT, ps⟩
  else if c = 'f' then some ⟨.litF, ps⟩
  else if c = 'n' then some ⟨.litN, ps⟩
  else if '1' ≤ c && c ≤ '9' then some ⟨.num1, ps⟩
  else none

/-- The function `stateBeginString`: the opening quote of an object key. -/
def stateBeginString (ps : List ParseState) (c : Char) : Option Scanner :=
  if isSpace c then some ⟨.beginString, ps⟩
  else if c = '"' then some ⟨.inString, ps⟩
  else none

/-- The function `state0`: after the integer part of a number. -/
def state0 (ps : List ParseState) (c : Char) : Option Scanner :=
  if c = '.' then some ⟨.dot, ps⟩
  else if c = 'e' || c = 'E' then some ⟨.exp, ps⟩
  else stateEndValue ps c

/-- The function `stateESign`: after the sign of an exponent. -/
def stateESign (ps : List ParseState) (c : Char) : Option Scanner :=
  if isDigit c then some ⟨.exp0, ps⟩ else none

/-- One step of the scanner on the character `c`: the scanner after it, or
`none` for a syntax error. -/
def scanStep (s : Scanner) (c : Char) : Option Scanner :=
  match s with
  | ⟨.beginValueOrEmpty, ps⟩ =>
    if isSpace c then some ⟨.beginValueOrEmpty, ps⟩
    else if c = ']' then stateEndValue ps c
    else stateBeginValue ps c
  | ⟨.beginValue, ps⟩ => stateBeginValue ps c
  | ⟨.beginStringOrEmpty, ps⟩ =>
    if isSpace c then some ⟨.beginStringOrEmpty, ps⟩
    else if c = '}' then
      match ps with
      | [] => none
      | _ :: rest => stateEndValue (.objectValue :: rest) c
    else stateBeginString ps c
  | ⟨.beginString, ps⟩ => stateBeginString ps c
  | ⟨.endValue, ps⟩ => stateEndValue ps c
  | ⟨.endTop, ps⟩ => stateEndTop ps c
  | ⟨.inString, ps⟩ =>
    if c = '"' then some ⟨.endValue, ps⟩
    else if c = '\\' then some ⟨.inStringEsc, ps⟩
    else if c < ' ' then none
    else some ⟨.inString, ps⟩
  | ⟨.inStringEsc, ps⟩ =>
    if c = 'b' || c = 'f' || c = 'n' || c = 'r' || c = 't' || c = '\\' || c = '/' || c = '"'
    then some ⟨.inString, ps⟩
    else if c = 'u' then some ⟨.inStringEscU, ps⟩
    else none
  | ⟨.inStringEscU, ps⟩ => if isHex c then some ⟨.inStringEscU1, ps⟩ else none
  | ⟨.inStringEscU1, ps⟩ => if isHex c then some ⟨.inStringEscU12, ps⟩ else none
  | ⟨.inStringEscU12, ps⟩ => if isHex c then some ⟨.inStringEscU123, ps⟩ else none
  | ⟨.inStringEscU123, ps⟩ => if isHex c then some ⟨.inString, ps⟩ else none
  | ⟨.neg, ps⟩ =>
    if c = '0' then some ⟨.num0, ps⟩
    else if '1' ≤ c && c ≤ '9' then some ⟨.num1, ps⟩
    else none
  | ⟨.num1, ps⟩ => if isDigit c then some ⟨.num1, ps⟩ else state0 ps c
  | ⟨.num0, ps⟩ => state0 ps c
  | ⟨.dot, ps⟩ => if isDigit c then some ⟨.dot0, ps⟩ else none
  | ⟨.dot0, ps⟩ =>
    if isDigit c then some ⟨.dot0, ps⟩
    else if c = 'e' || c = 'E' then some ⟨.exp, ps⟩
    else stateEndValue ps c
  | ⟨.exp, ps⟩ => if c = '+' || c = '-' then some ⟨.expSign, ps⟩ else stateESign ps c
  | ⟨.expSign, ps⟩ => stateESign ps c
  | ⟨.exp0, ps⟩ => if isDigit c then some ⟨.exp0, ps⟩ else stateEndValue ps c
  | ⟨.litT, ps⟩ => if c = 'r' then some ⟨.litTr, ps⟩ else none
  | ⟨.litTr, ps⟩ => if c = 'u' then some ⟨.litTru, ps⟩ else none
  | ⟨.litTru, ps⟩ => if c = 'e' then some ⟨.endValue, ps⟩ else none
  | ⟨.litF, ps⟩ => if c = 'a' then some ⟨.litFa, ps⟩ else none
  | ⟨.litFa, ps⟩ => if c = 'l' then some ⟨.litFal, ps⟩ else none
  | ⟨.litFal, ps⟩ => if c = 's' then some ⟨.litFals, ps⟩ else none
  | ⟨.litFals, ps⟩ => if c = 'e' then some ⟨.endValue, ps⟩ else none
  | ⟨.litN, ps⟩ => if c = 'u' then some ⟨.litNu, ps⟩ else none
  | ⟨.litNu, ps⟩ => if c = 'l' then some ⟨.litNul, ps⟩ else none
  | ⟨.litNul, ps⟩ => if c = 'l' then some ⟨.endValue, ps⟩ else none

/-- The scanner after a run of characters, or `none` when one of them is a
syntax error. -/
def scanRun (s : Scanner) : List Char → Option Scanner
  | [] => some s
  | c :: cs =>
    match scanStep s c with
    | none => none
    | some s' => scanRun s' cs

/-- The scanner before the first character (`reset`). -/
def scanInit : Scanner := ⟨.beginValue, []⟩

/-- The method `eof`: at the end of the input the scanner must have seen a
whole top-level value, which one more blank brings out. -/
def scanEof (s : Scanner) : Bool :=
  if s.step = .endTop then true
  else
    match scanStep s ' ' with
    | some s' => decide (s'.step = .endTop)
    | none => false

/-- The function `checkValid`: the input is syntactically valid JSON. -/
def checkValid (data : List Char) : Bool :=
  match scanRun scanInit data with
  | none => false
  | some s => scanEof s

/-! ## The rendered document, as the specification describes it -/

/-- The text of a list of text nodes and placeholders, with `ident` written in
place of every placeholder. -/
def fill (ident : List Char) : List Node → List Char
  | [] => []
  | .text t :: ns => t.data ++ fill ident ns
  | .print _ :: ns => ident ++ fill ident ns
  | _ :: ns => fill ident ns

/-- The panel block with the escaped identifier in every placeholder. -/
def escapedBlock (s : String) : List Char :=
  fill (htmlEscaper (.str s)) panelBlock

/-- The panel block with the identifier itself, character for character, in
every placeholder. -/
def substitutedBlock (s : String) : List Char :=
  fill s.data panelBlock

/-- The joining comma after the block of index `i` in a document of `n` blocks:
the text of the `if` action, a comma and white space, unless the block is the
last one. -/
def joiningComma (n i : Nat) : List Char :=
  if i + 1 = n then [] else ",\n  ".data

/-- What follows the block of index `i` in a document of `n` blocks: the joining
comma, then the white space between the two `end` actions. -/
def afterBlock (n i : Nat) : List Char :=
  joiningComma n i ++ "\n  ".data

/-- The blocks of the instances `l`, numbered from `k`, in a document of `n`
blocks, each followed by what follows it. -/
def blocksFrom (block : String → List Char) (n : Nat) : Nat → List String → List Char
  | _, [] => []
  | k, s :: rest => block s ++ afterBlock n k ++ blocksFrom block n (k + 1) rest

/-- The document of the specification for the instances `l`: the fixed text
before the repetition, one block for each instance in the order of the list,
and the fixed text after the repetition. -/
def boardDocument (block : String → List Char) (l : List String) : List Char :=
  "\n".data ++ staticBoardHead.data ++ blocksFrom block l.length 0 l ++ staticBoardTail.data

/-- The number of placeholders of a list of nodes. -/
def placeholders : List Node → Nat
  | [] => 0
  | .print _ :: ns => placeholders ns + 1
  | _ :: ns => placeholders ns

/-- A list of nodes that holds only text and the placeholder `[[ $instance ]]`. -/
def onlyTextAndInstance : List Node → Bool
  | [] => true
  | .text _ :: ns => onlyTextAndInstance ns
  | .print a :: ns => decide (a = .var "instance") && onlyTextAndInstance ns
  | _ :: _ => false

/-- The scanner after the text of a list of text nodes and placeholders, for a
placeholder that stands inside a string and is filled with characters that
leave the scanner inside that string. -/
def scanNodes (s : Scanner) : List Node → Option Scanner
  | [] => some s
  | .text t :: ns =>
    match scanRun s t.data with
    | none => none
    | some s' => scanNodes s' ns
  | .print _ :: ns => if s.step = .inString then scanNodes s ns else none
  | _ :: _ => none

/-- A character that leaves the scanner inside a string: no quote, no
backslash and no control character. -/
def stringSafe (c : Char) : Bool :=
  !(c == '"') && !(c == '\\') && !(c < ' ')

/-- The scanner right after the `[` that opens the array of the panels: inside
an array that is the value of a member of the top-level object, before its
first value or its closing bracket. -/
def scanPanelsOpen : Scanner := ⟨.beginValueOrEmpty, [.arrayValue, .objectValue]⟩

/-- The scanner after a value of the array of the panels. -/
def scanPanelsValue : Scanner := ⟨.endValue, [.arrayValue, .objectValue]⟩

/-- The scanner after a comma of the array of the panels, before the next
value. -/
def scanPanelsComma : Scanner := ⟨.beginValue, [.arrayValue, .objectValue]⟩

/-! ## The effect of an identifier inside a string -/

/-- The step function the scanner is in after a text that starts right after the
opening quote of a string; `none` when the scanner refuses the text. -/
def strEffect (cs : List Char) : Option Step :=
  match scanRun ⟨.inString, []⟩ cs with
  | none => none
  | some s => some s.step

/-- A text that can stand between the quotes of a JSON string and leaves the
string open for what follows: the scanner accepts it after an opening quote and
is then between the quotes, outside an escape sequence. -/
def stringBody (cs : List Char) : Bool :=
  decide (strEffect cs = some .inString)

/-- The scanner after the text of a list of text nodes and placeholders, for a
placeholder that stands inside a string and is filled with a text without
quote whose effect in a string is `eff`.  The outer `none` is a placeholder
that does not stand inside a string; the inner `none` is a syntax error. -/
def scanNodesEff (eff : Option Step) (s : Scanner) : List Node → Option (Option Scanner)
  | [] => some (some s)
  | .text t :: ns =>
    match scanRun s t.data with
    | none => some none
    | some s' => scanNodesEff eff s' ns
  | .print _ :: ns =>
    if s.step = .inString then
      match eff with
      | none => some none
      | some st => scanNodesEff eff ⟨st, s.parseState⟩ ns
    else none
  | _ :: _ => none

/-- The escaped form of an identifier can stand between the quotes of a JSON
string. -/
def goodIdent (s : String) : Bool :=
  stringBody (htmlReplacer s.data)

/-! ## The decoding of the board (`json.Unmarshal` into `sdk.Board`)

`ImportGrafanaBoard` reads two fields of the decoded board, `Title` and `Slug`,
which `sdk.Board` declares as strings with the JSON names `title` and `slug`.
The decoder of `encoding/json` fills them from the members of the top-level
object of the document.  The embedding follows the scanner through the
document and keeps the members of the top-level object. -/

/-- The value of a member of the top-level object, as far as a string field is
concerned: a string (the characters between its quotes), `null`, or any other
value. -/
inductive TopValue
  | str (raw : List Char)
  | null
  | other
  deriving DecidableEq, Repr

/-- The decoder: the scanner, the characters of the top-level key and of the
top-level string value being read (the latest first), and the members of the
top-level object read so far (the latest first). -/
structure Decoder where
  scan : Scanner
  key : List Char
  value : List Char
  members : List (List Char × TopValue)
  deriving DecidableEq, Repr

/-- The scanner is between the quotes of a string. -/
def Step.inStr : Step → Bool
  | .inString | .inStringEsc | .inStringEscU | .inStringEscU1 | .inStringEscU12
  | .inStringEscU123 => true
  | _ => false

/-- One step of the decoder on the character `c`.  Only a character that
stands directly in the top-level object is kept: in a key, in a string value,
or as the first character of another value. -/
def decStep (d : Decoder) (c : Char) : Option Decoder :=
  match d with
  | ⟨⟨step, ps⟩, key, value, members⟩ =>
    match scanStep ⟨step, ps⟩ c with
    | none => none
    | some s' =>
      match ps with
      | [.objectKey] =>
        if step.inStr then
          if step = .inString ∧ c = '"' then some ⟨s', key, value, members⟩
          else some ⟨s', c :: key, value, members⟩
        else if c = '"' then some ⟨s', [], value, members⟩
        else some ⟨s', key, value, members⟩
      | [.objectValue] =>
        if step.inStr then
          if step = .inString ∧ c = '"' then
            some ⟨s', key, value, (key.reverse, .str value.reverse) :: members⟩
          else some ⟨s', key, c :: value, members⟩
        else if step = .beginValue ∧ !isSpace c then
          if c = '"' then some ⟨s', key, [], members⟩
          else if c = 'n' then some ⟨s', key, value, (key.reverse, .null) :: members⟩
          else some ⟨s', key, value, (key.reverse, .other) :: members⟩
        else some ⟨s', key, value, members⟩
      | _ => some ⟨s', key, value, members⟩

/-- The decoder after a run of characters. -/
def decRun (d : Decoder) : List Char → Option Decoder
  | [] => some d
  | c :: cs =>
    match decStep d c with
    | none => none
    | some d' => decRun d' cs

/-- The decoder before the first character. -/
def decInit : Decoder := ⟨scanInit, [], [], []⟩

/-- The members of the top-level object of a document, in the order of the
document; `none` when the scanner refuses the document. -/
def topLevelMembers (data : List Char) : Option (List (List Char × TopValue)) :=
  match decRun decInit data with
  | none => none
  | some d => some d.members.reverse

/-- The folding of a character of a key when it is matched with the name of a
field: an upper-case letter is its lower-case letter, and the Kelvin sign and
the long s are `k` and `s`. -/
def foldChar (c : Char) : Char :=
  if 'A' ≤ c ∧ c ≤ 'Z' then Char.ofNat (c.toNat + 32)
  else if c = 'K' then 'k'
  else if c = 'ſ' then 's'
  else c

/-- A key of the document names the field with the JSON name `name`: the two
are equal up to the folding of the letters. -/
def keyMatches (name : String) (key : List Char) : Bool :=
  key.map foldChar == name.data.map foldChar

/-- The structure `sdk.Board`: the two fields `ImportGrafanaBoard` reads, and
the other fields together (`rest`).  The type is declared in the package
`github.com/grafana-tools/sdk`, which is not part of the source, so the type of
the other fields is a parameter. -/
structure Board (ρ : Type) where
  Title : String
  Slug : String
  rest : ρ

/-- The structure `sdk.FoundBoard`, with the fields `ImportGrafanaBoard`
sets. -/
structure FoundBoard where
  Title : String
  URI : String
  deriving DecidableEq, Repr

/-- The result of `json.Unmarshal` on a board: an error, a board, or a
document outside the embedding (an escape sequence in a top-level key or in the
title or the slug, which the embedding does not decode). -/
inductive Unmarshal (ρ : Type)
  | error
  | outside
  | ok (board : Board ρ)

/-- A string field after the members of the document, in their order: a string
member with the name of the field sets it, `null` leaves it, and any other
value is a type error (`none`). -/
def decodeField (name : String) : List (List Char × TopValue) → String → Option String
  | [], cur => some cur
  | (key, v) :: rest, cur =>
    if keyMatches name key then
      match v with
      | .str raw => decodeField name rest (String.mk raw)
      | .null => decodeField name rest cur
      | .other =>
        match decodeField name rest cur with
        | none => none
        | some _ => none
    else decodeField name rest cur

/-- A member whose key, or whose string value when it is the title or the slug,
holds an escape sequence. -/
def hasEscape (m : List Char × TopValue) : Bool :=
  m.1.contains '\\' ||
    ((keyMatches "title" m.1 || keyMatches "slug" m.1) &&
      match m.2 with
      | .str raw => raw.contains '\\'
      | _ => false)

/-- The function `json.Unmarshal` into an empty `sdk.Board`.  It returns an
error for a syntax error of the document, for a top-level value that is neither
an object nor `null`, and for a value of the wrong type for any field.  The two
fields `ImportGrafanaBoard` reads are decoded here; the decoding of all the
other fields of `sdk.Board` from an object is the parameter `others`, which
gives `none` when a value has the wrong type for its field.  The document `null`
leaves the board as it is, empty, with the other fields at their zero value
`zero`. -/
def unmarshalBoard {ρ : Type} (zero : ρ) (others : List Char → Option ρ) (data : List Char) :
    Unmarshal ρ :=
  if checkValid data then
    match (data.dropWhile isSpace).head? with
    | some '{' =>
      match topLevelMembers data with
      | none => .error
      | some ms =>
        if ms.any hasEscape then .outside
        else
          match decodeField "title" ms "", decodeField "slug" ms "", others data with
          | some t, some s, some r => .ok ⟨t, s, r⟩
          | _, _, _ => .error
    | some 'n' => .ok ⟨"", "", zero⟩
    | _ => .error
  else .error

/-! ## `ImportGrafanaBoard` and `GetStaticBoard` -/

/-- The method `ImportGrafanaBoard`: the board data is decoded, an error of the
decoding is returned as `unable to parse grafana board data`, and the decoded
board is handed to `ProcessBoard` (a method of the Grafana client, a parameter
here) with the identity made of its title and its slug.  `none` stands for a
document outside the embedding of the decoder. -/
def ImportGrafanaBoard {ρ β : Type} (zero : ρ) (others : List Char → Option ρ)
    (ProcessBoard : Board ρ → FoundBoard → Except String β)
    (boardData : List Char) : Option (Except String β) :=
  match unmarshalBoard zero others boardData with
  | .outside => none
  | .error => some (.error "unable to parse grafana board data")
  | .ok board => some (ProcessBoard board { Title := board.Title, URI := board.Slug })

/-- The method `GetStaticBoard`, for the result `nodes` of `getAllNodes`: an
error of the discovery or of the execution of the template is returned, and the
rendered buffer is handed to `ImportGrafanaBoard`. -/
def GetStaticBoard {ρ β : Type} (zero : ρ) (others : List Char → Option ρ)
    (ProcessBoard : Board ρ → FoundBoard → Except String β)
    (nodes : Except String (List String)) : Option (Except String β) :=
  match nodes with
  | .error err => some (.error ("unable to get all the nodes: " ++ err))
  | .ok instances =>
    match renderStaticBoard instances with
    | none => some (.error "unable to get the static board")
    | some buf => ImportGrafanaBoard zero others ProcessBoard buf

/-- The decoder over the text of a list of text nodes and placeholders, for a
placeholder that stands inside a string below the top-level object. -/
def decNodes (d : Decoder) : List Node → Option Decoder
  | [] => some d
  | .text t :: ns =>
    match decRun d t.data with
    | none => none
    | some d' => decNodes d' ns
  | .print _ :: ns =>
    if d.scan.step = .inString ∧ 2 ≤ d.scan.parseState.length then decNodes d ns else none
  | _ :: _ => none

/-- The decoder inside the array of the panels, for a state of the scanner
there: the key read last is `panels`, and its member is the eighth. -/
def decPanels (s : Scanner) : Decoder :=
  { scan := s
    key := "panels".data.reverse
    value := []
    members :=
      [ ("panels".data, .other),
        ("links".data, .other), ("iteration".data, .other), ("id".data, .other),
        ("graphTooltip".data, .other), ("gnetId".data, .null), ("editable".data, .other),
        ("annotations".data, .other) ] }

/-- The members of the top-level object of the rendered document, whatever the
instances: nineteen members, `title` among them and no `slug`. -/
def boardMembers : List (List Char × TopValue) :=
  [ ("annotations".data, .other), ("editable".data, .other), ("gnetId".data, .null),
    ("graphTooltip".data, .other), ("id".data, .other), ("iteration".data, .other),
    ("links".data, .other), ("panels".data, .other), ("refresh".data, .str []),
    ("schemaVersion".data, .other), ("style".data, .str "dark".data),
    ("tags".data, .other), ("templating".data, .other), ("time".data, .other),
    ("timepicker".data, .other), ("timezone".data, .str []),
    ("title".data, .str "Kubernetes / Nodes".data),
    ("uid".data, .str "fa49a4706d07a042595b664c87fb33ea".data),
    ("version".data, .other) ]

/-! ## Instance discovery (`getAllNodes`)

`getAllNodes` asks the backend for the series of `node_boot_time_seconds` over
the last five minutes and reads the label `instance` of every label set of the
answer.  The call `qc.Series` is the backend; its result is a parameter. -/

/-- A `promModel.LabelSet`: a map from label names to label values, as the list
of its entries. -/
abbrev LabelSet := List (String × String)

/-- The index expression `l[name]` on a label set: the value of the label, and
the empty string (the zero value) when the label set has no such label. -/
def LabelSet.get (l : LabelSet) (name : String) : String :=
  match l.lookup name with
  | some v => v
  | none => ""

/-- An error made by `errors.Wrapf`: a message and the error it wraps. -/
structure WrappedError (ε : Type) where
  message : String
  cause : ε
  deriving DecidableEq, Repr

/-- The loop of `getAllNodes` over the label sets, from the slice `result`
built so far: the instance of a label set is appended when it is not the empty
string. -/
def collectInstances : List LabelSet → List String → List String
  | [], result => result
  | l :: rest, result =>
    let ins := l.get "instance"
    if ins ≠ "" then collectInstances rest (result ++ [ins])
    else collectInstances rest result

/-- The method `getAllNodes`, for the result `series` of the call `qc.Series`:
the pair it returns, the slice of instances (`none` is the `nil` slice) and the
error (`none` is the `nil` error). -/
def getAllNodes {ε : Type} (series : Except ε (List LabelSet)) :
    Option (List String) × Option (WrappedError ε) :=
  match series with
  | .error err => (none, some ⟨"unable to get the label set series", err⟩)
  | .ok labelSet => (some (collectInstances labelSet []), none)

/-- A blank string: every character of it is white space (the empty string is
blank). -/
def isBlank (s : String) : Bool :=
  s.data.all Char.isWhitespace

/-! ## The panels of a board document

The field `Panels` of `sdk.Board` is decoded from the array that is the value
of the member `panels` of the top-level object, and the field `ID` of a panel
from the member `id` of its object.  The reader follows the scanner through
the document and gives, for every element of that array, whether it is an
object and, if so, the natural number of its member `id`. -/

/-- An element of the array of the panels: an object, with the value of its
member `id` when that is a natural number, or another value. -/
inductive Element
  | object (id : Option Nat)
  | other
  deriving DecidableEq, Repr

/-- The reader of the panels: the scanner; the characters of the key of the
top-level object read last (the latest first) and whether that key is `panels`;
the characters of the key of the element read last and whether that key is
`id`; the digits of the number being read; the `id` of the element being
read. -/
structure PanelReader where
  scan : Scanner
  topKey : List Char
  inPanels : Bool
  key : List Char
  isId : Bool
  num : Option Nat
  id : Option Nat
  deriving DecidableEq, Repr

/-- The scanner is inside a number. -/
def Step.inNumber : Step → Bool
  | .neg | .num1 | .num0 | .dot | .dot0 | .exp | .expSign | .exp0 => true
  | _ => false

/-- The value of a decimal digit. -/
def digitValue (c : Char) : Nat :=
  c.toNat - '0'.toNat

/-- One step of the reader on the character `c`: the reader after it and the
element of the array of the panels that ends with `c`, if one does. -/
def panelStep (p : PanelReader) (c : Char) : Option (PanelReader × Option Element) :=
  match p with
  | ⟨⟨step, ps⟩, topKey, inPanels, key, isId, num, id⟩ =>
    match scanStep ⟨step, ps⟩ c with
    | none => none
    | some s' =>
      if ps = [.objectKey] then
        if step.inStr then
          if step = .inString ∧ c = '"' then
            some (⟨s', topKey, keyMatches "panels" topKey.reverse, key, isId, num, id⟩, none)
          else some (⟨s', c :: topKey, inPanels, key, isId, num, id⟩, none)
        else if c = '"' then some (⟨s', [], false, key, isId, num, id⟩, none)
        else some (⟨s', topKey, inPanels, key, isId, num, id⟩, none)
      else if inPanels = false then some (⟨s', topKey, inPanels, key, isId, num, id⟩, none)
      else if ps = [.arrayValue, .objectValue] then
        if (step = .beginValue ∨ step = .beginValueOrEmpty) ∧ isSpace c = false ∧ c ≠ ']' then
          if c = '{' then some (⟨s', topKey, inPanels, [], false, none, none⟩, none)
          else some (⟨s', topKey, inPanels, key, isId, num, id⟩, some .other)
        else some (⟨s', topKey, inPanels, key, isId, num, id⟩, none)
      else if ps = [.objectKey, .arrayValue, .objectValue] then
        if step.inStr then
          if step = .inString ∧ c = '"' then
            some (⟨s', topKey, inPanels, key, keyMatches "id" key.reverse, num, id⟩, none)
          else some (⟨s', topKey, inPanels, c :: key, isId, num, id⟩, none)
        else if c = '"' then some (⟨s', topKey, inPanels, [], false, num, id⟩, none)
        else if c = '}' then some (⟨s', topKey, inPanels, key, isId, num, id⟩, some (.object id))
        else some (⟨s', topKey, inPanels, key, isId, num, id⟩, none)
      else if ps = [.objectValue, .arrayValue, .objectValue] then
        if isId = true ∧ step = .beginValue ∧ isSpace c = false then
          if isDigit c then
            some (⟨s', topKey, inPanels, key, isId, some (digitValue c), none⟩, none)
          else some (⟨s', topKey, inPanels, key, isId, none, none⟩, none)
        else if isId = true ∧ step.inNumber = true then
          if s'.step.inNumber then
            if step = .num1 ∧ isDigit c = true then
              some (⟨s', topKey, inPanels, key, isId, num.map (fun n => n * 10 + digitValue c),
                id⟩, none)
            else some (⟨s', topKey, inPanels, key, isId, none, id⟩, none)
          else if s'.parseState = [.arrayValue, .objectValue] then
            some (⟨s', topKey, inPanels, key, isId, none, num⟩, some (.object num))
          else some (⟨s', topKey, inPanels, key, isId, none, num⟩, none)
        else if s'.parseState = [.arrayValue, .objectValue] then
          some (⟨s', topKey, inPanels, key, isId, num, id⟩, some (.object id))
        else some (⟨s', topKey, inPanels, key, isId, num, id⟩, none)
      else some (⟨s', topKey, inPanels, key, isId, num, id⟩, none)

/-- The reader after a run of characters, and the elements that ended so far,
the latest first, before `out`. -/
def panelRun (p : PanelReader) (out : List Element) :
    List Char → Option (PanelReader × List Element)
  | [] => some (p, out)
  | c :: cs =>
    match panelStep p c with
    | none => none
    | some (p', none) => panelRun p' out cs
    | some (p', some e) => panelRun p' (e :: out) cs

/-- The reader before the first character. -/
def panelInit : PanelReader := ⟨scanInit, [], false, [], false, none, none⟩

/-- The elements of the array of the panels of a document, in the order of the
document; `none` when the document is not valid JSON. -/
def panelElements (data : List Char) : Option (List Element) :=
  match panelRun panelInit [] data with
  | none => none
  | some (p, out) => if scanEof p.scan then some out.reverse else none

/-- The reader over the text of a list of text nodes and placeholders, for a
placeholder that stands inside a string value below the top-level object. -/
def panelNodes (p : PanelReader) (out : List Element) :
    List Node → Option (PanelReader × List Element)
  | [] => some (p, out)
  | .text t :: ns =>
    match panelRun p out t.data with
    | none => none
    | some (p', out') => panelNodes p' out' ns
  | .print _ :: ns =>
    if p.scan.step = .inString ∧ p.scan.parseState ≠ [.objectKey] ∧
        p.scan.parseState ≠ [.objectKey, .arrayValue, .objectValue] then
      panelNodes p out ns
    else none
  | _ :: _ => none

/-- The elements of the panel block: twelve objects, with the ids 2 to 13. -/
def blockElements : List Element :=
  [ .object (some 2), .object (some 3), .object (some 4), .object (some 5),
    .object (some 6), .object (some 7), .object (some 8), .object (some 9),
    .object (some 10), .object (some 11), .object (some 12), .object (some 13) ]

/-- The reader right after the `[` that opens the array of the panels. -/
def readerOpen : PanelReader :=
  ⟨scanPanelsOpen, "panels".data.reverse, true, [], false, none, none⟩

/-- The reader after a panel block, for a state of the scanner in the array of
the panels: the key read last in the block is `valueName` and the id read last
is 13. -/
def readerAfter (s : Scanner) : PanelReader :=
  ⟨s, "panels".data.reverse, true, "valueName".data.reverse, false, none, some 13⟩

/-! ## Properties of `ComputeStep` -/

/-- A second, in nanoseconds. -/
theorem second_val : Second = 1000000000 := rfl

/-- A minute, in nanoseconds. -/
theorem minute_val : Minute = 60000000000 := by
  simp only [Minute, second_val]; norm_num

/-- An hour, in nanoseconds. -/
theorem hour_val : Hour = 3600000000000 := by
  simp only [Hour, minute_val]; norm_num

/-- A day, in nanoseconds. -/
theorem day_val : Day = 86400000000000 := by
  simp only [Day, hour_val]; norm_num

/-- The table lookup, unfolded: the chain of comparisons it performs. -/
theorem specStep_chain (d : Int) :
    specStep d =
      if d ≤ 10 * Minute then 5 * Second
      else if d ≤ 30 * Minute then 10 * Second
      else if d ≤ 1 * Hour then 20 * Second
      else if d ≤ 3 * Hour then 1 * Minute
      else if d ≤ 6 * Hour then 2 * Minute
      else if d ≤ 1 * Day then 8 * Minute
      else if d ≤ 2 * Day then 16 * Minute
      else if d ≤ 4 * Day then 32 * Minute
      else if d ≤ 7 * Day then 56 * Minute
      else if d ≤ 15 * Day then 2 * Hour
      else if d ≤ 30 * Day then 4 * Hour
      else if d ≤ 90 * Day then 12 * Hour
      else if d ≤ 180 * Day then 1 * Day
      else if d ≤ 360 * Day then 2 * Day
      else if d ≤ 720 * Day then 4 * Day
      else if d ≤ 1800 * Day then 10 * Day
      else 30 * Day := rfl

/-- The step as a function of the saturated difference alone: the redundant
lower bounds of the source's comparisons change nothing. -/
theorem computeStep_eq_specStep_sub (start end_ : Int) :
    ComputeStep start end_ = specStep (Time.Sub end_ start) := by
  rw [specStep_chain]
  unfold ComputeStep
  obtain ⟨d, hd⟩ : ∃ d : Int, Time.Sub end_ start = d := ⟨_, rfl⟩
  rw [hd]
  rw [day_val, hour_val, minute_val, second_val]
  simp only [Int.reduceMul, gt_iff_lt]
  by_cases h0 : (d : Int) ≤ 600000000000
  · rw [if_pos h0, if_pos h0]
  rw [if_neg h0, if_neg h0]
  by_cases h1 : (d : Int) ≤ 1800000000000
  · rw [if_pos h1, if_pos h1]
  rw [if_neg h1, if_neg h1]
  by_cases h2 : (d : Int) ≤ 3600000000000
  have g2 : (1800000000000 : Int) < d := by omega
  · rw [if_pos ⟨g2, h2⟩, if_pos h2]
  rw [if_neg (fun h => h2 h.2), if_neg h2]
  by_cases h3 : (d : Int) ≤ 10800000000000
  have g3 : (3600000000000 : Int) < d := by omega
  · rw [if_pos ⟨g3, h3⟩, if_pos h3]
  rw [if_neg (fun h => h3 h.2), if_neg h3]
  by_cases h4 : (d : Int) ≤ 21600000000000
  have g4 : (10800000000000 : Int) < d := by omega
  · rw [if_pos ⟨g4, h4⟩, if_pos h4]
  rw [if_neg (fun h => h4 h.2), if_neg h4]
  by_cases h5 : (d : Int) ≤ 86400000000000
  have g5 : (21600000000000 : Int) < d := by omega
  · rw [if_pos ⟨g5, h5⟩, if_pos h5]
  rw [if_neg (fun h => h5 h.2), if_neg h5]
  by_cases h6 : (d : Int) ≤ 172800000000000
  have g6 : (86400000000000 : Int) < d := by omega
  · rw [if_pos ⟨g6, h6⟩, if_pos h6]
  rw [if_neg (fun h => h6 h.2), if_neg h6]
  by_cases h7 : (d : Int) ≤ 345600000000000
  have g7 : (172800000000000 : Int) < d := by omega
  · rw [if_pos ⟨g7, h7⟩, if_pos h7]
  rw [if_neg (fun h => h7 h.2), if_neg h7]
  by_cases h8 : (d : Int) ≤ 604800000000000
  have g8 : (345600000000000 : Int) < d := by omega
  · rw [if_pos ⟨g8, h8⟩, if_pos h8]
  rw [if_neg (fun h => h8 h.2), if_neg h8]
  by_cases h9 : (d : Int) ≤ 1296000000000000
  have g9 : (604800000000000 : Int) < d := by omega
  · rw [if_pos ⟨g9, h9⟩, if_pos h9]
  rw [if_neg (fun h => h9 h.2), if_neg h9]
  by_cases h10 : (d : Int) ≤ 2592000000000000
  have g10 : (1296000000000000 : Int) < d := by omega
  · rw [if_pos ⟨g10, h10⟩, if_pos h10]
  rw [if_neg (fun h => h10 h.2), if_neg h10]
  by_cases h11 : (d : Int) ≤ 7776000000000000
  have g11 : (2592000000000000 : Int) < d := by omega
  · rw [if_pos ⟨g11, h11⟩, if_pos h11]
  rw [if_neg (fun h => h11 h.2), if_neg h11]
  by_cases h12 : (d : Int) ≤ 15552000000000000
  have g12 : (7776000000000000 : Int) < d := by omega
  · rw [if_pos ⟨g12, h12⟩, if_pos h12]
  rw [if_neg (fun h => h12 h.2), if_neg h12]
  by_cases h13 : (d : Int) ≤ 31104000000000000
  have g13 : (15552000000000000 : Int) < d := by omega
  · rw [if_pos ⟨g13, h13⟩, if_pos h13]
  rw [if_neg (fun h => h13 h.2), if_neg h13]
  by_cases h14 : (d : Int) ≤ 62208000000000000
  have g14 : (31104000000000000 : Int) < d := by omega
  · rw [if_pos ⟨g14, h14⟩, if_pos h14]
  rw [if_neg (fun h => h14 h.2), if_neg h14]
  by_cases h15 : (d : Int) ≤ 155520000000000000
  have g15 : (62208000000000000 : Int) < d := by omega
  · rw [if_pos ⟨g15, h15⟩, if_pos h15]
  rw [if_neg (fun h => h15 h.2), if_neg h15]

/-- The saturated difference of an ordered pair of instants. -/
theorem sub_of_le (start end_ : Int) (h : start ≤ end_) :
    Time.Sub end_ start = min (end_ - start) maxDuration := by
  unfold Time.Sub
  simp only [minDuration, maxDuration]
  split_ifs <;> omega

/-- The saturated difference is monotone in the real difference. -/
theorem sub_mono (s1 e1 s2 e2 : Int) (h : e1 - s1 ≤ e2 - s2) :
    Time.Sub e1 s1 ≤ Time.Sub e2 s2 := by
  unfold Time.Sub
  simp only [minDuration, maxDuration]
  split_ifs <;> omega

/-- A lookup returns the step of a row, or the last step. -/
theorem lookupStep_mem (d : Int) (rows : List (Int × Int)) :
    lookupStep d rows ∈ rows.map Prod.snd ++ [specLastStep] := by
  induction rows with
  | nil => simp [lookupStep]
  | cons row rows ih =>
    unfold lookupStep
    split_ifs
    · simp
    · exact List.mem_cons_of_mem _ ih

/-- Over a table whose steps increase, the lookup is monotone. -/
theorem lookupStep_mono (rows : List (Int × Int))
    (hs : (rows.map Prod.snd ++ [specLastStep]).Pairwise (fun a b => a ≤ b))
    (d1 d2 : Int) (h : d1 ≤ d2) : lookupStep d1 rows ≤ lookupStep d2 rows := by
  induction rows with
  | nil => simp [lookupStep]
  | cons row rows ih =>
    rw [List.map_cons, List.cons_append, List.pairwise_cons] at hs
    unfold lookupStep
    by_cases h1 : d1 ≤ row.1
    · rw [if_pos h1]
      by_cases h2 : d2 ≤ row.1
      · rw [if_pos h2]
      · rw [if_neg h2]
        exact hs.1 _ (lookupStep_mem d2 rows)
    · have h2 : ¬ d2 ≤ row.1 := fun h2 => h1 (le_trans h h2)
      rw [if_neg h1, if_neg h2]
      exact ih hs.2

/-- A window too long for every row gets the last step. -/
theorem lookupStep_above (d : Int) (rows : List (Int × Int))
    (h : ∀ row ∈ rows, row.1 < d) : lookupStep d rows = specLastStep := by
  induction rows with
  | nil => rfl
  | cons row rows ih =>
    unfold lookupStep
    have h1 : ¬ d ≤ row.1 := not_le.mpr (h row (List.mem_cons_self _ _))
    rw [if_neg h1]
    exact ih (fun r hr => h r (List.mem_cons_of_mem _ hr))

/-- Within a table whose bounds are at most `k` steps of their row, a window
that fits a row is at most `k` steps of the step it gets. -/
theorem lookupStep_bound (k d : Int) (rows : List (Int × Int))
    (hk : ∀ row ∈ rows, row.1 ≤ k * row.2) (h : ∃ row ∈ rows, d ≤ row.1) :
    d ≤ k * lookupStep d rows := by
  induction rows with
  | nil => simp at h
  | cons row rows ih =>
    unfold lookupStep
    by_cases h1 : d ≤ row.1
    · rw [if_pos h1]
      exact le_trans h1 (hk row (List.mem_cons_self _ _))
    · rw [if_neg h1]
      apply ih (fun r hr => hk r (List.mem_cons_of_mem _ hr))
      obtain ⟨r, hr, hd⟩ := h
      rcases List.mem_cons.mp hr with rfl | hr
      · exact absurd hd h1
      · exact ⟨r, hr, hd⟩

/-- The steps of the table increase from row to row. -/
theorem specSteps_sorted : specSteps.Pairwise (fun a b => a ≤ b) := by
  unfold specSteps specStepTable specLastStep
  decide

/-- Every step of the table is strictly positive. -/
theorem specSteps_pos : ∀ s ∈ specSteps, 0 < s := by
  unfold specSteps specStepTable specLastStep
  decide

/-- The step of a window that starts at `start` and lasts `d`. -/
theorem computeStep_add (start d : Int) (h : 0 ≤ d) :
    ComputeStep start (start + d) = specStep d := by
  rw [computeStep_eq_specStep_sub, sub_of_le start (start + d) (by omega)]
  have e : start + d - start = d := by omega
  rw [e]
  by_cases hd : d ≤ maxDuration
  · rw [min_eq_left hd]
  · rw [min_eq_right (le_of_lt (not_le.mp hd))]
    unfold specStep
    rw [lookupStep_above d, lookupStep_above maxDuration]
    · decide
    · intro row hrow
      have hm : ∀ r ∈ specStepTable, r.1 < maxDuration := by decide
      exact lt_trans (hm row hrow) (not_le.mp hd)

/-- The step of a window with `end >= start` is the table's step for its
length. -/
theorem computeStep_of_le (start end_ : Int) (h : start ≤ end_) :
    ComputeStep start end_ = specStep (end_ - start) := by
  have e := computeStep_add start (end_ - start) (by omega)
  have e2 : start + (end_ - start) = end_ := by omega
  rw [e2] at e
  exact e

/-! ### The claims on the step calculator -/

/-- C1: for a window with `end >= start` the step is the table's step for the
length `end - start`, so it depends on that length alone; at each bound of the
table the step is that row's and one nanosecond above it the next row's; and the
examples of the specification hold (9 min, 31 min, exactly 4 d, 8 d). -/
theorem computeStep_matches_table (start end_ : Int) (h : start ≤ end_) :
    ComputeStep start end_ = specStep (end_ - start) ∧
    (∀ p ∈ specStepTable.zip specSteps.tail,
      ComputeStep start (start + p.1.1) = p.1.2 ∧
      ComputeStep start (start + p.1.1 + Nanosecond) = p.2) ∧
    ComputeStep start (start + 9 * Minute) = 5 * Second ∧
    ComputeStep start (start + 31 * Minute) = 20 * Second ∧
    ComputeStep start (start + 4 * Day) = 32 * Minute ∧
    ComputeStep start (start + 8 * Day) = 2 * Hour := by
  refine ⟨?_, ?_, ?_, ?_, ?_, ?_⟩
  · exact computeStep_of_le start end_ h
  · intro p hp
    have hb : ∀ q ∈ specStepTable.zip specSteps.tail,
        (0 ≤ q.1.1 ∧ specStep q.1.1 = q.1.2) ∧ specStep (q.1.1 + Nanosecond) = q.2 := by
      decide
    obtain ⟨⟨h0, h1⟩, h2⟩ := hb p hp
    have h3 : (0 : Int) ≤ p.1.1 + Nanosecond := by
      have : Nanosecond = 1 := rfl
      omega
    rw [computeStep_add start _ h0, add_assoc, computeStep_add start _ h3]
    exact ⟨h1, h2⟩
  · rw [computeStep_add start _ (by decide)]; decide
  · rw [computeStep_add start _ (by decide)]; decide
  · rw [computeStep_add start _ (by decide)]; decide
  · rw [computeStep_add start _ (by decide)]; decide

/-- The table lookup of C1 at a concrete window of nine minutes. -/
theorem computeStep_matches_table_witness :
    ComputeStep 0 (9 * Minute) = specStep (9 * Minute - 0) :=
  (computeStep_matches_table 0 (9 * Minute) (by decide)).1

/-- C2: the step is monotonically non-decreasing in the window length: for two
windows with `0 <= diff1 <= diff2` the step of the first is at most the step of
the second. -/
theorem computeStep_monotone (start1 end1 start2 end2 : Int)
    (_h0 : 0 ≤ end1 - start1) (h : end1 - start1 ≤ end2 - start2) :
    ComputeStep start1 end1 ≤ ComputeStep start2 end2 := by
  rw [computeStep_eq_specStep_sub, computeStep_eq_specStep_sub]
  exact lookupStep_mono specStepTable specSteps_sorted _ _ (sub_mono _ _ _ _ h)

/-- The monotonicity of C2 at a one-hour and a one-day window. -/
theorem computeStep_monotone_witness :
    ComputeStep 5 (5 + Hour) ≤ ComputeStep 0 Day :=
  computeStep_monotone 5 (5 + Hour) 0 Day (by decide) (by decide)

/-- C3: for every pair of instants, in whatever order, the step is strictly
positive and is one of the seventeen steps of the table. -/
theorem computeStep_pos_mem (start end_ : Int) :
    0 < ComputeStep start end_ ∧ ComputeStep start end_ ∈ specSteps ∧
    specSteps.length = 17 := by
  have hm : ComputeStep start end_ ∈ specSteps := by
    rw [computeStep_eq_specStep_sub]
    exact lookupStep_mem _ _
  exact ⟨specSteps_pos _ hm, hm, rfl⟩

/-- C4, counterexample: a window of 5430 days (181 steps of 30 days, well inside
the range of a duration) has 181 samples, more than 180. -/
theorem sampleCount_unbounded_row :
    (0 : Int) ≤ 5430 * Day ∧ ComputeStep 0 (5430 * Day) = 30 * Day ∧
    sampleCount 0 (5430 * Day) = 181 ∧ ¬ sampleCount 0 (5430 * Day) ≤ 180 := by
  have hs : Time.Sub (5430 * Day) 0 = 5430 * Day := by decide
  have hc : ComputeStep 0 (5430 * Day) = 30 * Day := by
    rw [computeStep_eq_specStep_sub, hs]; decide
  have hn : sampleCount 0 (5430 * Day) = 181 := by
    unfold sampleCount
    rw [hc, hs]; decide
  refine ⟨by decide, hc, hn, ?_⟩
  rw [hn]; decide

/-- C4, amended: for a window with `end >= start` of at most 1800 days (the
bounded rows of the table) the sample count is at most 180; a longer window
keeps the step of 30 days. -/
theorem sampleCount_le_of_bounded (start end_ : Int) (h : start ≤ end_) :
    (end_ - start ≤ 1800 * Day → sampleCount start end_ ≤ 180) ∧
    (1800 * Day < end_ - start → ComputeStep start end_ = 30 * Day) := by
  have hsub := sub_of_le start end_ h
  constructor
  · intro hb
    have hd : end_ - start ≤ maxDuration := le_trans hb (by decide)
    rw [min_eq_left hd] at hsub
    unfold sampleCount
    rw [computeStep_eq_specStep_sub, hsub]
    have hpos : 0 < specStep (end_ - start) := specSteps_pos _ (lookupStep_mem _ _)
    have hk : end_ - start ≤ 180 * specStep (end_ - start) := by
      apply lookupStep_bound 180 _ specStepTable (by decide)
      exact ⟨(1800 * Day, 10 * Day), by decide, hb⟩
    rw [Int.tdiv_eq_ediv (by omega) (le_of_lt hpos)]
    exact Int.ediv_le_of_le_mul hpos hk
  · intro hb
    rw [computeStep_of_le start end_ h]
    unfold specStep
    rw [lookupStep_above]
    · rfl
    · intro row hrow
      have hm : ∀ r ∈ specStepTable, r.1 ≤ 1800 * Day := by decide
      exact lt_of_le_of_lt (hm row hrow) hb

/-- The bound of the amended C4 at a window of exactly 1800 days. -/
theorem sampleCount_le_of_bounded_witness :
    sampleCount 0 (1800 * Day) ≤ 180 :=
  (sampleCount_le_of_bounded 0 (1800 * Day) (by decide)).1 (by decide)

/-- C15: for every window with `end < start` the step is five seconds, the
smallest step of the table; the function has a value for every pair of
instants. -/
theorem computeStep_negative (start end_ : Int) (h : end_ < start) :
    ComputeStep start end_ = 5 * Second ∧
    (∀ s ∈ specSteps, 5 * Second ≤ s) ∧
    ∃ step, ComputeStep start end_ = step := by
  refine ⟨?_, by decide, ⟨_, rfl⟩⟩
  have hs : Time.Sub end_ start ≤ 10 * Minute := by
    unfold Time.Sub
    simp only [minDuration, maxDuration, minute_val]
    split_ifs <;> omega
  unfold ComputeStep
  simp only [if_pos hs]

/-- The step of C15 for a window that ends one hour before it starts. -/
theorem computeStep_negative_witness :
    ComputeStep Hour 0 = 5 * Second :=
  (computeStep_negative Hour 0 (by decide)).1

/-! ## Properties of the template engine -/

/-- The execution of a list of nodes followed by another. -/
theorem execList_append (a b : List Node) (env : Env) :
    execList (a ++ b) env =
      match execList a env with
      | none => none
      | some (o, env') =>
        match execList b env' with
        | none => none
        | some (o', env'') => some (o ++ o', env'') := by
  induction a generalizing env with
  | nil =>
    simp only [List.nil_append, execList]
    cases execList b env with
    | none => rfl
    | some r => rfl
  | cons n ns ih =>
    simp only [List.cons_append, execList]
    cases execNode n env with
    | none => rfl
    | some r =>
      obtain ⟨o, env'⟩ := r
      simp only [List.append_eq, ih]
      cases execList ns env' with
      | none => rfl
      | some r2 =>
        obtain ⟨o2, env2⟩ := r2
        simp only
        cases execList b env2 with
        | none => rfl
        | some r3 => simp only [List.append_assoc]

/-- Text and placeholders write the text with the escaped value of
`$instance` in the placeholders, and declare nothing. -/
theorem execList_fill (ns : List Node) (h : onlyTextAndInstance ns = true) (env : Env)
    (x : Value) (hx : lookup "instance" env.vars = some x) :
    execList ns env = some (fill (htmlEscaper x) ns, env) := by
  induction ns with
  | nil => rfl
  | cons n ns ih =>
    cases n with
    | text t =>
      simp only [onlyTextAndInstance] at h
      simp only [execList, execNode, ih h, fill]
    | print a =>
      simp only [onlyTextAndInstance, Bool.and_eq_true, decide_eq_true_eq] at h
      obtain ⟨ha, h⟩ := h
      subst ha
      simp only [execList, execNode, evalArg, hx, ih h, fill]
    | assign v a => simp [onlyTextAndInstance] at h
    | ifNe a b body => simp [onlyTextAndInstance] at h
    | range i e a body => simp [onlyTextAndInstance] at h

/-- The panel block holds only text and the placeholder `[[ $instance ]]`. -/
theorem panelBlock_onlyTextAndInstance : onlyTextAndInstance panelBlock = true := by
  decide!

/-- The variables in scope in the body of the `range` action, for the element
`s` of index `k` of a list of `n` instances. -/
theorem lookup_body (n k : Nat) (s : String) :
    lookup "instance"
        [("instance", Value.str s), ("ind", Value.int k), ("indexCheck", Value.int ((n : Int) - 1))]
      = some (Value.str s) ∧
    lookup "ind"
        [("instance", Value.str s), ("ind", Value.int k), ("indexCheck", Value.int ((n : Int) - 1))]
      = some (Value.int k) ∧
    lookup "indexCheck"
        [("instance", Value.str s), ("ind", Value.int k), ("indexCheck", Value.int ((n : Int) - 1))]
      = some (Value.int ((n : Int) - 1)) :=
  ⟨rfl, rfl, rfl⟩

/-- The comparison of the `if` action: `ne $indexCheck $ind` holds unless the
index is the last one. -/
theorem ne_indexCheck (n k : Nat) :
    ne (Value.int ((n : Int) - 1)) (Value.int k) = some (decide (¬ k + 1 = n)) := by
  simp only [ne, bne, Option.some.injEq]
  by_cases h : k + 1 = n
  · subst h
    simp
  · have h2 : ¬ ((n : Int) - 1 = (k : Int)) := by omega
    simp [h, h2]

/-- One round of the `range` action: the block of the instance, then what
follows the block of its index. -/
theorem execList_body (block : List Node) (hb : onlyTextAndInstance block = true)
    (dot : List (String × Value)) (n k : Nat) (s : String) :
    execList
        (block ++
          [ Node.ifNe (.var "indexCheck") (.var "ind") [.text ",\n  "],
            Node.text "\n  " ])
        ⟨dot, [("instance", .str s), ("ind", .int k), ("indexCheck", .int ((n : Int) - 1))]⟩
      = some (fill (htmlEscaper (.str s)) block ++ afterBlock n k,
          ⟨dot, [("instance", .str s), ("ind", .int k), ("indexCheck", .int ((n : Int) - 1))]⟩) := by
  obtain ⟨h1, h2, h3⟩ := lookup_body n k s
  rw [execList_append, execList_fill block hb _ (.str s) h1]
  simp only [execList, execNode, evalArg, h2, h3, ne_indexCheck]
  by_cases h : k + 1 = n
  · simp [h, afterBlock, joiningComma]
  · simp [h, afterBlock, joiningComma]

/-- The `range` action over the instances `rest`, numbered from `k`. -/
theorem rangeLoop_blocks (block : String → List Char) (n : Nat) (rest : List String) (k : Nat) :
    rangeLoop (fun k s => some (block s ++ afterBlock n k)) k rest
      = some (blocksFrom block n k rest) := by
  induction rest generalizing k with
  | nil => rfl
  | cons s rest ih =>
    simp only [rangeLoop, ih, blocksFrom]

/-- The execution of a template of the shape of `staticBoard`, whatever its
texts: the texts before the repetition, one block for each instance with what
follows it, and the text after the repetition. -/
theorem execList_board (head tail : String) (block : List Node)
    (hblock : onlyTextAndInstance block = true) (l : List String) :
    (match execList
        [ Node.text "\n",
          Node.assign "indexCheck" (.field "indexCheck"),
          Node.text head,
          Node.range "ind" "instance" (.field "instances")
            (block ++
              [ Node.ifNe (.var "indexCheck") (.var "ind") [.text ",\n  "],
                Node.text "\n  " ]),
          Node.text tail ]
        { dot := [("instances", .strs l), ("indexCheck", .int (l.length - 1))],
          vars := [] } with
      | none => none
      | some (o, _) => some o)
      = some ("\n".data ++ head.data ++
          blocksFrom (fun s => fill (htmlEscaper (.str s)) block) l.length 0 l ++ tail.data) := by
  have hb : (fun (k : Nat) (s : String) =>
      match execList
          (block ++
            [ Node.ifNe (.var "indexCheck") (.var "ind") [.text ",\n  "],
              Node.text "\n  " ])
          ⟨[("instances", .strs l), ("indexCheck", .int ((l.length : Int) - 1))],
            [("instance", .str s), ("ind", .int k),
              ("indexCheck", .int ((l.length : Int) - 1))]⟩ with
      | none => none
      | some (o, _) => some o)
      = fun k s => some (fill (htmlEscaper (.str s)) block ++ afterBlock l.length k) := by
    funext k s
    rw [execList_body block hblock]
  have h1 : lookup "indexCheck"
      [("instances", Value.strs l), ("indexCheck", Value.int ((l.length : Int) - 1))]
      = some (Value.int ((l.length : Int) - 1)) := rfl
  have h2 : lookup "instances"
      [("instances", Value.strs l), ("indexCheck", Value.int ((l.length : Int) - 1))]
      = some (Value.strs l) := rfl
  simp only [execList, execNode, evalArg, h1, h2, hb, rangeLoop_blocks,
    List.nil_append, List.append_nil, List.append_assoc]

/-- The rendered document: the fixed text before the repetition, one block for
each instance with what follows it, and the fixed text after the repetition. -/
theorem renderStaticBoard_eq (l : List String) :
    renderStaticBoard l = some (boardDocument escapedBlock l) :=
  execList_board staticBoardHead staticBoardTail panelBlock panelBlock_onlyTextAndInstance l

/-! ## Properties of the scanner -/

/-- The scanner over a text followed by another. -/
theorem scanRun_append (s : Scanner) (a b : List Char) :
    scanRun s (a ++ b) =
      match scanRun s a with
      | none => none
      | some s' => scanRun s' b := by
  induction a generalizing s with
  | nil => rfl
  | cons c cs ih =>
    simp only [List.cons_append, scanRun]
    cases scanStep s c with
    | none => rfl
    | some s' => exact ih s'

/-- Inside a string, characters that are no quote, no backslash and no control
character leave the scanner where it is. -/
theorem scanRun_stringSafe (ps : List ParseState) (cs : List Char)
    (h : ∀ c ∈ cs, stringSafe c = true) :
    scanRun ⟨.inString, ps⟩ cs = some ⟨.inString, ps⟩ := by
  induction cs with
  | nil => rfl
  | cons c cs ih =>
    have hc := h c (List.mem_cons_self _ _)
    simp only [stringSafe, Bool.and_eq_true, Bool.not_eq_true', beq_eq_false_iff_ne, ne_eq,
      decide_eq_false_iff_not] at hc
    obtain ⟨⟨h1, h2⟩, h3⟩ := hc
    simp only [scanRun, scanStep, if_neg h1, if_neg h2, if_neg h3]
    exact ih (fun c hc => h c (List.mem_cons_of_mem _ hc))

/-- What the HTML escaper writes for a character of its table holds no quote,
no backslash and no control character. -/
theorem htmlReplacementTable_safe (c : Char) (r : String)
    (h : htmlReplacementTable c = some r) : ∀ x ∈ r.data, stringSafe x = true := by
  unfold htmlReplacementTable at h
  split_ifs at h <;> (simp only [Option.some.injEq] at h; subst h; decide)

/-- A character that is not in the table of the HTML escaper is no quote. -/
theorem htmlReplacementTable_none (c : Char) (h : htmlReplacementTable c = none) :
    c ≠ '"' := by
  intro hc
  subst hc
  revert h
  decide

/-- The escaped form of an identifier without backslash and without control
character holds no quote, no backslash and no control character. -/
theorem htmlReplacer_safe (cs : List Char)
    (h : ∀ c ∈ cs, c ≠ '\\' ∧ ¬ c < ' ') :
    ∀ x ∈ htmlReplacer cs, stringSafe x = true := by
  induction cs with
  | nil => intro x hx; simp [htmlReplacer] at hx
  | cons c cs ih =>
    intro x hx
    have ih' := ih (fun c hc => h c (List.mem_cons_of_mem _ hc))
    unfold htmlReplacer at hx
    cases hr : htmlReplacementTable c with
    | some r =>
      rw [hr] at hx
      rcases List.mem_append.mp hx with hx | hx
      · exact htmlReplacementTable_safe c r hr x hx
      · exact ih' x hx
    | none =>
      rw [hr] at hx
      rcases List.mem_cons.mp hx with hx | hx
      · subst hx
        obtain ⟨h1, h2⟩ := h x (List.mem_cons_self _ _)
        have h3 := htmlReplacementTable_none x hr
        simp [stringSafe, h1, h2, h3]
      · exact ih' x hx

/-- The escaped form of any identifier holds no quote. -/
theorem htmlReplacer_no_quote (cs : List Char) : '"' ∉ htmlReplacer cs := by
  induction cs with
  | nil => simp [htmlReplacer]
  | cons c cs ih =>
    unfold htmlReplacer
    cases hr : htmlReplacementTable c with
    | some r =>
      simp only [List.mem_append, not_or]
      refine ⟨?_, ih⟩
      intro hq
      have := htmlReplacementTable_safe c r hr _ hq
      revert this
      decide
    | none =>
      simp only [List.mem_cons, not_or]
      exact ⟨fun e => htmlReplacementTable_none c hr e.symm, ih⟩

/-- The scanner over the text of text nodes and placeholders filled with
characters that leave it inside a string. -/
theorem scanNodes_fill (ident : List Char) (hi : ∀ c ∈ ident, stringSafe c = true)
    (ns : List Node) (s s' : Scanner) (h : scanNodes s ns = some s') :
    scanRun s (fill ident ns) = some s' := by
  induction ns generalizing s with
  | nil =>
    simp only [scanNodes] at h
    simp only [fill, scanRun, h]
  | cons n ns ih =>
    cases n with
    | text t =>
      simp only [scanNodes] at h
      simp only [fill, scanRun_append]
      cases hr : scanRun s t.data with
      | none => rw [hr] at h; exact absurd h (by simp)
      | some s1 =>
        rw [hr] at h
        exact ih s1 h
    | print a =>
      simp only [scanNodes] at h
      split_ifs at h with hs
      obtain ⟨st, ps⟩ := s
      simp only at hs
      subst hs
      simp only [fill, scanRun_append, scanRun_stringSafe ps ident hi]
      exact ih _ h
    | assign v a => simp [scanNodes] at h
    | ifNe a b body => simp [scanNodes] at h
    | range i e a body => simp [scanNodes] at h

/-! ### The scanner over the texts of `staticBoard` -/

set_option maxRecDepth 1000000 in
/-- The text before the repetition leaves the scanner right after the `[` of
the array of the panels. -/
theorem scanRun_head :
    scanRun scanInit ("\n".data ++ staticBoardHead.data) = some scanPanelsOpen := by
  decide!

set_option maxRecDepth 1000000 in
/-- As first value of the array, the panel block leaves the scanner after a
value of the array, with every placeholder inside a string. -/
theorem scanNodes_panelBlock_open :
    scanNodes scanPanelsOpen panelBlock = some scanPanelsValue := by
  decide!

set_option maxRecDepth 1000000 in
/-- After a comma of the array, the panel block leaves the scanner after a
value of the array, with every placeholder inside a string. -/
theorem scanNodes_panelBlock_comma :
    scanNodes scanPanelsComma panelBlock = some scanPanelsValue := by
  decide!

/-- The scanner over what follows a block. -/
theorem scanRun_afterBlock (n k : Nat) :
    scanRun scanPanelsValue (afterBlock n k) =
      some (if k + 1 = n then scanPanelsValue else scanPanelsComma) := by
  unfold afterBlock joiningComma
  by_cases h : k + 1 = n
  · rw [if_pos h, if_pos h]; decide
  · rw [if_neg h, if_neg h]; decide

set_option maxRecDepth 1000000 in
/-- The text after the repetition closes the array and the document, after the
last block as well as right after the `[`. -/
theorem scanRun_tail :
    scanRun scanPanelsValue staticBoardTail.data = some ⟨.endTop, []⟩ ∧
    scanRun scanPanelsOpen staticBoardTail.data = some ⟨.endTop, []⟩ := by
  decide!

/-- The scanner over the blocks of a list of instances that is not empty and
ends the document: it is after a value of the array, whether the blocks come
first in the array or after a comma. -/
theorem scanRun_blocksFrom (block : String → List Char) (n : Nat) (rest : List String)
    (hb : ∀ s ∈ rest, scanRun scanPanelsOpen (block s) = some scanPanelsValue ∧
      scanRun scanPanelsComma (block s) = some scanPanelsValue)
    (k : Nat) (hk : k + rest.length = n) (hne : rest ≠ []) :
    scanRun scanPanelsOpen (blocksFrom block n k rest) = some scanPanelsValue ∧
    scanRun scanPanelsComma (blocksFrom block n k rest) = some scanPanelsValue := by
  induction rest generalizing k with
  | nil => exact absurd rfl hne
  | cons s rest ih =>
    obtain ⟨h1, h2⟩ := hb s (List.mem_cons_self _ _)
    simp only [blocksFrom, scanRun_append, h1, h2, scanRun_afterBlock]
    cases rest with
    | nil =>
      have hl : k + 1 = n := by simpa using hk
      simp only [if_pos hl, blocksFrom, scanRun, and_self]
    | cons s2 rest2 =>
      have hl : ¬ k + 1 = n := by
        simp only [List.length_cons] at hk
        omega
      simp only [if_neg hl]
      have ih' := ih (fun s hs => hb s (List.mem_cons_of_mem _ hs)) (k + 1)
        (by simp only [List.length_cons] at hk ⊢; omega) (by simp)
      exact ⟨ih'.2, ih'.2⟩

/-- The scanner over the escaped block of an instance without backslash and
without control character. -/
theorem scanRun_escapedBlock (s : String) (h : ∀ c ∈ s.data, c ≠ '\\' ∧ ¬ c < ' ') :
    scanRun scanPanelsOpen (escapedBlock s) = some scanPanelsValue ∧
    scanRun scanPanelsComma (escapedBlock s) = some scanPanelsValue :=
  ⟨scanNodes_fill _ (htmlReplacer_safe s.data h) panelBlock _ _ scanNodes_panelBlock_open,
   scanNodes_fill _ (htmlReplacer_safe s.data h) panelBlock _ _ scanNodes_panelBlock_comma⟩

/-- A text in three parts is valid JSON when the scanner runs through the
parts and ends on a whole value. -/
theorem checkValid_of_runs (a b c : List Char) (s1 s2 s3 : Scanner)
    (h1 : scanRun scanInit a = some s1) (h2 : scanRun s1 b = some s2)
    (h3 : scanRun s2 c = some s3) (he : scanEof s3 = true) :
    checkValid (a ++ b ++ c) = true := by
  unfold checkValid
  rw [scanRun_append, scanRun_append, h1]
  simp only
  rw [h2]
  simp only
  rw [h3]
  exact he

/-- The rendered document is valid JSON when no identifier holds a backslash or
a control character. -/
theorem checkValid_boardDocument (l : List String)
    (h : ∀ s ∈ l, ∀ c ∈ s.data, c ≠ '\\' ∧ ¬ c < ' ') :
    checkValid (boardDocument escapedBlock l) = true := by
  unfold boardDocument
  cases l with
  | nil =>
    exact checkValid_of_runs _ _ _ _ _ _ scanRun_head rfl scanRun_tail.2 (by decide)
  | cons s rest =>
    have hb := scanRun_blocksFrom escapedBlock (s :: rest).length (s :: rest)
      (fun s hs => scanRun_escapedBlock s (h s hs)) 0 (by simp) (by simp)
    exact checkValid_of_runs _ _ _ _ _ _ scanRun_head hb.1 scanRun_tail.1 (by decide)

/-! ## The scanner inside a string -/

/-- Between the quotes of a string, a character that is no quote leaves the
scanner between the quotes and its stack as it is, whatever the stack. -/
theorem scanStep_inStr (st : Step) (ps : List ParseState) (c : Char)
    (hst : st.inStr = true) (hc : c ≠ '"') :
    scanStep ⟨st, ps⟩ c =
      (match scanStep ⟨st, []⟩ c with
        | none => none
        | some s => some ⟨s.step, ps⟩) ∧
    ∀ s', scanStep ⟨st, []⟩ c = some s' → s'.step.inStr = true ∧ s'.parseState = [] := by
  cases st <;> simp only [Step.inStr] at hst <;> first
    | exact absurd hst (by decide)
    | (simp only [scanStep, if_neg hc]
       constructor
       · split_ifs <;> rfl
       · intro s' h
         split_ifs at h <;>
           (simp only [Option.some.injEq] at h; subst h; exact ⟨rfl, rfl⟩))

/-- Between the quotes of a string, a text without quote leaves the scanner
between the quotes and its stack as it is, whatever the stack. -/
theorem scanRun_inStr (cs : List Char) (hq : '"' ∉ cs) (st : Step) (hst : st.inStr = true)
    (ps : List ParseState) :
    scanRun ⟨st, ps⟩ cs =
      (match scanRun ⟨st, []⟩ cs with
        | none => none
        | some s => some ⟨s.step, ps⟩) ∧
    ∀ s', scanRun ⟨st, []⟩ cs = some s' → s'.step.inStr = true ∧ s'.parseState = [] := by
  induction cs generalizing st with
  | nil => exact ⟨rfl, fun s' h => by simp only [scanRun, Option.some.injEq] at h; subst h; exact ⟨hst, rfl⟩⟩
  | cons c cs ih =>
    have hc : c ≠ '"' := fun e => hq (e ▸ List.mem_cons_self _ _)
    have hq' : '"' ∉ cs := fun h => hq (List.mem_cons_of_mem _ h)
    obtain ⟨h1, h2⟩ := scanStep_inStr st ps c hst hc
    simp only [scanRun, h1]
    cases hs : scanStep ⟨st, []⟩ c with
    | none => exact ⟨rfl, fun s' h => absurd h (by simp)⟩
    | some s1 =>
      obtain ⟨hs1, hp1⟩ := h2 s1 hs
      obtain ⟨st1, ps1⟩ := s1
      simp only at hs1 hp1
      subst hp1
      exact ih hq' st1 hs1

/-- Inside a string, a text without quote moves the scanner by its effect,
whatever the stack. -/
theorem scanRun_strEffect (cs : List Char) (hq : '"' ∉ cs) (ps : List ParseState) :
    scanRun ⟨.inString, ps⟩ cs =
      (match strEffect cs with
        | none => none
        | some st => some ⟨st, ps⟩) ∧
    ∀ st, strEffect cs = some st → st.inStr = true := by
  obtain ⟨h1, h2⟩ := scanRun_inStr cs hq .inString rfl ps
  unfold strEffect
  cases hr : scanRun ⟨.inString, []⟩ cs with
  | none =>
    rw [hr] at h1
    exact ⟨h1, fun st h => absurd h (by simp)⟩
  | some s =>
    rw [hr] at h1
    refine ⟨h1, ?_⟩
    intro st h
    simp only [Option.some.injEq] at h
    subst h
    exact (h2 s hr).1

/-- Characters that are no quote, no backslash and no control character can
stand between the quotes of a string. -/
theorem stringBody_of_stringSafe (cs : List Char) (h : ∀ c ∈ cs, stringSafe c = true) :
    stringBody cs = true := by
  unfold stringBody strEffect
  rw [scanRun_stringSafe [] cs h]
  rfl

/-- The scanner over the text of text nodes and placeholders filled with a
text without quote, from the effect of that text in a string. -/
theorem scanNodesEff_fill (ident : List Char) (hq : '"' ∉ ident) (eff : Option Step)
    (he : strEffect ident = eff) (ns : List Node)
    (s : Scanner) (r : Option Scanner) (h : scanNodesEff eff s ns = some r) :
    scanRun s (fill ident ns) = r := by
  induction ns generalizing s with
  | nil =>
    simp only [scanNodesEff, Option.some.injEq] at h
    simp only [fill, scanRun, h]
  | cons n ns ih =>
    cases n with
    | text t =>
      simp only [scanNodesEff] at h
      simp only [fill, scanRun_append]
      cases hr : scanRun s t.data with
      | none =>
        rw [hr] at h
        simp only [Option.some.injEq] at h
        exact h
      | some s1 =>
        rw [hr] at h
        exact ih s1 h
    | print a =>
      simp only [scanNodesEff] at h
      split_ifs at h with hs
      obtain ⟨st, ps⟩ := s
      simp only at hs
      subst hs
      simp only [fill, scanRun_append, (scanRun_strEffect ident hq ps).1, he]
      cases eff with
      | none =>
        simp only [Option.some.injEq] at h
        exact h
      | some st' => exact ih _ h
    | assign v a => simp [scanNodesEff] at h
    | ifNe a b body => simp [scanNodesEff] at h
    | range i e a body => simp [scanNodesEff] at h

set_option maxRecDepth 1000000 in
/-- The scanner over the panel block, for every effect a text without quote can
have in a string: only a text that leaves the scanner between the quotes,
outside an escape sequence, lets the scanner through the block. -/
theorem scanNodesEff_panelBlock (eff : Option Step)
    (h : ∀ st, eff = some st → st.inStr = true) :
    scanNodesEff eff scanPanelsOpen panelBlock =
      some (if eff = some .inString then some scanPanelsValue else none) ∧
    scanNodesEff eff scanPanelsComma panelBlock =
      some (if eff = some .inString then some scanPanelsValue else none) := by
  cases eff with
  | none => decide!
  | some st =>
    have hst := h st rfl
    cases st <;> first
      | exact absurd hst (by decide)
      | decide!

/-- The scanner over the escaped block of an instance, as first value of the
array or after a comma: it comes through exactly when the escaped identifier
can stand between the quotes of a string. -/
theorem scanRun_escapedBlock_eq (s : String) :
    scanRun scanPanelsOpen (escapedBlock s) =
      (if goodIdent s = true then some scanPanelsValue else none) ∧
    scanRun scanPanelsComma (escapedBlock s) =
      (if goodIdent s = true then some scanPanelsValue else none) := by
  have hq := htmlReplacer_no_quote s.data
  have ht := scanNodesEff_panelBlock (strEffect (htmlReplacer s.data))
    (scanRun_strEffect _ hq []).2
  have hiff : strEffect (htmlReplacer s.data) = some Step.inString ↔ goodIdent s = true := by
    simp only [goodIdent, stringBody, decide_eq_true_eq]
  by_cases hg : goodIdent s = true
  · rw [if_pos (hiff.mpr hg)] at ht
    rw [if_pos hg]
    exact ⟨scanNodesEff_fill _ hq _ rfl panelBlock _ _ ht.1,
      scanNodesEff_fill _ hq _ rfl panelBlock _ _ ht.2⟩
  · rw [if_neg (mt hiff.mp hg)] at ht
    rw [if_neg hg]
    exact ⟨scanNodesEff_fill _ hq _ rfl panelBlock _ _ ht.1,
      scanNodesEff_fill _ hq _ rfl panelBlock _ _ ht.2⟩

/-- The scanner over the blocks of a list of instances that is not empty and
ends the document: it comes through exactly when every block lets it
through. -/
theorem scanRun_blocksFrom_eq (block : String → List Char) (good : String → Bool) (n : Nat)
    (rest : List String)
    (hb : ∀ s ∈ rest,
      scanRun scanPanelsOpen (block s) = (if good s = true then some scanPanelsValue else none) ∧
      scanRun scanPanelsComma (block s) = (if good s = true then some scanPanelsValue else none))
    (k : Nat) (hk : k + rest.length = n) (hne : rest ≠ []) :
    scanRun scanPanelsOpen (blocksFrom block n k rest) =
      (if rest.all good = true then some scanPanelsValue else none) ∧
    scanRun scanPanelsComma (blocksFrom block n k rest) =
      (if rest.all good = true then some scanPanelsValue else none) := by
  induction rest generalizing k with
  | nil => exact absurd rfl hne
  | cons s rest ih =>
    obtain ⟨h1, h2⟩ := hb s (List.mem_cons_self _ _)
    simp only [blocksFrom, scanRun_append, h1, h2, List.all_cons]
    by_cases hg : good s = true
    case neg =>
      have hf : good s = false := by simpa using hg
      simp only [hf, Bool.false_and, Bool.false_eq_true, if_false, and_self]
    case pos =>
      simp only [hg, if_true, scanRun_afterBlock, Bool.true_and]
      cases rest with
      | nil =>
        have hl : k + 1 = n := by simpa using hk
        simp only [if_pos hl, blocksFrom, scanRun, List.all_nil, if_true, and_self]
      | cons s2 rest2 =>
        have hl : ¬ k + 1 = n := by
          simp only [List.length_cons] at hk
          omega
        simp only [if_neg hl]
        have ih' := ih (fun s hs => hb s (List.mem_cons_of_mem _ hs)) (k + 1)
          (by simp only [List.length_cons] at hk ⊢; omega) (by simp)
        exact ⟨ih'.2, ih'.2⟩

/-- A text in three parts is not valid JSON when the scanner refuses the
second part. -/
theorem checkValid_of_fail (a b c : List Char) (s1 : Scanner)
    (h1 : scanRun scanInit a = some s1) (h2 : scanRun s1 b = none) :
    checkValid (a ++ b ++ c) = false := by
  unfold checkValid
  rw [scanRun_append, scanRun_append, h1]
  simp only
  rw [h2]

/-- The rendered document is valid JSON exactly when the escaped form of every
identifier can stand between the quotes of a JSON string. -/
theorem checkValid_boardDocument_eq (l : List String) :
    checkValid (boardDocument escapedBlock l) = l.all goodIdent := by
  cases l with
  | nil => exact checkValid_boardDocument [] (by simp)
  | cons s rest =>
    have hb := scanRun_blocksFrom_eq escapedBlock goodIdent (s :: rest).length (s :: rest)
      (fun s _ => scanRun_escapedBlock_eq s) 0 (by simp) (by simp)
    unfold boardDocument
    by_cases hg : (s :: rest).all goodIdent = true
    · rw [if_pos hg] at hb
      rw [hg]
      exact checkValid_of_runs _ _ _ _ _ _ scanRun_head hb.1 scanRun_tail.1 (by decide)
    · rw [if_neg hg] at hb
      have hf : (s :: rest).all goodIdent = false := by simpa using hg
      rw [hf]
      exact checkValid_of_fail _ _ _ _ scanRun_head hb.1

/-! ### The claims on the rendered document -/

/-- The blocks of a list of instances, as the list of the instances with their
indices. -/
theorem blocksFrom_enumFrom (block : String → List Char) (n : Nat) (l : List String) (k : Nat) :
    blocksFrom block n k l =
      ((l.enumFrom k).map (fun p => block p.2 ++ afterBlock n p.1)).flatten := by
  induction l generalizing k with
  | nil => rfl
  | cons s rest ih =>
    simp only [blocksFrom, List.enumFrom_cons, List.map_cons, List.flatten_cons, ih,
      List.append_assoc]

/-- The number of indices below `n` that are not the last one. -/
theorem countP_not_last (n : Nat) :
    (List.range n).countP (fun i => decide (i + 1 ≠ n)) = n - 1 := by
  cases n with
  | zero => rfl
  | succ m =>
    rw [List.range_succ, List.countP_append]
    have h1 : (List.range m).countP (fun i => decide (i + 1 ≠ m + 1)) = m := by
      rw [List.countP_eq_length.mpr]
      · exact List.length_range m
      · intro i hi
        have := List.mem_range.mp hi
        simp only [ne_eq, decide_eq_true_eq]
        omega
    rw [h1]
    simp

/-- C5: for every list of `N` instances the rendered document is the fixed text
that ends with the `[` of `"panels"`, then the `N` panel blocks in the order of
the list, then the fixed text that starts with the closing `]`; after the block
of index `i` stands the joining comma exactly when `i != N - 1`, so there are
`N - 1` joining commas, none after the last block and none missing. -/
theorem renderStaticBoard_blocks (l : List String) :
    renderStaticBoard l =
      some ("\n".data ++ staticBoardHead.data ++
        (l.enum.map
          (fun p => escapedBlock p.2 ++ (joiningComma l.length p.1 ++ "\n  ".data))).flatten
        ++ staticBoardTail.data) ∧
    ("\"panels\": [\n ".data).isSuffixOf staticBoardHead.data = true ∧
    ("\n]".data).isPrefixOf staticBoardTail.data = true ∧
    (∀ i, i < l.length →
      (i ≠ l.length - 1 → joiningComma l.length i = ",\n  ".data) ∧
      (i = l.length - 1 → joiningComma l.length i = [])) ∧
    (List.range l.length).countP (fun i => decide (joiningComma l.length i ≠ [])) =
      l.length - 1 := by
  refine ⟨?_, by decide!, by decide!, ?_, ?_⟩
  · rw [renderStaticBoard_eq, boardDocument, blocksFrom_enumFrom]
    simp only [afterBlock, List.enum]
  · intro i hi
    unfold joiningComma
    constructor
    · intro h
      rw [if_neg (by omega)]
    · intro h
      rw [if_pos (by omega)]
  · rw [← countP_not_last l.length]
    congr 1
    funext i
    unfold joiningComma
    by_cases h : i + 1 = l.length
    · simp [h]
    · simp [h]

set_option maxRecDepth 1000000 in
/-- C6: for the empty list of instances the rendered document is the fixed text
before the repetition followed by the fixed text after it; between the `[` that
opens the array of `"panels"` and the `]` that closes it stands white space
only; and the document is syntactically valid JSON. -/
theorem renderStaticBoard_nil :
    renderStaticBoard [] = some ("\n".data ++ staticBoardHead.data ++ staticBoardTail.data) ∧
    (∃ before ws after,
      "\n".data ++ staticBoardHead.data ++ staticBoardTail.data =
        before ++ "\"panels\": [".data ++ ws ++ "]".data ++ after ∧
      ws.all isSpace = true ∧
      scanRun scanInit (before ++ "\"panels\": [".data) = some scanPanelsOpen) ∧
    checkValid ("\n".data ++ staticBoardHead.data ++ staticBoardTail.data) = true := by
  refine ⟨?_, ?_, ?_⟩
  · rw [renderStaticBoard_eq]
    simp only [boardDocument, blocksFrom, List.append_nil]
  · refine ⟨("\n".data ++ staticBoardHead.data).take 335, "\n \n".data,
      staticBoardTail.data.drop 2, ?_, ?_, ?_⟩
    · decide!
    · decide!
    · decide!
  · have h := checkValid_boardDocument [] (by simp)
    simpa only [boardDocument, blocksFrom, List.append_nil] using h

/-- The HTML escaper keeps an identifier that holds no character of its
table. -/
theorem htmlReplacer_id (cs : List Char) (h : ∀ c ∈ cs, htmlReplacementTable c = none) :
    htmlReplacer cs = cs := by
  induction cs with
  | nil => rfl
  | cons c cs ih =>
    unfold htmlReplacer
    rw [h c (List.mem_cons_self _ _), ih (fun c hc => h c (List.mem_cons_of_mem _ hc))]

/-- The HTML escaper works character by character. -/
theorem htmlReplacer_append (a b : List Char) :
    htmlReplacer (a ++ b) = htmlReplacer a ++ htmlReplacer b := by
  induction a with
  | nil => rfl
  | cons c cs ih =>
    simp only [List.cons_append, htmlReplacer, List.append_eq, ih]
    cases htmlReplacementTable c with
    | none => simp only [List.cons_append]
    | some r => simp only [List.append_assoc]

/-- The blocks of two renderings that agree on every instance of the list. -/
theorem blocksFrom_congr (f g : String → List Char) (n : Nat) (l : List String)
    (h : ∀ s ∈ l, f s = g s) (k : Nat) : blocksFrom f n k l = blocksFrom g n k l := by
  induction l generalizing k with
  | nil => rfl
  | cons s rest ih =>
    simp only [blocksFrom, h s (List.mem_cons_self _ _),
      ih (fun s hs => h s (List.mem_cons_of_mem _ hs))]

set_option maxRecDepth 1000000 in
/-- C7: the identifier `a+b` holds no double quote and no backslash, and the
HTML escaper rewrites its `+`: the block of the instance shows `a&#43;b` in the
placeholders, in the PromQL matchers and in the titles, and not the identifier
`a+b` itself. -/
theorem renderStaticBoard_plus_escaped :
    (∀ c ∈ "a+b".data, c ≠ '"' ∧ c ≠ '\\') ∧
    htmlEscaper (.str "a+b") = "a&#43;b".data ∧
    renderStaticBoard ["a+b"] =
      some (boardDocument (fun _ => fill "a&#43;b".data panelBlock) ["a+b"]) ∧
    renderStaticBoard ["a+b"] ≠ some (boardDocument substitutedBlock ["a+b"]) := by
  have he : htmlEscaper (.str "a+b") = "a&#43;b".data := by decide
  refine ⟨by decide, he, ?_, ?_⟩
  · rw [renderStaticBoard_eq]
    unfold boardDocument
    rw [blocksFrom_congr escapedBlock (fun _ => fill "a&#43;b".data panelBlock)]
    intro s hs
    rw [List.mem_singleton.mp hs]
    unfold escapedBlock
    rw [he]
  · rw [renderStaticBoard_eq]
    decide!

/-- For identifiers that hold none of the characters the HTML escaper rewrites
(the double quote, `&`, `'`, `+`, `<`, `>` and NUL), the block of each instance
is the panel block with the identifier itself, character for character, in each
of its 42 placeholders, and the blocks stand in the order of the list. -/
theorem renderStaticBoard_substituted (l : List String)
    (h : ∀ s ∈ l, ∀ c ∈ s.data, c ≠ '"' ∧ c ≠ '&' ∧ c ≠ '\'' ∧ c ≠ '+' ∧
      c ≠ '<' ∧ c ≠ '>' ∧ c ≠ '\x00') :
    renderStaticBoard l =
      some ("\n".data ++ staticBoardHead.data ++
        (l.enum.map (fun p => substitutedBlock p.2 ++ afterBlock l.length p.1)).flatten
        ++ staticBoardTail.data) ∧
    placeholders panelBlock = 42 ∧ onlyTextAndInstance panelBlock = true := by
  refine ⟨?_, by decide!, panelBlock_onlyTextAndInstance⟩
  have hs : ∀ s ∈ l, escapedBlock s = substitutedBlock s := by
    intro s hs
    unfold escapedBlock substitutedBlock
    show fill (htmlReplacer s.data) panelBlock = fill s.data panelBlock
    rw [htmlReplacer_id]
    intro c hc
    obtain ⟨h1, h3, h4, h5, h6, h7, h8⟩ := h s hs c hc
    simp only [htmlReplacementTable, if_neg h1, if_neg h3, if_neg h4, if_neg h5, if_neg h6,
      if_neg h7, if_neg h8]
  rw [renderStaticBoard_eq, boardDocument, blocksFrom_congr _ _ _ _ hs, blocksFrom_enumFrom]
  rfl

set_option maxRecDepth 1000000 in
/-- C8: no raw double quote of an identifier is written at a placeholder, but
the quote is written as the HTML entity `&#34;` and not as the JSON escape of a
quote: for the identifier `a"b` the document is valid JSON and its placeholders
hold the seven characters `a&#34;b`, without a backslash, which a JSON parser
reads back as they stand and not as `a"b`.  The document is valid JSON exactly
when each identifier, after the HTML escaper, is the body of a JSON string: for
the identifier made of a double quote and a backslash the backslash is written
as it is and the document is not valid JSON. -/
theorem renderStaticBoard_quote_backslash :
    (∀ ident : List Char, '"' ∉ htmlReplacer ident) ∧
    (∀ l : List String, renderStaticBoard l = some (boardDocument escapedBlock l) ∧
      checkValid (boardDocument escapedBlock l) = l.all goodIdent) ∧
    '"' ∈ "a\"b".data ∧
    htmlEscaper (.str "a\"b") = "a&#34;b".data ∧
    '\\' ∉ htmlEscaper (.str "a\"b") ∧
    renderStaticBoard ["a\"b"] =
      some (boardDocument (fun _ => fill "a&#34;b".data panelBlock) ["a\"b"]) ∧
    (renderStaticBoard ["a\"b"]).map checkValid = some true ∧
    '"' ∈ "\"\\".data ∧ htmlEscaper (.str "\"\\") = "&#34;\\".data ∧
    (renderStaticBoard ["\"\\"]).map checkValid = some false := by
  have he : htmlEscaper (.str "a\"b") = "a&#34;b".data := by decide
  refine ⟨htmlReplacer_no_quote,
    fun l => ⟨renderStaticBoard_eq l, checkValid_boardDocument_eq l⟩,
    by decide, he, by decide, ?_, ?_, by decide, by decide, ?_⟩
  · rw [renderStaticBoard_eq]
    unfold boardDocument
    rw [blocksFrom_congr escapedBlock (fun _ => fill "a&#34;b".data panelBlock)]
    intro s hs
    rw [List.mem_singleton.mp hs]
    unfold escapedBlock
    rw [he]
  · rw [renderStaticBoard_eq, Option.map_some', checkValid_boardDocument_eq]
    decide
  · rw [renderStaticBoard_eq, Option.map_some', checkValid_boardDocument_eq]
    decide

set_option maxRecDepth 1000000 in
/-- C9: for the identifier that is a single backslash, and for one that ends in
a backslash, the backslash is written as it is and the rendered document is not
valid JSON. -/
theorem renderStaticBoard_backslash :
    htmlEscaper (.str "\\") = "\\".data ∧
    (renderStaticBoard ["\\"]).map checkValid = some false ∧
    htmlEscaper (.str "node\\") = "node\\".data ∧
    (renderStaticBoard ["node\\"]).map checkValid = some false := by
  refine ⟨by decide, ?_, by decide, ?_⟩
  · rw [renderStaticBoard_eq]
    decide!
  · rw [renderStaticBoard_eq]
    decide!

/-! ## Properties of the decoder -/

/-- The decoder over a text followed by another. -/
theorem decRun_append (d : Decoder) (a b : List Char) :
    decRun d (a ++ b) =
      match decRun d a with
      | none => none
      | some d' => decRun d' b := by
  induction a generalizing d with
  | nil => rfl
  | cons c cs ih =>
    simp only [List.cons_append, decRun]
    cases decStep d c with
    | none => rfl
    | some d' => exact ih d'

/-- Below the top-level object the decoder only follows the scanner. -/
theorem decStep_deep (st : Step) (p q : ParseState) (r : List ParseState)
    (key value : List Char) (members : List (List Char × TopValue)) (c : Char) :
    decStep ⟨⟨st, p :: q :: r⟩, key, value, members⟩ c =
      match scanStep ⟨st, p :: q :: r⟩ c with
      | none => none
      | some s' => some ⟨s', key, value, members⟩ := by
  simp only [decStep]

/-- Between the quotes of a string below the top-level object, over a text
without quote, the decoder only follows the scanner. -/
theorem decRun_inStr (cs : List Char) (hq : '"' ∉ cs) (st : Step) (hst : st.inStr = true)
    (p q : ParseState) (r : List ParseState)
    (key value : List Char) (members : List (List Char × TopValue)) :
    decRun ⟨⟨st, p :: q :: r⟩, key, value, members⟩ cs =
      match scanRun ⟨st, p :: q :: r⟩ cs with
      | none => none
      | some s' => some ⟨s', key, value, members⟩ := by
  induction cs generalizing st with
  | nil => rfl
  | cons c cs ih =>
    have hc : c ≠ '"' := fun e => hq (e ▸ List.mem_cons_self _ _)
    have hq' : '"' ∉ cs := fun h => hq (List.mem_cons_of_mem _ h)
    obtain ⟨h1, h2⟩ := scanStep_inStr st (p :: q :: r) c hst hc
    simp only [decRun, scanRun, decStep_deep, h1]
    cases hs : scanStep ⟨st, []⟩ c with
    | none => rfl
    | some s1 => exact ih hq' s1.step (h2 s1 hs).1

/-- Inside a string below the top-level object, a text without quote that can
stand between the quotes of a string leaves the decoder where it is. -/
theorem decRun_stringBody (d : Decoder) (p q : ParseState) (r : List ParseState)
    (hd : d.scan = ⟨.inString, p :: q :: r⟩) (cs : List Char)
    (hq : '"' ∉ cs) (hb : stringBody cs = true) : decRun d cs = some d := by
  obtain ⟨scan, key, value, members⟩ := d
  simp only at hd
  subst hd
  rw [decRun_inStr cs hq .inString rfl, (scanRun_strEffect cs hq _).1]
  simp only [stringBody, decide_eq_true_eq] at hb
  rw [hb]

/-- The decoder over the text of text nodes and placeholders filled with a
text that leaves it inside a string. -/
theorem decNodes_fill (ident : List Char) (hq : '"' ∉ ident) (hb : stringBody ident = true)
    (ns : List Node) (d d' : Decoder) (h : decNodes d ns = some d') :
    decRun d (fill ident ns) = some d' := by
  induction ns generalizing d with
  | nil =>
    simp only [decNodes] at h
    simp only [fill, decRun, h]
  | cons n ns ih =>
    cases n with
    | text t =>
      simp only [decNodes] at h
      simp only [fill, decRun_append]
      cases hr : decRun d t.data with
      | none => rw [hr] at h; exact absurd h (by simp)
      | some d1 =>
        rw [hr] at h
        exact ih d1 h
    | print a =>
      simp only [decNodes] at h
      split_ifs at h with hs
      obtain ⟨hstep, hlen⟩ := hs
      have hd : ∃ p q r, d.scan = ⟨.inString, p :: q :: r⟩ := by
        obtain ⟨⟨st, ps⟩, key, value, members⟩ := d
        simp only at hstep hlen
        subst hstep
        match ps, hlen with
        | p :: q :: r, _ => exact ⟨p, q, r, rfl⟩
      obtain ⟨p, q, r, hd⟩ := hd
      simp only [fill, decRun_append, decRun_stringBody d p q r hd ident hq hb]
      exact ih _ h
    | assign v a => simp [decNodes] at h
    | ifNe a b body => simp [decNodes] at h
    | range i e a body => simp [decNodes] at h

/-! ### The decoder over the texts of `staticBoard` -/

set_option maxRecDepth 1000000 in
/-- The text before the repetition leaves the decoder right after the `[` of
the array of the panels, the eighth member of the top-level object. -/
theorem decRun_head :
    decRun decInit ("\n".data ++ staticBoardHead.data) = some (decPanels scanPanelsOpen) := by
  decide!

set_option maxRecDepth 1000000 in
/-- As first value of the array, the panel block adds no member to the
top-level object, and every placeholder of it stands inside a string below the
top-level object. -/
theorem decNodes_panelBlock_open :
    decNodes (decPanels scanPanelsOpen) panelBlock = some (decPanels scanPanelsValue) := by
  decide!

set_option maxRecDepth 1000000 in
/-- After a comma of the array, the panel block adds no member to the top-level
object, and every placeholder of it stands inside a string below the top-level
object. -/
theorem decNodes_panelBlock_comma :
    decNodes (decPanels scanPanelsComma) panelBlock = some (decPanels scanPanelsValue) := by
  decide!

/-- The decoder over what follows a block. -/
theorem decRun_afterBlock (n k : Nat) :
    decRun (decPanels scanPanelsValue) (afterBlock n k) =
      some (decPanels (if k + 1 = n then scanPanelsValue else scanPanelsComma)) := by
  unfold afterBlock joiningComma
  by_cases h : k + 1 = n
  · rw [if_pos h, if_pos h]; decide
  · rw [if_neg h, if_neg h]; decide

set_option maxRecDepth 1000000 in
/-- The text after the repetition gives the other eleven members of the
top-level object, after the last block as well as right after the `[`. -/
theorem decRun_tail :
    (decRun (decPanels scanPanelsValue) staticBoardTail.data).map
        (fun d => d.members.reverse) = some boardMembers ∧
    (decRun (decPanels scanPanelsOpen) staticBoardTail.data).map
        (fun d => d.members.reverse) = some boardMembers := by
  decide!

/-- The decoder over the blocks of a list of instances that is not empty and
ends the document. -/
theorem decRun_blocksFrom (block : String → List Char) (n : Nat) (rest : List String)
    (hb : ∀ s ∈ rest,
      decRun (decPanels scanPanelsOpen) (block s) = some (decPanels scanPanelsValue) ∧
      decRun (decPanels scanPanelsComma) (block s) = some (decPanels scanPanelsValue))
    (k : Nat) (hk : k + rest.length = n) (hne : rest ≠ []) :
    decRun (decPanels scanPanelsOpen) (blocksFrom block n k rest)
      = some (decPanels scanPanelsValue) ∧
    decRun (decPanels scanPanelsComma) (blocksFrom block n k rest)
      = some (decPanels scanPanelsValue) := by
  induction rest generalizing k with
  | nil => exact absurd rfl hne
  | cons s rest ih =>
    obtain ⟨h1, h2⟩ := hb s (List.mem_cons_self _ _)
    simp only [blocksFrom, decRun_append, h1, h2, decRun_afterBlock]
    cases rest with
    | nil =>
      have hl : k + 1 = n := by simpa using hk
      simp only [if_pos hl, blocksFrom, decRun, and_self]
    | cons s2 rest2 =>
      have hl : ¬ k + 1 = n := by
        simp only [List.length_cons] at hk
        omega
      simp only [if_neg hl]
      have ih' := ih (fun s hs => hb s (List.mem_cons_of_mem _ hs)) (k + 1)
        (by simp only [List.length_cons] at hk ⊢; omega) (by simp)
      exact ⟨ih'.2, ih'.2⟩

/-- The members of a text in three parts, from the runs of the decoder through
the parts. -/
theorem topLevelMembers_of_runs (a b c : List Char) (d1 d2 : Decoder)
    (ms : List (List Char × TopValue))
    (h1 : decRun decInit a = some d1) (h2 : decRun d1 b = some d2)
    (h3 : (decRun d2 c).map (fun d => d.members.reverse) = some ms) :
    topLevelMembers (a ++ b ++ c) = some ms := by
  unfold topLevelMembers
  rw [decRun_append, decRun_append, h1]
  simp only
  rw [h2]
  simp only
  cases hr : decRun d2 c with
  | none => rw [hr] at h3; exact absurd h3 (by simp)
  | some d3 =>
    rw [hr] at h3
    simpa using h3

/-- The members of the top-level object of the rendered document are the same
nineteen members whatever the instances, when the escaped form of every
identifier can stand between the quotes of a JSON string. -/
theorem topLevelMembers_boardDocument (l : List String)
    (h : l.all goodIdent = true) :
    topLevelMembers (boardDocument escapedBlock l) = some boardMembers := by
  unfold boardDocument
  cases l with
  | nil =>
    exact topLevelMembers_of_runs _ _ _ _ _ _ decRun_head rfl decRun_tail.2
  | cons s rest =>
    have hg : ∀ s' ∈ s :: rest, goodIdent s' = true := List.all_eq_true.mp h
    have hb := decRun_blocksFrom escapedBlock (s :: rest).length (s :: rest)
      (fun s hs =>
        ⟨decNodes_fill _ (htmlReplacer_no_quote s.data) (hg s hs) panelBlock _ _
            decNodes_panelBlock_open,
          decNodes_fill _ (htmlReplacer_no_quote s.data) (hg s hs) panelBlock _ _
            decNodes_panelBlock_comma⟩) 0 (by simp) (by simp)
    exact topLevelMembers_of_runs _ _ _ _ _ _ decRun_head hb.1 decRun_tail.1

/-! ### The claim on the identity of the imported board -/

set_option maxRecDepth 1000000 in
/-- The rendered document starts, after white space, with the `{` of its
top-level object. -/
theorem boardDocument_head (block : String → List Char) (l : List String) :
    ((boardDocument block l).dropWhile isSpace).head? = some '{' := by
  have hh : staticBoardHead.data = '\n' :: '{' :: staticBoardHead.data.drop 2 := by decide!
  unfold boardDocument
  rw [hh]
  rfl

/-- The decoding of the rendered document: an error when the document is not
valid JSON or when another field of the board does not decode, and else a board
with the fixed title and the empty slug. -/
theorem unmarshalBoard_boardDocument {ρ : Type} (zero : ρ) (others : List Char → Option ρ)
    (l : List String) :
    unmarshalBoard zero others (boardDocument escapedBlock l) =
      if checkValid (boardDocument escapedBlock l) = true then
        match others (boardDocument escapedBlock l) with
        | some r => .ok ⟨"Kubernetes / Nodes", "", r⟩
        | none => .error
      else .error := by
  have h1 : boardMembers.any hasEscape = false := by decide
  have h2 : decodeField "title" boardMembers "" = some "Kubernetes / Nodes" := by decide
  have h3 : decodeField "slug" boardMembers "" = some "" := by decide
  unfold unmarshalBoard
  by_cases hv : checkValid (boardDocument escapedBlock l) = true
  · have hg : l.all goodIdent = true := by rw [← checkValid_boardDocument_eq]; exact hv
    rw [if_pos hv, if_pos hv, boardDocument_head, topLevelMembers_boardDocument l hg]
    simp only [h1, h2, h3, Bool.false_eq_true, if_false]
    cases others (boardDocument escapedBlock l) with
    | none => rfl
    | some r => rfl
  · rw [if_neg hv, if_neg hv]

/-- C10, counterexample: for zero instances the members of the top-level object
of the rendered document are the nineteen members of `boardMembers`; none of
their keys is `slug`, also up to the case of the letters, and the decoded slug
is the empty string. -/
theorem staticBoard_declares_no_slug :
    (renderStaticBoard []).bind topLevelMembers = some boardMembers ∧
    boardMembers.any (fun m => keyMatches "slug" m.1) = false ∧
    boardMembers.map (fun m => String.mk m.1) =
      ["annotations", "editable", "gnetId", "graphTooltip", "id", "iteration", "links",
        "panels", "refresh", "schemaVersion", "style", "tags", "templating", "time",
        "timepicker", "timezone", "title", "uid", "version"] ∧
    decodeField "slug" boardMembers "" = some "" := by
  refine ⟨?_, by decide, by decide, by decide⟩
  rw [renderStaticBoard_eq, Option.some_bind]
  exact topLevelMembers_boardDocument [] rfl

/-- The result of `GetStaticBoard` for a list of instances: the parse error of
`ImportGrafanaBoard` when the rendered document is not valid JSON or when
another field of the board does not decode, and else the result of
`ProcessBoard` on the board with the fixed title and the empty slug. -/
theorem getStaticBoard_boardDocument {ρ β : Type} (zero : ρ) (others : List Char → Option ρ)
    (ProcessBoard : Board ρ → FoundBoard → Except String β) (l : List String) :
    GetStaticBoard zero others ProcessBoard (.ok l) =
      (if checkValid (boardDocument escapedBlock l) = true then
        match others (boardDocument escapedBlock l) with
        | some r =>
          some (ProcessBoard ⟨"Kubernetes / Nodes", "", r⟩
            { Title := "Kubernetes / Nodes", URI := "" })
        | none => some (.error "unable to parse grafana board data")
      else some (.error "unable to parse grafana board data")) := by
  unfold GetStaticBoard ImportGrafanaBoard
  simp only [renderStaticBoard_eq, unmarshalBoard_boardDocument zero others l]
  by_cases hv : checkValid (boardDocument escapedBlock l) = true
  · simp only [if_pos hv]
    cases others (boardDocument escapedBlock l) with
    | none => rfl
    | some r => rfl
  · simp only [if_neg hv]

/-- C10, amended: for every discovery result, from zero to many instances, the
rendered document, when it is valid JSON, declares at top level the fixed title
`Kubernetes / Nodes` and no slug field; `GetStaticBoard` returns the parse error
of `ImportGrafanaBoard` when the document is not valid JSON (as it is for the
one instance whose identifier is a single backslash) or when another field of
the board does not decode, and else hands `ProcessBoard` the decoded board and
the identity made of that title and of the empty slug, whatever the
instances. -/
theorem getStaticBoard_identity {ρ β : Type} (zero : ρ) (others : List Char → Option ρ)
    (ProcessBoard : Board ρ → FoundBoard → Except String β) (l : List String) :
    renderStaticBoard l = some (boardDocument escapedBlock l) ∧
    checkValid (boardDocument escapedBlock l) = l.all goodIdent ∧
    (checkValid (boardDocument escapedBlock l) = true →
      topLevelMembers (boardDocument escapedBlock l) = some boardMembers) ∧
    ("title".data, TopValue.str "Kubernetes / Nodes".data) ∈ boardMembers ∧
    boardMembers.any (fun m => keyMatches "slug" m.1) = false ∧
    GetStaticBoard zero others ProcessBoard (.ok l) =
      (if checkValid (boardDocument escapedBlock l) = true then
        match others (boardDocument escapedBlock l) with
        | some r =>
          some (ProcessBoard ⟨"Kubernetes / Nodes", "", r⟩
            { Title := "Kubernetes / Nodes", URI := "" })
        | none => some (.error "unable to parse grafana board data")
      else some (.error "unable to parse grafana board data")) ∧
    GetStaticBoard zero others ProcessBoard (.ok ["\\"]) =
      some (.error "unable to parse grafana board data") := by
  refine ⟨renderStaticBoard_eq l, checkValid_boardDocument_eq l, ?_, by decide, by decide,
    getStaticBoard_boardDocument zero others ProcessBoard l, ?_⟩
  · intro hv
    exact topLevelMembers_boardDocument l (by rw [← checkValid_boardDocument_eq]; exact hv)
  · have hv : ¬ checkValid (boardDocument escapedBlock ["\\"]) = true := by
      rw [checkValid_boardDocument_eq]; decide
    rw [getStaticBoard_boardDocument, if_neg hv]

/-- The identity of the amended C10 for one instance, with the other fields
decoded to nothing and a `ProcessBoard` that returns the identity it is
handed. -/
theorem getStaticBoard_identity_witness :
    GetStaticBoard () (fun _ => some ()) (fun _ found => Except.ok found)
        (.ok ["10.0.0.1:9100"]) =
      some (Except.ok { Title := "Kubernetes / Nodes", URI := "" }) := by
  have h := (getStaticBoard_identity () (fun _ => some ()) (fun _ found => Except.ok found)
    ["10.0.0.1:9100"]).2.2.2.2.2.1
  have hv : checkValid (boardDocument escapedBlock ["10.0.0.1:9100"]) = true := by
    rw [checkValid_boardDocument_eq]; decide
  rw [if_pos hv] at h
  exact h

/-! ## Properties of the instance discovery -/

/-- The loop of `getAllNodes` appends, to the slice built so far, the instances
that are not empty, in the order of the label sets. -/
theorem collectInstances_eq (ls : List LabelSet) (result : List String) :
    collectInstances ls result =
      result ++ (ls.map (fun l => l.get "instance")).filter (fun s => decide (s ≠ "")) := by
  induction ls generalizing result with
  | nil => simp [collectInstances]
  | cons l rest ih =>
    unfold collectInstances
    by_cases h : l.get "instance" = ""
    · simp [h, ih]
    · simp [h, ih]

/-- The result of a successful discovery. -/
theorem getAllNodes_ok {ε : Type} (ls : List LabelSet) :
    @getAllNodes ε (.ok ls) =
      (some ((ls.map (fun l => l.get "instance")).filter (fun s => decide (s ≠ ""))), none) := by
  simp [getAllNodes, collectInstances_eq]

/-- The index expression on a label set, through the lookup of the list of
its entries. -/
theorem labelSet_get (l : LabelSet) (name : String) :
    l.get name = (l.lookup name).getD "" := by
  unfold LabelSet.get
  cases l.lookup name with
  | none => rfl
  | some v => rfl

/-- The loop over an answer of five label sets: one without the label
`instance`, one with the empty value and two with the same value. -/
theorem collectInstances_example :
    collectInstances
        [ [("__name__", "node_boot_time_seconds"), ("instance", "a:9100"),
            ("job", "node-exporter")],
          [("job", "node-exporter")],
          [("instance", "")],
          [("instance", "b:9100"), ("job", "node-exporter")],
          [("job", "node-exporter"), ("instance", "a:9100")] ] []
      = ["a:9100", "b:9100", "a:9100"] := by
  decide

/-- C11: when the series call succeeds, `getAllNodes` returns the values of
the label `instance` of the label sets in the order of the backend, without the
empty ones (a label set without the label counts as empty) and with nothing
else removed or added: duplicates are kept, the length of the result is the
number of label sets whose instance is not empty, and a value occurs in it as
many times as label sets carry it; so an answer of five label sets, one without
the label, one with the empty value and two with the same value, gives the
three values that are not empty, the repeated one twice. -/
theorem getAllNodes_instances {ε : Type} (ls : List LabelSet) :
    @getAllNodes ε (.ok ls) =
      (some ((ls.map (fun l => (List.lookup "instance" l).getD "")).filter
        (fun s => decide (s ≠ ""))), none) ∧
    (∀ r, (@getAllNodes ε (.ok ls)).1 = some r →
      r.length = ls.countP (fun l => decide ((List.lookup "instance" l).getD "" ≠ "")) ∧
      ∀ x, x ≠ "" →
        r.count x = ls.countP (fun l => decide (List.lookup "instance" l = some x))) ∧
    @getAllNodes ε
        (.ok [ [("__name__", "node_boot_time_seconds"), ("instance", "a:9100"),
                ("job", "node-exporter")],
               [("job", "node-exporter")],
               [("instance", "")],
               [("instance", "b:9100"), ("job", "node-exporter")],
               [("job", "node-exporter"), ("instance", "a:9100")] ])
      = (some ["a:9100", "b:9100", "a:9100"], none) := by
  have hok : @getAllNodes ε (.ok ls) =
      (some ((ls.map (fun l => (List.lookup "instance" l).getD "")).filter
        (fun s => decide (s ≠ ""))), none) := by
    rw [getAllNodes_ok]
    have e : (fun l : LabelSet => l.get "instance")
        = fun l => (List.lookup "instance" l).getD "" := by
      funext l
      exact labelSet_get l "instance"
    rw [e]
  refine ⟨hok, ?_, ?_⟩
  · intro r hr
    rw [hok] at hr
    simp only [Option.some.injEq] at hr
    subst hr
    constructor
    · rw [← List.countP_eq_length_filter, List.countP_map]
      rfl
    · intro x hx
      rw [List.count, List.countP_filter, List.countP_map]
      congr 1
      funext l
      simp only [Function.comp_apply]
      cases hl : List.lookup "instance" l with
      | none => simp [Ne.symm hx]
      | some v =>
        by_cases h : v = x
        · subst h
          simp [hx]
        · simp [h]
  · simp only [getAllNodes, collectInstances_example]

/-- C12, counterexample: two label sets with the same instance give a result in
which that instance stands twice. -/
theorem getAllNodes_keeps_duplicates :
    (@getAllNodes Unit
        (.ok [[("__name__", "node_boot_time_seconds"), ("instance", "a:9100")],
              [("instance", "a:9100"), ("job", "node-exporter")]])).1
      = some ["a:9100", "a:9100"] ∧
    ¬ (["a:9100", "a:9100"] : List String).Nodup := by
  decide

/-- C12, amended: for every successful answer of the backend the result
consists of instance values that are not empty, each as many times as label
sets of the answer carry it; so it is without repetition exactly when no two
label sets carry the same instance. -/
theorem getAllNodes_count {ε : Type} (ls : List LabelSet) (r : List String)
    (h : (@getAllNodes ε (.ok ls)).1 = some r) :
    (∀ x ∈ r, x ≠ "") ∧
    (∀ x, x ≠ "" → r.count x = ls.countP (fun l => decide (l.get "instance" = x))) ∧
    (r.Nodup ↔ ∀ x, x ≠ "" → ls.countP (fun l => decide (l.get "instance" = x)) ≤ 1) := by
  rw [getAllNodes_ok] at h
  simp only [Option.some.injEq] at h
  subst h
  have hne : ∀ x ∈ (ls.map (fun l => l.get "instance")).filter (fun s => decide (s ≠ "")),
      x ≠ "" := by
    intro x hx
    simpa using (List.mem_filter.mp hx).2
  have hcount : ∀ x, x ≠ "" →
      ((ls.map (fun l => l.get "instance")).filter (fun s => decide (s ≠ ""))).count x
        = ls.countP (fun l => decide (l.get "instance" = x)) := by
    intro x hx
    rw [List.count, List.countP_filter, List.countP_map]
    congr 1
    funext l
    by_cases h : l.get "instance" = x
    · simp [h, hx]
    · simp [h, Ne.symm h]
  refine ⟨hne, hcount, ?_⟩
  rw [List.nodup_iff_count_le_one]
  constructor
  · intro hn x hx
    rw [← hcount x hx]
    exact hn x
  · intro hn x
    by_cases hx : x = ""
    · subst hx
      rw [List.count_eq_zero_of_not_mem (fun hm => hne "" hm rfl)]
      exact Nat.zero_le 1
    · rw [hcount x hx]
      exact hn x hx

/-- The count of the amended C12 for an answer with a repeated instance. -/
theorem getAllNodes_count_witness :
    ["a:9100", "b:9100", "a:9100"].count "a:9100" =
      ([[("instance", "a:9100")], [("instance", "b:9100")], [("job", "n")],
        [("instance", "a:9100")]] : List LabelSet).countP
          (fun l => decide (l.get "instance" = "a:9100")) :=
  (@getAllNodes_count Unit
    [[("instance", "a:9100")], [("instance", "b:9100")], [("job", "n")],
      [("instance", "a:9100")]] ["a:9100", "b:9100", "a:9100"] (by decide)).2.1
    "a:9100" (by decide)

/-- C13, counterexample: a label set whose instance is one blank gives a result
that holds this blank string. -/
theorem getAllNodes_keeps_blank :
    (@getAllNodes Unit (.ok [[("instance", " ")], [("instance", "a:9100")]])).1
      = some [" ", "a:9100"] ∧
    isBlank " " = true ∧ " " ≠ "" := by
  decide

/-- C13, amended: for every successful answer of the backend the result holds
no empty string, and it holds every instance value that is not empty, a value
made of white space only like any other. -/
theorem getAllNodes_nonempty {ε : Type} (ls : List LabelSet) (r : List String)
    (h : (@getAllNodes ε (.ok ls)).1 = some r) :
    (∀ x ∈ r, x ≠ "") ∧
    (∀ x, x ∈ r ↔ x ≠ "" ∧ ∃ l ∈ ls, l.get "instance" = x) := by
  rw [getAllNodes_ok] at h
  simp only [Option.some.injEq] at h
  subst h
  constructor
  · intro x hx
    simpa using (List.mem_filter.mp hx).2
  · intro x
    simp only [List.mem_filter, List.mem_map, ne_eq, decide_not, Bool.not_eq_true',
      decide_eq_false_iff_not]
    constructor
    · rintro ⟨⟨l, hl, rfl⟩, hx⟩
      exact ⟨hx, l, hl, rfl⟩
    · rintro ⟨hx, l, hl, rfl⟩
      exact ⟨⟨l, hl, rfl⟩, hx⟩

/-- The filter of the amended C13 for an answer with an empty and a blank
instance: the blank one is in the result. -/
theorem getAllNodes_nonempty_witness :
    " " ∈ [" ", "a:9100"] ↔
      " " ≠ "" ∧
        ∃ l ∈ ([[("instance", " ")], [("instance", "")], [("instance", "a:9100")]] :
          List LabelSet), l.get "instance" = " " :=
  (@getAllNodes_nonempty Unit
    [[("instance", " ")], [("instance", "")], [("instance", "a:9100")]] [" ", "a:9100"]
    (by decide)).2 " "

/-- C14: `getAllNodes` returns an error exactly when the series call returns
one; then the slice is `nil` and the error wraps the cause; when the call
succeeds the slice is not `nil` and the error is `nil`, also for an answer
without label sets or with empty instances only, which give the empty slice. -/
theorem getAllNodes_error_iff {ε : Type} (series : Except ε (List LabelSet)) :
    ((getAllNodes series).2.isSome = true ↔ ∃ cause, series = .error cause) ∧
    (∀ cause, series = .error cause →
      getAllNodes series = (none, some ⟨"unable to get the label set series", cause⟩)) ∧
    (∀ ls, series = .ok ls → ∃ r, getAllNodes series = (some r, none)) ∧
    @getAllNodes ε (.ok []) = (some [], none) ∧
    (∀ ls : List LabelSet, (∀ l ∈ ls, l.get "instance" = "") →
      @getAllNodes ε (.ok ls) = (some [], none)) := by
  refine ⟨?_, ?_, ?_, rfl, ?_⟩
  · cases series with
    | error e => simp [getAllNodes]
    | ok ls => simp [getAllNodes]
  · intro cause h
    subst h
    rfl
  · intro ls h
    subst h
    exact ⟨_, rfl⟩
  · intro ls h
    rw [getAllNodes_ok]
    have : (ls.map (fun l => l.get "instance")).filter (fun s => decide (s ≠ "")) = [] := by
      rw [List.filter_eq_nil_iff]
      intro s hs
      obtain ⟨l, hl, rfl⟩ := List.mem_map.mp hs
      simp [h l hl]
    rw [this]

/-! ## Properties of the reader of the panels -/

/-- The elements the reader gives do not depend on the elements given
before. -/
theorem panelRun_out (p : PanelReader) (out : List Element) (cs : List Char) :
    panelRun p out cs = (panelRun p [] cs).map (fun r => (r.1, r.2 ++ out)) := by
  induction cs generalizing p out with
  | nil => simp [panelRun]
  | cons c cs ih =>
    simp only [panelRun]
    cases hs : panelStep p c with
    | none => rfl
    | some r =>
      obtain ⟨p', e⟩ := r
      cases e with
      | none => exact ih p' out
      | some e =>
        simp only
        rw [ih p' (e :: out), ih p' [e]]
        cases panelRun p' [] cs with
        | none => rfl
        | some r2 => simp

/-- The reader over a text followed by another. -/
theorem panelRun_append (p : PanelReader) (out : List Element) (a b : List Char) :
    panelRun p out (a ++ b) =
      match panelRun p out a with
      | none => none
      | some (p', out') => panelRun p' out' b := by
  induction a generalizing p out with
  | nil => rfl
  | cons c cs ih =>
    simp only [List.cons_append, panelRun]
    cases hs : panelStep p c with
    | none => rfl
    | some r =>
      obtain ⟨p', e⟩ := r
      cases e with
      | none => exact ih p' out
      | some e => exact ih p' (e :: out)

/-- Between the quotes of a string value, on a character that is no quote, the
reader only follows the scanner and ends no element. -/
theorem panelStep_inStr (st : Step) (hst : st.inStr = true) (ps : List ParseState)
    (h1 : ps ≠ [.objectKey]) (h2 : ps ≠ [.objectKey, .arrayValue, .objectValue])
    (topKey : List Char) (inPanels : Bool) (key : List Char) (isId : Bool)
    (num id : Option Nat) (c : Char) (hc : c ≠ '"') :
    panelStep ⟨⟨st, ps⟩, topKey, inPanels, key, isId, num, id⟩ c =
      match scanStep ⟨st, ps⟩ c with
      | none => none
      | some s' => some (⟨s', topKey, inPanels, key, isId, num, id⟩, none) := by
  obtain ⟨e1, e2⟩ := scanStep_inStr st ps c hst hc
  simp only [panelStep, e1]
  cases hs : scanStep ⟨st, []⟩ c with
  | none => rfl
  | some s1 =>
    obtain ⟨hi, _⟩ := e2 s1 hs
    simp only [if_neg h1]
    cases inPanels with
    | false => simp
    | true =>
      have n1 : st ≠ .beginValue := fun e => by rw [e] at hst; exact absurd hst (by decide)
      have n2 : st ≠ .beginValueOrEmpty := fun e => by
        rw [e] at hst; exact absurd hst (by decide)
      have n3 : st.inNumber = false := by
        cases st <;> first | rfl | exact absurd hst (by decide)
      by_cases h3 : ps = [.arrayValue, .objectValue]
      · simp [h3, n1, n2]
      · by_cases h4 : ps = [.objectValue, .arrayValue, .objectValue]
        · simp [h4, n1, n3]
        · simp [h2, h3, h4]

/-- Between the quotes of a string value, over a text without quote, the reader
only follows the scanner and ends no element. -/
theorem panelRun_inStr (cs : List Char) (hq : '"' ∉ cs) (st : Step) (hst : st.inStr = true)
    (ps : List ParseState)
    (h1 : ps ≠ [.objectKey]) (h2 : ps ≠ [.objectKey, .arrayValue, .objectValue])
    (topKey : List Char) (inPanels : Bool) (key : List Char) (isId : Bool)
    (num id : Option Nat) (out : List Element) :
    panelRun ⟨⟨st, ps⟩, topKey, inPanels, key, isId, num, id⟩ out cs =
      match scanRun ⟨st, ps⟩ cs with
      | none => none
      | some s' => some (⟨s', topKey, inPanels, key, isId, num, id⟩, out) := by
  induction cs generalizing st with
  | nil => rfl
  | cons c cs ih =>
    have hc : c ≠ '"' := fun e => hq (e ▸ List.mem_cons_self _ _)
    have hq' : '"' ∉ cs := fun h => hq (List.mem_cons_of_mem _ h)
    obtain ⟨e1, e2⟩ := scanStep_inStr st ps c hst hc
    simp only [panelRun, scanRun, panelStep_inStr st hst ps h1 h2 _ _ _ _ _ _ c hc, e1]
    cases hs : scanStep ⟨st, []⟩ c with
    | none => rfl
    | some s1 => exact ih hq' s1.step (e2 s1 hs).1

/-- Inside a string value, a text without quote that can stand between the
quotes of a string leaves the reader where it is and ends no element. -/
theorem panelRun_stringBody (p : PanelReader) (ps : List ParseState)
    (hp : p.scan = ⟨.inString, ps⟩) (h1 : ps ≠ [.objectKey])
    (h2 : ps ≠ [.objectKey, .arrayValue, .objectValue]) (out : List Element)
    (cs : List Char) (hq : '"' ∉ cs) (hb : stringBody cs = true) :
    panelRun p out cs = some (p, out) := by
  obtain ⟨scan, topKey, inPanels, key, isId, num, id⟩ := p
  simp only at hp
  subst hp
  rw [panelRun_inStr cs hq .inString rfl ps h1 h2, (scanRun_strEffect cs hq _).1]
  simp only [stringBody, decide_eq_true_eq] at hb
  rw [hb]

/-- The reader over the text of text nodes and placeholders filled with a text
that leaves it inside a string. -/
theorem panelNodes_fill (ident : List Char) (hq : '"' ∉ ident) (hb : stringBody ident = true)
    (ns : List Node) (p : PanelReader) (out : List Element)
    (r : PanelReader × List Element) (h : panelNodes p out ns = some r) :
    panelRun p out (fill ident ns) = some r := by
  induction ns generalizing p out with
  | nil =>
    simp only [panelNodes] at h
    simp only [fill, panelRun, h]
  | cons n ns ih =>
    cases n with
    | text t =>
      simp only [panelNodes] at h
      simp only [fill, panelRun_append]
      cases hr : panelRun p out t.data with
      | none => rw [hr] at h; exact absurd h (by simp)
      | some r1 =>
        obtain ⟨p1, out1⟩ := r1
        rw [hr] at h
        exact ih p1 out1 h
    | print a =>
      simp only [panelNodes] at h
      split_ifs at h with hs
      obtain ⟨hstep, hk1, hk2⟩ := hs
      have hp : p.scan = ⟨.inString, p.scan.parseState⟩ := by
        obtain ⟨⟨st, ps⟩, topKey, inPanels, key, isId, num, id⟩ := p
        simp only at hstep
        subst hstep
        rfl
      simp only [fill, panelRun_append,
        panelRun_stringBody p p.scan.parseState hp hk1 hk2 out ident hq hb]
      exact ih p out h
    | assign v a => simp [panelNodes] at h
    | ifNe a b body => simp [panelNodes] at h
    | range i e a body => simp [panelNodes] at h

/-- The reader follows the scanner: its scanner after a character is the
scanner after that character. -/
theorem panelStep_scan (p : PanelReader) (c : Char) :
    (panelStep p c).map (fun r => r.1.scan) = scanStep p.scan c := by
  obtain ⟨⟨st, ps⟩, topKey, inPanels, key, isId, num, id⟩ := p
  simp only [panelStep]
  cases scanStep ⟨st, ps⟩ c with
  | none => rfl
  | some s' =>
    simp only [apply_ite (Option.map (fun r : PanelReader × Option Element => r.1.scan)),
      Option.map_some', ite_self]

/-- The reader follows the scanner over a run of characters. -/
theorem panelRun_scan (p : PanelReader) (out : List Element) (cs : List Char) :
    (panelRun p out cs).map (fun r => r.1.scan) = scanRun p.scan cs := by
  induction cs generalizing p out with
  | nil => rfl
  | cons c cs ih =>
    have hs := panelStep_scan p c
    simp only [panelRun, scanRun]
    cases hp : panelStep p c with
    | none =>
      rw [hp] at hs
      simp only [Option.map_none'] at hs
      rw [← hs]
      rfl
    | some r =>
      obtain ⟨p', e⟩ := r
      rw [hp] at hs
      simp only [Option.map_some'] at hs
      rw [← hs]
      cases e with
      | none => exact ih p' out
      | some e => exact ih p' (e :: out)

/-- The reader gives the elements of a document exactly when the document is
valid JSON. -/
theorem panelElements_isSome (data : List Char) :
    (panelElements data).isSome = checkValid data := by
  have h := panelRun_scan panelInit [] data
  unfold panelElements checkValid
  cases hr : panelRun panelInit [] data with
  | none =>
    rw [hr] at h
    simp only [Option.map_none'] at h
    rw [show panelInit.scan = scanInit from rfl] at h
    rw [← h]
    rfl
  | some r =>
    rw [hr] at h
    simp only [Option.map_some'] at h
    rw [show panelInit.scan = scanInit from rfl] at h
    rw [← h]
    simp only
    cases scanEof r.1.scan with
    | false => rfl
    | true => rfl

/-! ### The reader over the texts of `staticBoard` -/

set_option maxRecDepth 1000000 in
/-- The text before the repetition leaves the reader right after the `[` of the
array of the panels, with no element yet. -/
theorem panelRun_head :
    panelRun panelInit [] ("\n".data ++ staticBoardHead.data) = some (readerOpen, []) := by
  decide!

set_option maxRecDepth 1000000 in
/-- As first value of the array, the panel block gives twelve objects with the
ids 2 to 13 (the latest first), and every placeholder of it stands inside a
string value. -/
theorem panelNodes_panelBlock_open :
    panelNodes readerOpen [] panelBlock =
      some (readerAfter scanPanelsValue, blockElements.reverse) := by
  decide!

set_option maxRecDepth 1000000 in
/-- After a comma of the array, the panel block gives twelve objects with the
ids 2 to 13 (the latest first), and every placeholder of it stands inside a
string value. -/
theorem panelNodes_panelBlock_comma :
    panelNodes (readerAfter scanPanelsComma) [] panelBlock =
      some (readerAfter scanPanelsValue, blockElements.reverse) := by
  decide!

/-- The reader over what follows a block: no element. -/
theorem panelRun_afterBlock (n k : Nat) (out : List Element) :
    panelRun (readerAfter scanPanelsValue) out (afterBlock n k) =
      some (readerAfter (if k + 1 = n then scanPanelsValue else scanPanelsComma), out) := by
  rw [panelRun_out]
  unfold afterBlock joiningComma
  by_cases h : k + 1 = n
  · rw [if_pos h, if_pos h]
    have e : panelRun (readerAfter scanPanelsValue) [] ([] ++ "\n  ".data)
        = some (readerAfter scanPanelsValue, []) := by decide
    rw [e]
    rfl
  · rw [if_neg h, if_neg h]
    have e : panelRun (readerAfter scanPanelsValue) [] (",\n  ".data ++ "\n  ".data)
        = some (readerAfter scanPanelsComma, []) := by decide
    rw [e]
    rfl

set_option maxRecDepth 1000000 in
/-- The text after the repetition ends the document and gives no element, after
the last block as well as right after the `[`. -/
theorem panelRun_tail :
    (panelRun (readerAfter scanPanelsValue) [] staticBoardTail.data).map
        (fun r => (scanEof r.1.scan, r.2)) = some (true, []) ∧
    (panelRun readerOpen [] staticBoardTail.data).map
        (fun r => (scanEof r.1.scan, r.2)) = some (true, []) := by
  decide!

/-- The blocks of `n` copies of a list, one after the other, in both orders. -/
theorem flatten_replicate_comm {α : Type} (a : List α) (n : Nat) :
    (List.replicate n a).flatten ++ a = a ++ (List.replicate n a).flatten := by
  induction n with
  | zero => simp
  | succ m ih =>
    simp only [List.replicate_succ, List.flatten_cons, List.append_assoc, ih]

/-- The reverse of `n` copies of a reversed list. -/
theorem reverse_flatten_replicate {α : Type} (a : List α) (n : Nat) :
    ((List.replicate n a.reverse).flatten).reverse = (List.replicate n a).flatten := by
  induction n with
  | zero => rfl
  | succ m ih =>
    simp only [List.replicate_succ, List.flatten_cons, List.reverse_append, List.reverse_reverse,
      ih, flatten_replicate_comm]

/-- The reader over the blocks of a list of instances that is not empty and ends
the document: twelve objects for each instance. -/
theorem panelRun_blocksFrom (block : String → List Char) (n : Nat) (rest : List String)
    (hb : ∀ s ∈ rest,
      panelRun readerOpen [] (block s)
        = some (readerAfter scanPanelsValue, blockElements.reverse) ∧
      panelRun (readerAfter scanPanelsComma) [] (block s)
        = some (readerAfter scanPanelsValue, blockElements.reverse))
    (k : Nat) (hk : k + rest.length = n) (hne : rest ≠ []) (out : List Element) :
    panelRun readerOpen out (blocksFrom block n k rest)
      = some (readerAfter scanPanelsValue,
          (List.replicate rest.length blockElements.reverse).flatten ++ out) ∧
    panelRun (readerAfter scanPanelsComma) out (blocksFrom block n k rest)
      = some (readerAfter scanPanelsValue,
          (List.replicate rest.length blockElements.reverse).flatten ++ out) := by
  induction rest generalizing k out with
  | nil => exact absurd rfl hne
  | cons s rest ih =>
    obtain ⟨h1, h2⟩ := hb s (List.mem_cons_self _ _)
    have h1' : panelRun readerOpen out (block s)
        = some (readerAfter scanPanelsValue, blockElements.reverse ++ out) := by
      rw [panelRun_out, h1]; rfl
    have h2' : panelRun (readerAfter scanPanelsComma) out (block s)
        = some (readerAfter scanPanelsValue, blockElements.reverse ++ out) := by
      rw [panelRun_out, h2]; rfl
    simp only [blocksFrom, panelRun_append, h1', h2', panelRun_afterBlock]
    cases rest with
    | nil =>
      have hl : k + 1 = n := by simpa using hk
      simp only [if_pos hl, blocksFrom, panelRun, List.length_singleton, List.replicate_one,
        List.flatten_cons, List.flatten_nil, List.append_nil, and_self]
    | cons s2 rest2 =>
      have hl : ¬ k + 1 = n := by
        simp only [List.length_cons] at hk
        omega
      simp only [if_neg hl]
      have ih' := ih (fun s hs => hb s (List.mem_cons_of_mem _ hs)) (k + 1)
        (by simp only [List.length_cons] at hk ⊢; omega) (by simp)
        (blockElements.reverse ++ out)
      have e : (List.replicate (s2 :: rest2).length blockElements.reverse).flatten
            ++ (blockElements.reverse ++ out)
          = (List.replicate (s :: s2 :: rest2).length blockElements.reverse).flatten ++ out := by
        rw [← List.append_assoc, flatten_replicate_comm]
        simp only [List.length_cons, List.replicate_succ, List.flatten_cons, List.append_assoc]
      rw [e] at ih'
      exact ⟨ih'.2, ih'.2⟩

/-- The elements of a text in three parts, from the runs of the reader through
the parts. -/
theorem panelElements_of_runs (a b c : List Char) (p1 p2 : PanelReader)
    (out : List Element) (h1 : panelRun panelInit [] a = some (p1, []))
    (h2 : panelRun p1 [] b = some (p2, out))
    (h3 : (panelRun p2 [] c).map (fun r => (scanEof r.1.scan, r.2)) = some (true, [])) :
    panelElements (a ++ b ++ c) = some out.reverse := by
  unfold panelElements
  rw [panelRun_append, panelRun_append, h1]
  simp only
  rw [h2]
  simp only
  rw [panelRun_out]
  cases hr : panelRun p2 [] c with
  | none => rw [hr] at h3; exact absurd h3 (by simp)
  | some r =>
    rw [hr] at h3
    simp only [Option.map_some', Option.some.injEq, Prod.mk.injEq] at h3
    obtain ⟨he, ho⟩ := h3
    simp only [Option.map_some', he, ho, List.nil_append, if_true]

/-- The elements of the array of the panels of the rendered document: twelve
objects with the ids 2 to 13 for each instance, when the escaped form of every
identifier can stand between the quotes of a JSON string. -/
theorem panelElements_boardDocument (l : List String) (h : l.all goodIdent = true) :
    panelElements (boardDocument escapedBlock l) =
      some (List.replicate l.length blockElements).flatten := by
  unfold boardDocument
  cases l with
  | nil =>
    have hn : panelRun readerOpen [] (blocksFrom escapedBlock ([] : List String).length 0 [])
        = some (readerOpen, []) := rfl
    exact panelElements_of_runs _ _ _ _ _ _ panelRun_head hn panelRun_tail.2
  | cons s rest =>
    have hg : ∀ s' ∈ s :: rest, goodIdent s' = true := List.all_eq_true.mp h
    have hb := panelRun_blocksFrom escapedBlock (s :: rest).length (s :: rest)
      (fun s hs =>
        ⟨panelNodes_fill _ (htmlReplacer_no_quote s.data) (hg s hs) panelBlock _ _ _
            panelNodes_panelBlock_open,
          panelNodes_fill _ (htmlReplacer_no_quote s.data) (hg s hs) panelBlock _ _ _
            panelNodes_panelBlock_comma⟩) 0 (by simp) (by simp) []
    have he := panelElements_of_runs _ _ _ _ _ _ panelRun_head hb.1 panelRun_tail.1
    rw [he, List.append_nil, reverse_flatten_replicate]

/-- The elements of the array of the panels of the rendered document, for every
list of instances: twelve objects for each instance when the document is valid
JSON, and nothing when it is not. -/
theorem panelElements_boardDocument_eq (l : List String) :
    panelElements (boardDocument escapedBlock l) =
      if checkValid (boardDocument escapedBlock l) = true then
        some (List.replicate l.length blockElements).flatten
      else none := by
  by_cases hv : checkValid (boardDocument escapedBlock l) = true
  · rw [if_pos hv]
    exact panelElements_boardDocument l (by rw [← checkValid_boardDocument_eq]; exact hv)
  · rw [if_neg hv]
    have h := panelElements_isSome (boardDocument escapedBlock l)
    have hf : checkValid (boardDocument escapedBlock l) = false := by simpa using hv
    rw [hf] at h
    cases hp : panelElements (boardDocument escapedBlock l) with
    | none => rfl
    | some x => rw [hp] at h; exact absurd h (by simp)

/-! ### The claim on the panels of the rendered document -/

/-- The length of `n` copies of a list, one after the other. -/
theorem length_flatten_replicate {α : Type} (a : List α) (n : Nat) :
    (List.replicate n a).flatten.length = n * a.length := by
  induction n with
  | zero => simp
  | succ m ih =>
    simp only [List.replicate_succ, List.flatten_cons, List.length_append, ih]
    rw [Nat.succ_mul, Nat.add_comm]

/-- The occurrences of an element in `n` copies of a list, one after the
other. -/
theorem count_flatten_replicate {α : Type} [DecidableEq α] (a : List α) (x : α) (n : Nat) :
    (List.replicate n a).flatten.count x = n * a.count x := by
  induction n with
  | zero => simp
  | succ m ih =>
    simp only [List.replicate_succ, List.flatten_cons, List.count_append, ih]
    rw [Nat.succ_mul, Nat.add_comm]

set_option maxRecDepth 1000000 in
/-- The array of the panels for the one instance whose identifier is a single
backslash: the rendered document is not valid JSON, and the reader gives
nothing. -/
theorem panelElements_backslash :
    (renderStaticBoard ["\\"]).bind panelElements = none ∧
    (renderStaticBoard ["\\"]).map checkValid = some false := by
  rw [renderStaticBoard_eq, Option.some_bind, Option.map_some']
  decide!

/-- The panels for two usual instances: the document is valid JSON and its
array holds twenty-four objects, with each id twice. -/
theorem panelElements_two_instances :
    panelElements (boardDocument escapedBlock ["10.0.0.1:9100", "node-b:9100"]) =
      some (List.replicate 2 blockElements).flatten := by
  have h := panelElements_boardDocument_eq ["10.0.0.1:9100", "node-b:9100"]
  have hv : checkValid (boardDocument escapedBlock ["10.0.0.1:9100", "node-b:9100"]) = true := by
    rw [checkValid_boardDocument_eq]; decide
  rw [if_pos hv] at h
  exact h

/-- C16: for every list of `N` instances the rendered document is the fixed
text before the array of `"panels"`, one panel block for each instance, and the
fixed text after it; the panel block holds twelve panel objects, with the ids 2
to 13, whatever string body stands in its placeholders, which are all inside
string values.  For every rendered document that is valid JSON the array of
`"panels"` holds exactly `12 * N` elements, all of them objects, and each id
from 2 to 13 occurs `N` times in it, once for each block: for `N >= 2` the ids
are not unique in the document.  A rendered document that is not valid JSON has
no array of panels, and the document for the one instance whose identifier is a
single backslash is such a document: there the array does not hold its twelve
panel objects. -/
theorem panelElements_rendered (l : List String) :
    renderStaticBoard l = some (boardDocument escapedBlock l) ∧
    (panelNodes readerOpen [] panelBlock
        = some (readerAfter scanPanelsValue, blockElements.reverse) ∧
      panelNodes (readerAfter scanPanelsComma) [] panelBlock
        = some (readerAfter scanPanelsValue, blockElements.reverse)) ∧
    blockElements = (List.range' 2 12).map (fun i => Element.object (some i)) ∧
    panelElements (boardDocument escapedBlock l) =
      (if checkValid (boardDocument escapedBlock l) = true then
        some (List.replicate l.length blockElements).flatten
      else none) ∧
    (List.replicate l.length blockElements).flatten.length = 12 * l.length ∧
    (∀ i, 2 ≤ i → i ≤ 13 →
      (List.replicate l.length blockElements).flatten.count (.object (some i)) = l.length) ∧
    (2 ≤ l.length → ¬ (List.replicate l.length blockElements).flatten.Nodup) ∧
    (renderStaticBoard ["\\"]).bind panelElements = none := by
  have hc : ∀ i, 2 ≤ i → i ≤ 13 →
      (List.replicate l.length blockElements).flatten.count (.object (some i)) = l.length := by
    intro i h2 h13
    rw [count_flatten_replicate]
    have h1 : blockElements.count (.object (some i)) = 1 := by
      interval_cases i <;> decide
    rw [h1, Nat.mul_one]
  refine ⟨renderStaticBoard_eq l, ⟨panelNodes_panelBlock_open, panelNodes_panelBlock_comma⟩,
    by decide, panelElements_boardDocument_eq l, ?_, hc, ?_, panelElements_backslash.1⟩
  · rw [length_flatten_replicate, Nat.mul_comm]
    rfl
  · intro hn hnd
    have h1 := List.nodup_iff_count_le_one.mp hnd (.object (some 2))
    rw [hc 2 (by decide) (by decide)] at h1
    omega

end Helpers
